import Mathlib

/-!
# stl3d: binary STL codec and heightmap mesh builder

A shallow embedding of `stl3d_lib.c` and `stl3d_heightmap.c`.

Conventions of the embedding

* `unsigned char` is `Fin 256`; `unsigned int` and `unsigned short` values are
  natural numbers, reduced modulo `2 ^ 32` where the C arithmetic can wrap.
* The codec never computes with a `float`: `fread` and `fwrite` move the four
  bytes of its object representation.  There a `float` is the record `float_t`
  of these four bytes.  The mesh builder computes with `double` and stores
  `float`; there both are exact rationals and the cast `(float)` is the
  identity.  The coordinate type is therefore a parameter `F` of `triplet_t`,
  `facet_t` and `stl_t`.
* A stream opened for reading is the list of bytes not yet read; a stream
  opened for writing is the list of bytes written so far.  The file system is
  a map from paths to contents.  `fopen(_, "wb")` and `fwrite` do not fail in
  the embedding; `fopen(_, "rb")` fails exactly when no file exists at the
  path.
* The allocation of the facet array in `stl_read_file`, whose size comes from
  the file, is decided by an allocator `heap`: `heap n` says whether
  `malloc(n)` returns a block.  The other allocations (a single `stl_t`, the
  arrays of the mesh builder) do not fail in the embedding.
* `stl_read_file` has the result `none` where the behaviour of the C code is
  undefined because it writes outside the block it allocated.  In the mesh
  builder a write outside the facet array changes nothing; this happens only
  where the facet count has wrapped around.
* A function that returns a status and writes a result through a pointer
  returns the pair of the status and the value written (`none`: the pointer
  target was left untouched).  Pointers to locals and to fields are always
  valid, so the `NULL` tests on them are not represented; the `NULL` tests on
  the arguments of the public functions are.
* `STL_LOG_ERR` prints a diagnostic and returns its argument.
-/

namespace Stl3d

/-! ## Declarations of `stl3d_lib.h` -/

abbrev byte := Fin 256

abbrev stl_error_t := Int

def STL_SUCCESS : stl_error_t := 0

def STL_ERROR : stl_error_t := 1

def STL_ERROR_INVALID_ARG : stl_error_t := 2

def STL_ERROR_IO_ERROR : stl_error_t := 2

/-- Modelled from the spec: `STL_ERROR_MEMORY_ERROR` is used by the sources but
not defined in `stl3d_lib.h`.  The spec lists `MemoryError` as a condition of
its own in the error taxonomy, so it gets a code that no defined constant has. -/
def STL_ERROR_MEMORY_ERROR : stl_error_t := 3

/-- Modelled from the spec: `STL_ERROR_UNSUPPORTED` is used by `stl_read_file`
but not defined in `stl3d_lib.h`.  The spec lists `UnsupportedFormat` as a
condition of its own in the error taxonomy, so it gets a code that no defined
constant has. -/
def STL_ERROR_UNSUPPORTED : stl_error_t := 4

def STL_HEADER_SIZE : Nat := 80

/-- The logging wrapper `_log_err`: prints when `error` is not `STL_SUCCESS`
and returns `error`. -/
def STL_LOG_ERR (error : stl_error_t) : stl_error_t := error

/-- A `float` as the codec sees it: the four bytes of its object
representation, in memory order. -/
structure float_t where
  b0 : byte
  b1 : byte
  b2 : byte
  b3 : byte
deriving DecidableEq, Repr

structure triplet_t (F : Type) where
  t1 : F
  t2 : F
  t3 : F
deriving DecidableEq, Repr

structure facet_t (F : Type) where
  normal : triplet_t F
  vertex1 : triplet_t F
  vertex2 : triplet_t F
  vertex3 : triplet_t F
  abc : Nat
deriving DecidableEq, Repr

structure stl_t (F : Type) where
  header : List byte
  facets_count : Nat
  facets : List (facet_t F)
deriving DecidableEq, Repr

/-- File contents by path; `none` where no file exists. -/
abbrev filesystem := String → Option (List byte)

/-! ## `stl3d_lib.c`: little-endian helpers -/

def stl_pack_le32 (buffer : List byte) : Nat :=
  ((buffer.getD 3 0).val <<< 24) |||
  ((buffer.getD 2 0).val <<< 16) |||
  ((buffer.getD 1 0).val <<< 8) |||
  ((buffer.getD 0 0).val <<< 0)

def stl_pack_le16 (buffer : List byte) : Nat :=
  ((buffer.getD 1 0).val <<< 8) ||| ((buffer.getD 0 0).val <<< 0)

def stl_unpack_le32 (val : Nat) : stl_error_t × List byte :=
  let error := STL_SUCCESS
  let buffer : List byte :=
    [Fin.ofNat ((val >>> 0) &&& 0xFF),
     Fin.ofNat ((val >>> 8) &&& 0xFF),
     Fin.ofNat ((val >>> 16) &&& 0xFF),
     Fin.ofNat ((val >>> 24) &&& 0xFF)]
  (STL_LOG_ERR error, buffer)

def stl_unpack_le16 (val : Nat) : stl_error_t × List byte :=
  let error := STL_SUCCESS
  let buffer : List byte :=
    [Fin.ofNat ((val >>> 0) &&& 0xFF),
     Fin.ofNat ((val >>> 8) &&& 0xFF)]
  (STL_LOG_ERR error, buffer)

/-! ## `stl3d_lib.c`: reading -/

/-- The call `fread(buf, 1, n, fp)`: the bytes delivered (at most `n`, fewer
only at end of file) and the stream after the call. -/
def fread (n : Nat) (fp : List byte) : List byte × List byte :=
  (fp.take n, fp.drop n)

/-- The `float` stored at `vals[k]` of a buffer of raw bytes. -/
def float_at (vals : List byte) (k : Nat) : float_t :=
  ⟨vals.getD (4 * k) 0, vals.getD (4 * k + 1) 0, vals.getD (4 * k + 2) 0, vals.getD (4 * k + 3) 0⟩

def stl_read_next_triplet (fp : List byte) (triplet : triplet_t float_t) :
    stl_error_t × List byte × triplet_t float_t :=
  let error := STL_SUCCESS
  let (vals, fp) := fread 12 fp
  let error := if 12 ≠ vals.length then STL_LOG_ERR STL_ERROR else error
  let triplet :=
    if STL_SUCCESS = error then
      { t1 := float_at vals 0, t2 := float_at vals 1, t3 := float_at vals 2 }
    else triplet
  (STL_LOG_ERR error, fp, triplet)

def stl_read_next_facet (fp : List byte) (facet : facet_t float_t) :
    stl_error_t × List byte × facet_t float_t :=
  let error := STL_SUCCESS
  let (error, fp, normal) :=
    if STL_SUCCESS = error then stl_read_next_triplet fp facet.normal
    else (error, fp, facet.normal)
  let (error, fp, vertex1) :=
    if STL_SUCCESS = error then stl_read_next_triplet fp facet.vertex1
    else (error, fp, facet.vertex1)
  let (error, fp, vertex2) :=
    if STL_SUCCESS = error then stl_read_next_triplet fp facet.vertex2
    else (error, fp, facet.vertex2)
  let (error, fp, vertex3) :=
    if STL_SUCCESS = error then stl_read_next_triplet fp facet.vertex3
    else (error, fp, facet.vertex3)
  let (uint16_bytes, fp) := if STL_SUCCESS = error then fread 2 fp else ([], fp)
  let error :=
    if STL_SUCCESS = error then
      (if 2 ≠ uint16_bytes.length then STL_LOG_ERR STL_ERROR else error)
    else error
  let abc := if STL_SUCCESS = error then stl_pack_le16 uint16_bytes else facet.abc
  (STL_LOG_ERR error, fp,
    { normal := normal, vertex1 := vertex1, vertex2 := vertex2, vertex3 := vertex3, abc := abc })

/-- The value of freshly allocated facet storage before it is read into. -/
def facet_zero : facet_t float_t :=
  let z : float_t := ⟨0, 0, 0, 0⟩
  let t : triplet_t float_t := ⟨z, z, z⟩
  { normal := t, vertex1 := t, vertex2 := t, vertex3 := t, abc := 0 }

/-- The loop `for(i = 0; i < stl->facets_count; i++)` of `stl_read_file`, with
`n` iterations left; `facets` holds `facets[0 .. i-1]`, and the facet read in
this iteration is `facets[i]`. -/
def stl_read_file_loop :
    Nat → List byte → List (facet_t float_t) → stl_error_t × List byte × List (facet_t float_t)
  | 0, fp, facets => (STL_SUCCESS, fp, facets)
  | n + 1, fp, facets =>
    let (error, fp, facet) := stl_read_next_facet fp facet_zero
    if STL_SUCCESS ≠ error then (error, fp, facets ++ [facet])
    else stl_read_file_loop n fp (facets ++ [facet])

/-- The ASCII characters of the string literal `"solid"`. -/
def solid : List byte := [0x73, 0x6f, 0x6c, 0x69, 0x64]

/-- The allocator: `heap n` is `true` when `malloc(n)` returns a block and
`false` when it returns `NULL`.  What `malloc(0)` returns is left to the
implementation by the C standard; both answers are allocators. -/
abbrev heap_t := Nat → Bool

/-- The value of `sizeof(facet_t)`: twelve `float`s and an `unsigned short`,
padded to the alignment of `float`. -/
def sizeof_facet_t : Nat := 52

/-- The result is `none` where the behaviour is undefined: the call
`memset(stl->facets, 0x00, sizeof(stl->facets[0]))` writes `sizeof(facet_t)`
bytes into the block of `facets_count * sizeof(facet_t)` bytes, which is
outside the block when `facets_count` is 0. -/
def stl_read_file (heap : heap_t) (fs : filesystem) (input_file : Option String)
    (stl_new : Bool) : Option (stl_error_t × Option (stl_t float_t)) :=
  match input_file, stl_new with
  | some path, true =>
    match fs path with
    | none => some (STL_LOG_ERR (STL_LOG_ERR STL_ERROR), none)
    | some fp =>
      let error := STL_SUCCESS
      let (header, fp) := fread STL_HEADER_SIZE fp
      let error := if STL_HEADER_SIZE ≠ header.length then STL_LOG_ERR STL_ERROR else error
      let error :=
        if STL_SUCCESS = error then
          (if header.take solid.length = solid then STL_LOG_ERR STL_ERROR_UNSUPPORTED else error)
        else error
      let (uint32_bytes, fp) := if STL_SUCCESS = error then fread 4 fp else ([], fp)
      let error :=
        if STL_SUCCESS = error then
          (if 4 ≠ uint32_bytes.length then STL_LOG_ERR STL_ERROR else error)
        else error
      let facets_count := if STL_SUCCESS = error then stl_pack_le32 uint32_bytes else 0
      let facets_null :=
        if STL_SUCCESS = error then !(heap (facets_count * sizeof_facet_t)) else false
      let memset_outside :=
        if STL_SUCCESS = error ∧ facets_null = false then
          decide (facets_count * sizeof_facet_t < sizeof_facet_t)
        else false
      let error :=
        if STL_SUCCESS = error then
          (if facets_null = true then STL_LOG_ERR STL_ERROR_MEMORY_ERROR else error)
        else error
      if memset_outside = true then none
      else
        let (error, _, facets) :=
          if STL_SUCCESS = error then stl_read_file_loop facets_count fp []
          else (error, fp, [])
        if STL_SUCCESS ≠ error then some (STL_LOG_ERR error, none)
        else some (STL_LOG_ERR error,
          some { header := header, facets_count := facets_count, facets := facets })
  | _, _ => some (STL_LOG_ERR STL_ERROR, none)

/-! ## `stl3d_lib.c`: writing -/

/-- The call `fwrite(buf, 1, n, fp)` with `buf` the `n` bytes to write: the
number of bytes written and the stream after the call. -/
def fwrite (buf : List byte) (fp : List byte) : Nat × List byte :=
  (buf.length, fp ++ buf)

/-- The object representation of the array `float vals[3]`. -/
def float_bytes (v : float_t) : List byte := [v.b0, v.b1, v.b2, v.b3]

def stl_write_next_triplet (fp : List byte) (triplet : triplet_t float_t) :
    stl_error_t × List byte :=
  let error := STL_SUCCESS
  let vals := float_bytes triplet.t1 ++ float_bytes triplet.t2 ++ float_bytes triplet.t3
  let (res, fp) := fwrite vals fp
  let error := if 12 ≠ res then STL_LOG_ERR STL_ERROR_IO_ERROR else error
  (STL_LOG_ERR error, fp)

def stl_write_next_facet (fp : List byte) (facet : facet_t float_t) :
    stl_error_t × List byte :=
  let error := STL_SUCCESS
  let (error, fp) :=
    if STL_SUCCESS = error then stl_write_next_triplet fp facet.normal else (error, fp)
  let (error, fp) :=
    if STL_SUCCESS = error then stl_write_next_triplet fp facet.vertex1 else (error, fp)
  let (error, fp) :=
    if STL_SUCCESS = error then stl_write_next_triplet fp facet.vertex2 else (error, fp)
  let (error, fp) :=
    if STL_SUCCESS = error then stl_write_next_triplet fp facet.vertex3 else (error, fp)
  let (error, uint16_bytes) :=
    if STL_SUCCESS = error then stl_unpack_le16 facet.abc else (error, [])
  let (res, fp) := if STL_SUCCESS = error then fwrite uint16_bytes fp else (0, fp)
  let error :=
    if STL_SUCCESS = error then (if 2 ≠ res then STL_LOG_ERR STL_ERROR else error)
    else error
  (STL_LOG_ERR error, fp)

/-- The loop `for(i = 0; i < stl->facets_count; i++)` of `stl_write_file`, with
`n` iterations left and loop counter `i`.  The array `stl->facets` is the list
`facets`; reading past its end has no meaning in C and yields `facet_zero`
here. -/
def stl_write_file_loop (facets : List (facet_t float_t)) :
    Nat → Nat → List byte → stl_error_t × List byte
  | 0, _, fp => (STL_SUCCESS, fp)
  | n + 1, i, fp =>
    let (error, fp) := stl_write_next_facet fp (facets.getD i facet_zero)
    if STL_SUCCESS ≠ error then (error, fp)
    else stl_write_file_loop facets n (i + 1) fp

def stl_write_file (fs : filesystem) (output_file : Option String)
    (stl : Option (stl_t float_t)) : stl_error_t × filesystem :=
  match output_file, stl with
  | some path, some stl =>
    match fs path with
    | some _ => (STL_LOG_ERR (STL_LOG_ERR STL_ERROR), fs)
    | none =>
      let error := STL_SUCCESS
      let fp : List byte := []
      let (res, fp) := fwrite (stl.header.take STL_HEADER_SIZE) fp
      let error := if STL_HEADER_SIZE ≠ res then STL_LOG_ERR STL_ERROR else error
      let (error, buffer) :=
        if STL_SUCCESS = error then stl_unpack_le32 stl.facets_count else (error, [])
      let (res, fp) := if STL_SUCCESS = error then fwrite buffer fp else (0, fp)
      let error :=
        if STL_SUCCESS = error then (if 4 ≠ res then STL_LOG_ERR STL_ERROR_IO_ERROR else error)
        else error
      let (error, fp) :=
        if STL_SUCCESS = error then stl_write_file_loop stl.facets stl.facets_count 0 fp
        else (error, fp)
      (STL_LOG_ERR error, fun p => if p = path then some fp else fs p)
  | _, _ => (STL_LOG_ERR STL_ERROR, fs)

/-! ## The file layout in the words of the spec -/

/-- Byte `k` of the little-endian encoding of `v`. -/
def le_byte (v k : Nat) : byte := Fin.ofNat (v / 256 ^ k % 256)

/-- The unsigned value of a little-endian byte sequence. -/
def le_value : List byte → Nat
  | [] => 0
  | b :: bs => b.val + 256 * le_value bs

/-- The 50-byte record of a facet: twelve floats (normal, vertex 1, vertex 2,
vertex 3, each x, y, z) and the attribute field as two little-endian bytes. -/
def facet_record (f : facet_t float_t) : List byte :=
  float_bytes f.normal.t1 ++ float_bytes f.normal.t2 ++ float_bytes f.normal.t3 ++
  float_bytes f.vertex1.t1 ++ float_bytes f.vertex1.t2 ++ float_bytes f.vertex1.t3 ++
  float_bytes f.vertex2.t1 ++ float_bytes f.vertex2.t2 ++ float_bytes f.vertex2.t3 ++
  float_bytes f.vertex3.t1 ++ float_bytes f.vertex3.t2 ++ float_bytes f.vertex3.t3 ++
  [le_byte f.abc 0, le_byte f.abc 1]

/-- The file of a model: header, facet count as four little-endian bytes, then
the record of each facet in order. -/
def stl_file_image (m : stl_t float_t) : List byte :=
  m.header ++
  [le_byte m.facets_count 0, le_byte m.facets_count 1,
   le_byte m.facets_count 2, le_byte m.facets_count 3] ++
  m.facets.flatMap facet_record

/-- The float whose four bytes are at offsets `off .. off + 3` of `b`. -/
def float_at_offset (b : List byte) (off : Nat) : float_t :=
  ⟨b.getD off 0, b.getD (off + 1) 0, b.getD (off + 2) 0, b.getD (off + 3) 0⟩

/-- Three consecutive floats starting at offset `off` of `b`. -/
def triplet_at_offset (b : List byte) (off : Nat) : triplet_t float_t :=
  ⟨float_at_offset b off, float_at_offset b (off + 4), float_at_offset b (off + 8)⟩

/-- The facet whose 50-byte record starts at offset `off` of `b`. -/
def facet_at_offset (b : List byte) (off : Nat) : facet_t float_t :=
  { normal := triplet_at_offset b off
    vertex1 := triplet_at_offset b (off + 12)
    vertex2 := triplet_at_offset b (off + 24)
    vertex3 := triplet_at_offset b (off + 36)
    abc := le_value [b.getD (off + 48) 0, b.getD (off + 49) 0] }

/-- The facet count announced by a file: the little-endian value of bytes
80 .. 83. -/
def announced_count (b : List byte) : Nat :=
  le_value [b.getD 80 0, b.getD 81 0, b.getD 82 0, b.getD 83 0]

/-- A value of the C type `stl_t`: an 80-byte header, a 32-bit count, an array
of `facets_count` facets, 16-bit attribute fields. -/
def stl_wf (m : stl_t float_t) : Prop :=
  m.header.length = STL_HEADER_SIZE ∧ m.facets_count < 2 ^ 32 ∧
  m.facets.length = m.facets_count ∧ ∀ f ∈ m.facets, f.abc < 2 ^ 16

instance (m : stl_t float_t) : Decidable (stl_wf m) := by
  unfold stl_wf; infer_instance

/-- A file cut short: it ends before the count field is complete or before
the last announced facet record is. -/
def truncated (b : List byte) : Prop :=
  b.length < 84 ∨ b.length < 84 + 50 * announced_count b

instance (b : List byte) : Decidable (truncated b) := by
  unfold truncated; infer_instance

/-! ## Concrete files and models used to evaluate the codec -/

def example_path : String := "model.stl"

def empty_fs : filesystem := fun _ => none

/-- A model with two facets and a header that does not start with `solid`. -/
def example_model : stl_t float_t :=
  { header := List.replicate 80 7
    facets_count := 2
    facets :=
      [facet_zero,
       { facet_zero with
         normal := ⟨⟨1, 2, 3, 4⟩, ⟨5, 6, 7, 8⟩, ⟨9, 10, 11, 12⟩⟩
         abc := 513 }] }

/-- A model without facets whose header starts with the characters `solid`. -/
def solid_model : stl_t float_t :=
  { header := solid ++ List.replicate 75 0, facets_count := 0, facets := [] }

/-- A file of exactly five bytes, the characters `solid`. -/
def solid_only_fs : filesystem := fun _ => some solid

/-- A file of 82 bytes that starts with `solid`: the header is complete, the
count field is cut after two bytes. -/
def solid_cut_file : List byte := solid ++ List.replicate 77 0

/-- A file of 84 + 50 bytes announcing one facet and not starting with
`solid`. -/
def one_facet_file : List byte :=
  List.replicate 80 1 ++ [1, 0, 0, 0] ++ List.replicate 48 9 ++ [2, 1]

/-- A file announcing one facet that is cut in the middle of its record. -/
def cut_facet_file : List byte :=
  List.replicate 80 1 ++ [1, 0, 0, 0] ++ List.replicate 30 9

/-- An allocator that returns a block for every size, `malloc(0)` included. -/
def always_heap : heap_t := fun _ => true

/-- An allocator that returns a block for every size except 0: `malloc(0)`
returns `NULL`. -/
def nonzero_heap : heap_t := fun n => decide (0 < n)

/-- An allocator that returns a block for sizes up to 4 GiB and `NULL` above. -/
def limited_heap : heap_t := fun n => decide (n ≤ 2 ^ 32)

/-- A well-formed model without facets whose header does not start with
`solid`. -/
def empty_model : stl_t float_t :=
  { header := List.replicate 80 7, facets_count := 0, facets := [] }

/-- A file of exactly 84 bytes that announces no facet and does not start with
`solid`. -/
def no_facet_file : List byte := List.replicate 80 1 ++ [0, 0, 0, 0]

/-- A file of exactly 84 bytes that announces 4294967295 facets and holds
none. -/
def huge_count_file : List byte := List.replicate 80 1 ++ [255, 255, 255, 255]

/-! ## `stl3d_heightmap.c`

`stl3d_heightmap.c` is written against declarations that are not among the
sources: the facet has an array `verticies[3]` of points with members `x`,
`y`, `z`; here `verticies[0]`, `verticies[1]`, `verticies[2]` are the fields
`vertex1`, `vertex2`, `vertex3` of `facet_t` and `x`, `y`, `z` are `t1`,
`t2`, `t3` of `triplet_t`. -/

/-- Modelled from the spec: `stl_origin_t` and `STL_ORIGIN_TOP_LEFT` are used by
the builder and declared in no source file.  The spec: "`Origin` is one of
`{BottomLeft, TopLeft}`". -/
inductive stl_origin_t
  | STL_ORIGIN_BOTTOM_LEFT
  | STL_ORIGIN_TOP_LEFT
deriving DecidableEq, Repr

/-- Modelled from the spec: the two helpers that the builder calls and that are
in no source file.  `stl_gen_normal_vector` computes the normal of a facet from
its three vertices ("normal = normalize((b−a) × (c−a))"); it is a parameter.
`fresh_header` and `fresh_facet` are what `stl_new` leaves in the header and in
each facet of a new model, which the spec does not describe. -/
structure helpers_t where
  stl_gen_normal_vector : triplet_t ℚ → triplet_t ℚ → triplet_t ℚ → triplet_t ℚ
  fresh_header : List byte
  fresh_facet : facet_t ℚ

/-- Modelled from the spec: `stl_new` is called by the builder and is in no
source file.  "The Model is preallocated to exactly this count before any
triangle is written."  Allocation does not fail in the embedding. -/
def stl_new (env : helpers_t) (facets_count : Nat) : stl_error_t × Option (stl_t ℚ) :=
  (STL_SUCCESS,
    some { header := env.fresh_header
           facets_count := facets_count
           facets := List.replicate facets_count env.fresh_facet })

/-- The three points `verticies[0]`, `verticies[1]`, `verticies[2]` of a facet. -/
abbrev verticies_t := triplet_t ℚ × triplet_t ℚ × triplet_t ℚ

/-- The locals of `stl_from_heightmap_double` that the mesh loops read.
`vals` is the sample array, indexed from `vals[0]`; `hmap[r]` points at
`vals[hmap r]`. -/
structure locals_t where
  vals : Nat → ℚ
  hmap : List Nat
  cols : Nat
  rows : Nat
  scale_pct : ℚ
  base_height : ℚ
  units_per_pixel : ℚ
  min_z_scaled : ℚ
  center_x : ℚ
  center_y : ℚ

/-- The expression `hmap[r][c]`. -/
def locals_t.at (L : locals_t) (r c : Nat) : ℚ := L.vals (L.hmap.getD r 0 + c)

/-- The setup loop `hmap[r] = &vals[r * cols]`, the product taken in
`unsigned int`. -/
def hmap_init (cols rows : Nat) : List Nat :=
  (List.range rows).map (fun r => (r * cols) % 2 ^ 32)

/-- The loop `for(i = 0, r = rows - 1; i < rows / 2; i++, r--)` that swaps
`hmap[i]` and `hmap[r]`. -/
def hmap_swap (hmap : List Nat) (rows : Nat) : List Nat :=
  ((List.range (rows / 2)).foldl
    (fun (s : List Nat × Nat) i =>
      let tmp := s.1.getD i 0
      let hmap := s.1.set i (s.1.getD s.2 0)
      let hmap := hmap.set s.2 tmp
      (hmap, s.2 - 1))
    (hmap, rows - 1)).1

/-- The count computed before `stl_new`, every step in `unsigned int`. -/
def fascet_count (cols rows : Nat) : Nat :=
  let fascet_count := ((cols - 1) * (rows - 1) * 2) % 2 ^ 32
  let fascet_count := (fascet_count + (((cols - 1) * 2) % 2 ^ 32 + ((rows - 1) * 2) % 2 ^ 32)) % 2 ^ 32
  let fascet_count := (fascet_count + ((cols - 1) * 2) % 2 ^ 32) % 2 ^ 32
  let fascet_count := (fascet_count + ((cols - 1) * 2) % 2 ^ 32) % 2 ^ 32
  let fascet_count := (fascet_count + ((rows - 1) * 2) % 2 ^ 32) % 2 ^ 32
  let fascet_count := (fascet_count + ((rows - 1) * 2) % 2 ^ 32) % 2 ^ 32
  fascet_count

/-- The loop that finds the lowest point of the heightmap. -/
def find_min_z (vals : Nat → ℚ) (hmap : List Nat) (cols rows : Nat) : ℚ :=
  (List.range rows).foldl
    (fun min_z r =>
      (List.range cols).foldl
        (fun min_z c =>
          if vals (hmap.getD r 0 + c) < min_z then vals (hmap.getD r 0 + c) else min_z)
        min_z)
    (vals (hmap.getD 0 0 + 0))

/-- The assignments to `stl->facets[f].verticies` followed by the call
`stl_gen_normal_vector(stl->facets[f].verticies, &stl->facets[f].normal)`.
A write outside the array has no meaning in C and changes nothing here. -/
def set_facet (env : helpers_t) (facets : List (facet_t ℚ)) (f : Nat) (v : verticies_t) :
    List (facet_t ℚ) :=
  facets.modify
    (fun old =>
      { old with
        vertex1 := v.1
        vertex2 := v.2.1
        vertex3 := v.2.2
        normal := env.stl_gen_normal_vector v.1 v.2.1 v.2.2 })
    f

/-- The common shape of every mesh loop body: fill `facets[f]` and
`facets[f+1]`, then `f += 2`, with `f` an `unsigned int`.  The state is the
facet array and `f`. -/
def write_pair (env : helpers_t) (s : List (facet_t ℚ) × Nat) (v w : verticies_t) :
    List (facet_t ℚ) × Nat :=
  let facets := set_facet env s.1 s.2 v
  let facets := set_facet env facets ((s.2 + 1) % 2 ^ 32) w
  (facets, (s.2 + 2) % 2 ^ 32)

/-! The vertices of the two triangles of each loop body, in source order. -/

/-- Top mesh, triangle 1: points 1, 2, 6. -/
def top_mesh_1 (L : locals_t) (r c : Nat) : verticies_t :=
  (⟨(c : ℚ) * L.units_per_pixel, (r : ℚ) * L.units_per_pixel,
      (L.at r c * (L.scale_pct / 100)) + L.base_height⟩,
   ⟨((c + 1 : Nat) : ℚ) * L.units_per_pixel, (r : ℚ) * L.units_per_pixel,
      (L.at r (c + 1) * (L.scale_pct / 100)) + L.base_height⟩,
   ⟨(c : ℚ) * L.units_per_pixel, ((r + 1 : Nat) : ℚ) * L.units_per_pixel,
      (L.at (r + 1) c * (L.scale_pct / 100)) + L.base_height⟩)

/-- Top mesh, triangle 2: points 2, 7, 6. -/
def top_mesh_2 (L : locals_t) (r c : Nat) : verticies_t :=
  (⟨((c + 1 : Nat) : ℚ) * L.units_per_pixel, (r : ℚ) * L.units_per_pixel,
      (L.at r (c + 1) * (L.scale_pct / 100)) + L.base_height⟩,
   ⟨((c + 1 : Nat) : ℚ) * L.units_per_pixel, ((r + 1 : Nat) : ℚ) * L.units_per_pixel,
      (L.at (r + 1) (c + 1) * (L.scale_pct / 100)) + L.base_height⟩,
   ⟨(c : ℚ) * L.units_per_pixel, ((r + 1 : Nat) : ℚ) * L.units_per_pixel,
      (L.at (r + 1) c * (L.scale_pct / 100)) + L.base_height⟩)

/-- Bottom mesh, left triangle: points 1, 6, center. -/
def bottom_left (L : locals_t) (r : Nat) : verticies_t :=
  (⟨(0 : ℚ) * L.units_per_pixel, (r : ℚ) * L.units_per_pixel, L.min_z_scaled - L.base_height⟩,
   ⟨(0 : ℚ) * L.units_per_pixel, ((r + 1 : Nat) : ℚ) * L.units_per_pixel,
      L.min_z_scaled - L.base_height⟩,
   ⟨L.center_x, L.center_y, L.min_z_scaled - L.base_height⟩)

/-- Bottom mesh, right triangle: points 10, 5, center. -/
def bottom_right (L : locals_t) (r : Nat) : verticies_t :=
  (⟨((L.cols - 1 : Nat) : ℚ) * L.units_per_pixel, ((r + 1 : Nat) : ℚ) * L.units_per_pixel,
      L.min_z_scaled - L.base_height⟩,
   ⟨((L.cols - 1 : Nat) : ℚ) * L.units_per_pixel, (r : ℚ) * L.units_per_pixel,
      L.min_z_scaled - L.base_height⟩,
   ⟨L.center_x, L.center_y, L.min_z_scaled - L.base_height⟩)

/-- Bottom mesh, top triangle: points 2, 1, center. -/
def bottom_top (L : locals_t) (c : Nat) : verticies_t :=
  (⟨((c + 1 : Nat) : ℚ) * L.units_per_pixel, (0 : ℚ) * L.units_per_pixel,
      L.min_z_scaled - L.base_height⟩,
   ⟨(c : ℚ) * L.units_per_pixel, (0 : ℚ) * L.units_per_pixel, L.min_z_scaled - L.base_height⟩,
   ⟨L.center_x, L.center_y, L.min_z_scaled - L.base_height⟩)

/-- Bottom mesh, bottom triangle: points 21, 22, center. -/
def bottom_bottom (L : locals_t) (c : Nat) : verticies_t :=
  (⟨(c : ℚ) * L.units_per_pixel, ((L.rows - 1 : Nat) : ℚ) * L.units_per_pixel,
      L.min_z_scaled - L.base_height⟩,
   ⟨((c + 1 : Nat) : ℚ) * L.units_per_pixel, ((L.rows - 1 : Nat) : ℚ) * L.units_per_pixel,
      L.min_z_scaled - L.base_height⟩,
   ⟨L.center_x, L.center_y, L.min_z_scaled - L.base_height⟩)

/-- Top side mesh, triangle 1: point 1 top, point 1 bottom, point 2 top. -/
def side_top_1 (L : locals_t) (c : Nat) : verticies_t :=
  (⟨(c : ℚ) * L.units_per_pixel, (0 : ℚ) * L.units_per_pixel,
      (L.at 0 c * (L.scale_pct / 100)) + L.base_height⟩,
   ⟨(c : ℚ) * L.units_per_pixel, (0 : ℚ) * L.units_per_pixel, L.min_z_scaled - L.base_height⟩,
   ⟨((c + 1 : Nat) : ℚ) * L.units_per_pixel, (0 : ℚ) * L.units_per_pixel,
      (L.at 0 (c + 1) * (L.scale_pct / 100)) + L.base_height⟩)

/-- Top side mesh, triangle 2: point 2 top, point 1 bottom, point 2 bottom. -/
def side_top_2 (L : locals_t) (c : Nat) : verticies_t :=
  (⟨((c + 1 : Nat) : ℚ) * L.units_per_pixel, (0 : ℚ) * L.units_per_pixel,
      (L.at 0 (c + 1) * (L.scale_pct / 100)) + L.base_height⟩,
   ⟨(c : ℚ) * L.units_per_pixel, (0 : ℚ) * L.units_per_pixel, L.min_z_scaled - L.base_height⟩,
   ⟨((c + 1 : Nat) : ℚ) * L.units_per_pixel, (0 : ℚ) * L.units_per_pixel,
      L.min_z_scaled - L.base_height⟩)

/-- Bottom side mesh, triangle 1: point 21 top, point 22 top, point 21 bottom. -/
def side_bottom_1 (L : locals_t) (c : Nat) : verticies_t :=
  (⟨(c : ℚ) * L.units_per_pixel, ((L.rows - 1 : Nat) : ℚ) * L.units_per_pixel,
      (L.at (L.rows - 1) c * (L.scale_pct / 100)) + L.base_height⟩,
   ⟨((c + 1 : Nat) : ℚ) * L.units_per_pixel, ((L.rows - 1 : Nat) : ℚ) * L.units_per_pixel,
      (L.at (L.rows - 1) (c + 1) * (L.scale_pct / 100)) + L.base_height⟩,
   ⟨(c : ℚ) * L.units_per_pixel, ((L.rows - 1 : Nat) : ℚ) * L.units_per_pixel,
      L.min_z_scaled - L.base_height⟩)

/-- Bottom side mesh, triangle 2: point 22 top, point 22 bottom, point 21
bottom. -/
def side_bottom_2 (L : locals_t) (c : Nat) : verticies_t :=
  (⟨((c + 1 : Nat) : ℚ) * L.units_per_pixel, ((L.rows - 1 : Nat) : ℚ) * L.units_per_pixel,
      (L.at (L.rows - 1) (c + 1) * (L.scale_pct / 100)) + L.base_height⟩,
   ⟨((c + 1 : Nat) : ℚ) * L.units_per_pixel, ((L.rows - 1 : Nat) : ℚ) * L.units_per_pixel,
      L.min_z_scaled - L.base_height⟩,
   ⟨(c : ℚ) * L.units_per_pixel, ((L.rows - 1 : Nat) : ℚ) * L.units_per_pixel,
      L.min_z_scaled - L.base_height⟩)

/-- Left side mesh, triangle 1: point 1 top, point 6 top, point 1 bottom. -/
def side_left_1 (L : locals_t) (r : Nat) : verticies_t :=
  (⟨(0 : ℚ) * L.units_per_pixel, (r : ℚ) * L.units_per_pixel,
      (L.at r 0 * (L.scale_pct / 100)) + L.base_height⟩,
   ⟨(0 : ℚ) * L.units_per_pixel, ((r + 1 : Nat) : ℚ) * L.units_per_pixel,
      (L.at (r + 1) 0 * (L.scale_pct / 100)) + L.base_height⟩,
   ⟨(0 : ℚ) * L.units_per_pixel, (r : ℚ) * L.units_per_pixel, L.min_z_scaled - L.base_height⟩)

/-- Left side mesh, triangle 2: point 6 top, point 6 bottom, point 1 bottom. -/
def side_left_2 (L : locals_t) (r : Nat) : verticies_t :=
  (⟨(0 : ℚ) * L.units_per_pixel, ((r + 1 : Nat) : ℚ) * L.units_per_pixel,
      (L.at (r + 1) 0 * (L.scale_pct / 100)) + L.base_height⟩,
   ⟨(0 : ℚ) * L.units_per_pixel, ((r + 1 : Nat) : ℚ) * L.units_per_pixel,
      L.min_z_scaled - L.base_height⟩,
   ⟨(0 : ℚ) * L.units_per_pixel, (r : ℚ) * L.units_per_pixel, L.min_z_scaled - L.base_height⟩)

/-- Right side mesh, triangle 1: point 5 top, point 5 bottom, point 10 top. -/
def side_right_1 (L : locals_t) (r : Nat) : verticies_t :=
  (⟨((L.cols - 1 : Nat) : ℚ) * L.units_per_pixel, (r : ℚ) * L.units_per_pixel,
      (L.at r (L.cols - 1) * (L.scale_pct / 100)) + L.base_height⟩,
   ⟨((L.cols - 1 : Nat) : ℚ) * L.units_per_pixel, (r : ℚ) * L.units_per_pixel,
      L.min_z_scaled - L.base_height⟩,
   ⟨((L.cols - 1 : Nat) : ℚ) * L.units_per_pixel, ((r + 1 : Nat) : ℚ) * L.units_per_pixel,
      (L.at (r + 1) (L.cols - 1) * (L.scale_pct / 100)) + L.base_height⟩)

/-- Right side mesh, triangle 2: point 10 top, point 5 bottom, point 10
bottom. -/
def side_right_2 (L : locals_t) (r : Nat) : verticies_t :=
  (⟨((L.cols - 1 : Nat) : ℚ) * L.units_per_pixel, ((r + 1 : Nat) : ℚ) * L.units_per_pixel,
      (L.at (r + 1) (L.cols - 1) * (L.scale_pct / 100)) + L.base_height⟩,
   ⟨((L.cols - 1 : Nat) : ℚ) * L.units_per_pixel, (r : ℚ) * L.units_per_pixel,
      L.min_z_scaled - L.base_height⟩,
   ⟨((L.cols - 1 : Nat) : ℚ) * L.units_per_pixel, ((r + 1 : Nat) : ℚ) * L.units_per_pixel,
      L.min_z_scaled - L.base_height⟩)

/-- The seven mesh loops in source order: top mesh, bottom mesh (left and
right, then top and bottom), top side, bottom side, left side, right side.
The state is the facet array and `f`. -/
def mesh_loops (env : helpers_t) (L : locals_t) (s : List (facet_t ℚ) × Nat) :
    List (facet_t ℚ) × Nat :=
  let s := (List.range (L.rows - 1)).foldl
    (fun s r => (List.range (L.cols - 1)).foldl
      (fun s c => write_pair env s (top_mesh_1 L r c) (top_mesh_2 L r c)) s) s
  let s := (List.range (L.rows - 1)).foldl
    (fun s r => write_pair env s (bottom_left L r) (bottom_right L r)) s
  let s := (List.range (L.cols - 1)).foldl
    (fun s c => write_pair env s (bottom_top L c) (bottom_bottom L c)) s
  let s := (List.range (L.cols - 1)).foldl
    (fun s c => write_pair env s (side_top_1 L c) (side_top_2 L c)) s
  let s := (List.range (L.cols - 1)).foldl
    (fun s c => write_pair env s (side_bottom_1 L c) (side_bottom_2 L c)) s
  let s := (List.range (L.rows - 1)).foldl
    (fun s r => write_pair env s (side_left_1 L r) (side_left_2 L r)) s
  let s := (List.range (L.rows - 1)).foldl
    (fun s r => write_pair env s (side_right_1 L r) (side_right_2 L r)) s
  s

/-- The values of the locals when the mesh loops run. -/
def locals_of (vals : Nat → ℚ) (origin : stl_origin_t) (cols rows : Nat)
    (scale_pct base_height units_per_pixel : ℚ) : locals_t :=
  let hmap := hmap_init cols rows
  let hmap := if stl_origin_t.STL_ORIGIN_TOP_LEFT = origin then hmap_swap hmap rows else hmap
  let min_z := find_min_z vals hmap cols rows
  { vals := vals
    hmap := hmap
    cols := cols
    rows := rows
    scale_pct := scale_pct
    base_height := base_height
    units_per_pixel := units_per_pixel
    min_z_scaled := min_z * (scale_pct / 100)
    center_x := (((cols - 1) / 2 : Nat) : ℚ) * units_per_pixel
    center_y := (((rows - 1) / 2 : Nat) : ℚ) * units_per_pixel }

def stl_from_heightmap_double (env : helpers_t) (vals : Option (Nat → ℚ))
    (origin : stl_origin_t) (cols rows : Nat) (scale_pct base_height units_per_pixel : ℚ)
    (newstl : Bool) : stl_error_t × Option (stl_t ℚ) :=
  let error :=
    if vals.isNone ∨ cols < 2 ∨ rows < 2 ∨ scale_pct ≤ 0 ∨ units_per_pixel ≤ 0 ∨ newstl = false
    then STL_LOG_ERR STL_ERROR_INVALID_ARG else STL_SUCCESS
  let (error, stl) :=
    if STL_SUCCESS = error then stl_new env (fascet_count cols rows) else (error, none)
  let stl :=
    if STL_SUCCESS = error then
      stl.map (fun stl =>
        { stl with
          facets :=
            (mesh_loops env
              (locals_of (vals.getD (fun _ => 0)) origin cols rows scale_pct base_height
                units_per_pixel)
              (stl.facets, 0)).1 })
    else stl
  if STL_SUCCESS ≠ error then (STL_LOG_ERR error, none) else (STL_LOG_ERR error, stl)

/-! ## The mesh in the words of the spec -/

/-- The facet count of the spec for a `cols × rows` grid. -/
def facet_total (cols rows : Nat) : Nat :=
  2 * (cols - 1) * (rows - 1) + 2 * (cols - 1) + 2 * (rows - 1) + 4 * (cols - 1) + 4 * (rows - 1)

/-- Arguments that the builder accepts and whose facet count fits the
`unsigned int` in which `fascet_count` and `f` are kept. -/
def valid_input (cols rows : Nat) (scale_pct units_per_pixel : ℚ) : Prop :=
  2 ≤ cols ∧ 2 ≤ rows ∧ 0 < scale_pct ∧ 0 < units_per_pixel ∧ facet_total cols rows < 2 ^ 32

instance (cols rows : Nat) (scale_pct units_per_pixel : ℚ) :
    Decidable (valid_input cols rows scale_pct units_per_pixel) := by
  unfold valid_input; infer_instance

/-- The sample of grid cell `(r, c)` of a dense row-major grid. -/
def sample (vals : Nat → ℚ) (cols r c : Nat) : ℚ := vals (r * cols + c)

/-- The position `P(r, c)` of the spec for grid cell `(r, c)`. -/
def position (vals : Nat → ℚ) (cols : Nat) (scale_pct base_height units_per_pixel : ℚ)
    (r c : Nat) : triplet_t ℚ :=
  ⟨(c : ℚ) * units_per_pixel, (r : ℚ) * units_per_pixel,
    sample vals cols r c * scale_pct / 100 + base_height⟩

/-- The grid whose row `i` is row `rows - 1 - i` of `vals`. -/
def flip_rows (vals : Nat → ℚ) (cols rows : Nat) : Nat → ℚ :=
  fun i => vals ((rows - 1 - i / cols) * cols + i % cols)

/-- The facet that the builder leaves at an index it has filled with the
vertices `v`: a fresh facet with these vertices and their normal. -/
def mk_facet (env : helpers_t) (v : verticies_t) : facet_t ℚ :=
  { env.fresh_facet with
    vertex1 := v.1
    vertex2 := v.2.1
    vertex3 := v.2.2
    normal := env.stl_gen_normal_vector v.1 v.2.1 v.2.2 }

/-- The facets of the top surface, in index order. -/
def top_facets (env : helpers_t) (L : locals_t) : List (facet_t ℚ) :=
  (List.range (L.rows - 1)).flatMap fun r =>
    (List.range (L.cols - 1)).flatMap fun c =>
      [mk_facet env (top_mesh_1 L r c), mk_facet env (top_mesh_2 L r c)]

/-- The facets of the bottom cap, in index order. -/
def cap_facets (env : helpers_t) (L : locals_t) : List (facet_t ℚ) :=
  ((List.range (L.rows - 1)).flatMap fun r =>
    [mk_facet env (bottom_left L r), mk_facet env (bottom_right L r)]) ++
  ((List.range (L.cols - 1)).flatMap fun c =>
    [mk_facet env (bottom_top L c), mk_facet env (bottom_bottom L c)])

/-- The facets of the four side walls, in index order. -/
def wall_facets (env : helpers_t) (L : locals_t) : List (facet_t ℚ) :=
  ((List.range (L.cols - 1)).flatMap fun c =>
    [mk_facet env (side_top_1 L c), mk_facet env (side_top_2 L c)]) ++
  ((List.range (L.cols - 1)).flatMap fun c =>
    [mk_facet env (side_bottom_1 L c), mk_facet env (side_bottom_2 L c)]) ++
  ((List.range (L.rows - 1)).flatMap fun r =>
    [mk_facet env (side_left_1 L r), mk_facet env (side_left_2 L r)]) ++
  ((List.range (L.rows - 1)).flatMap fun r =>
    [mk_facet env (side_right_1 L r), mk_facet env (side_right_2 L r)])

/-- All facets of the mesh, in index order. -/
def mesh_facets (env : helpers_t) (L : locals_t) : List (facet_t ℚ) :=
  top_facets env L ++ cap_facets env L ++ wall_facets env L

/-- A piece of code that, started with `f` at the first unfilled index of an
array of fresh facets, fills the next `E.length` entries with `E` and leaves
`f` behind them. -/
def Emits (env : helpers_t)
    (body : List (facet_t ℚ) × Nat → List (facet_t ℚ) × Nat) (E : List (facet_t ℚ)) : Prop :=
  ∀ (pre : List (facet_t ℚ)) (k : Nat), pre.length + E.length < 2 ^ 32 →
    body (pre ++ List.replicate (E.length + k) env.fresh_facet, pre.length) =
      (pre ++ E ++ List.replicate k env.fresh_facet, pre.length + E.length)

/-- The vertices of the bottom-cap facet with index `j` within the cap: the
left and right fan triangles of row segment `j / 2` alternate, then the top
and bottom fan triangles of column segment alternate. -/
def cap_verticies (L : locals_t) (j : Nat) : verticies_t :=
  if j < 2 * (L.rows - 1) then
    (if j % 2 = 0 then bottom_left L (j / 2) else bottom_right L (j / 2))
  else
    (if (j - 2 * (L.rows - 1)) % 2 = 0 then bottom_top L ((j - 2 * (L.rows - 1)) / 2)
     else bottom_bottom L ((j - 2 * (L.rows - 1)) / 2))

/-- The vertices of the side-wall facet with index `j` within the side walls:
top side, bottom side, left side, right side, two triangles per segment. -/
def wall_verticies (L : locals_t) (j : Nat) : verticies_t :=
  if j < 2 * (L.cols - 1) then
    (if j % 2 = 0 then side_top_1 L (j / 2) else side_top_2 L (j / 2))
  else if j < 4 * (L.cols - 1) then
    (if (j - 2 * (L.cols - 1)) % 2 = 0 then side_bottom_1 L ((j - 2 * (L.cols - 1)) / 2)
     else side_bottom_2 L ((j - 2 * (L.cols - 1)) / 2))
  else if j < 4 * (L.cols - 1) + 2 * (L.rows - 1) then
    (if (j - 4 * (L.cols - 1)) % 2 = 0 then side_left_1 L ((j - 4 * (L.cols - 1)) / 2)
     else side_left_2 L ((j - 4 * (L.cols - 1)) / 2))
  else
    (if (j - (4 * (L.cols - 1) + 2 * (L.rows - 1))) % 2 = 0 then
      side_right_1 L ((j - (4 * (L.cols - 1) + 2 * (L.rows - 1))) / 2)
     else side_right_2 L ((j - (4 * (L.cols - 1) + 2 * (L.rows - 1))) / 2))

/-- `minZ` is the minimum sample of the grid: no sample is below it and some
sample equals it. -/
def is_minimum (vals : Nat → ℚ) (cols rows : Nat) (minZ : ℚ) : Prop :=
  (∀ r < rows, ∀ c < cols, minZ ≤ sample vals cols r c) ∧
  ∃ r < rows, ∃ c < cols, minZ = sample vals cols r c

/-- The floor height `floorZ` of the spec. -/
def floor_z (minZ scale_pct base_height : ℚ) : ℚ := minZ * scale_pct / 100 - base_height

/-- The lower vertices of the side-wall facet with index `j` within the side
walls, by the labels of the source: the second triangle of every segment has
its lower corners in `verticies[1]` and `verticies[2]`; the first triangle has
its one lower corner in `verticies[1]` on the top and right sides and in
`verticies[2]` on the bottom and left sides. -/
def lower_vertices (cols rows j : Nat) (fa : facet_t ℚ) : List (triplet_t ℚ) :=
  if j % 2 = 1 then [fa.vertex2, fa.vertex3]
  else if j < 2 * (cols - 1) then [fa.vertex2]
  else if j < 4 * (cols - 1) + 2 * (rows - 1) then [fa.vertex3]
  else [fa.vertex2]

/-! ## Concrete grids used to evaluate the builder -/

/-- Helpers that leave zeroes in a fresh model and give every facet the zero
normal. -/
def example_env : helpers_t :=
  { stl_gen_normal_vector := fun _ _ _ => ⟨0, 0, 0⟩
    fresh_header := List.replicate 80 0
    fresh_facet := ⟨⟨0, 0, 0⟩, ⟨0, 0, 0⟩, ⟨0, 0, 0⟩, ⟨0, 0, 0⟩, 0⟩ }

/-- A grid of 3 columns and 2 rows: row 0 is `1 2 3`, row 1 is `4 5 6`. -/
def example_grid : Nat → ℚ := fun i => [1, 2, 3, 4, 5, 6].getD i 0

/-- A grid whose samples are all zero, of any size. -/
def zero_grid : Nat → ℚ := fun _ => 0

/-! ## The corner points of the mesh -/

/-- The point that the loops compute for the top surface at grid cell
`(r, c)`. -/
def locals_t.top (L : locals_t) (r c : Nat) : triplet_t ℚ :=
  ⟨(c : ℚ) * L.units_per_pixel, (r : ℚ) * L.units_per_pixel,
    (L.at r c * (L.scale_pct / 100)) + L.base_height⟩

/-- The point that the loops compute for the floor below grid cell `(r, c)`. -/
def locals_t.floor (L : locals_t) (r c : Nat) : triplet_t ℚ :=
  ⟨(c : ℚ) * L.units_per_pixel, (r : ℚ) * L.units_per_pixel, L.min_z_scaled - L.base_height⟩

/-- The centre point of the bottom fan. -/
def locals_t.center (L : locals_t) : triplet_t ℚ :=
  ⟨L.center_x, L.center_y, L.min_z_scaled - L.base_height⟩

/-- The grid as the builder orients it: row 0 is the row of minimum Y. -/
def oriented (vals : Nat → ℚ) (origin : stl_origin_t) (cols rows : Nat) : Nat → ℚ :=
  if origin = stl_origin_t.STL_ORIGIN_TOP_LEFT then flip_rows vals cols rows else vals

/-- The point of the floor below grid cell `(r, c)`, at height `fz`. -/
def lower_pt (units_per_pixel fz : ℚ) (r c : Nat) : triplet_t ℚ :=
  ⟨(c : ℚ) * units_per_pixel, (r : ℚ) * units_per_pixel, fz⟩

/-- The centre of the spec: `((cols-1) div 2, (rows-1) div 2)` in grid units,
at height `fz`. -/
def center_pt (cols rows : Nat) (units_per_pixel fz : ℚ) : triplet_t ℚ :=
  ⟨(((cols - 1) / 2 : Nat) : ℚ) * units_per_pixel,
    (((rows - 1) / 2 : Nat) : ℚ) * units_per_pixel, fz⟩

/-- A unit segment of the grid: its two end cells `(r, c)`. -/
abbrev segment := (Nat × Nat) × (Nat × Nat)

/-- The unit segments of the grid boundary: left edge, right edge, top edge
(row 0), bottom edge (row `rows - 1`). -/
def boundary_segments (cols rows : Nat) : List segment :=
  (List.range (rows - 1)).map (fun r => ((r, 0), (r + 1, 0))) ++
  (List.range (rows - 1)).map (fun r => ((r, cols - 1), (r + 1, cols - 1))) ++
  (List.range (cols - 1)).map (fun c => ((0, c), (0, c + 1))) ++
  (List.range (cols - 1)).map (fun c => ((rows - 1, c), (rows - 1, c + 1)))

/-- The first two vertices of a facet are the two ends of a segment, at the
floor height `fz`, in either order. -/
def spans (units_per_pixel fz : ℚ) (fa : facet_t ℚ) (sg : segment) : Prop :=
  (fa.vertex1 = lower_pt units_per_pixel fz sg.1.1 sg.1.2 ∧
    fa.vertex2 = lower_pt units_per_pixel fz sg.2.1 sg.2.2) ∨
  (fa.vertex1 = lower_pt units_per_pixel fz sg.2.1 sg.2.2 ∧
    fa.vertex2 = lower_pt units_per_pixel fz sg.1.1 sg.1.2)

/-- The end cells of the first two vertices of the bottom-cap facet with index
`j` within the cap, in vertex order. -/
def cap_ends (cols rows j : Nat) : segment :=
  if j < 2 * (rows - 1) then
    (if j % 2 = 0 then ((j / 2, 0), (j / 2 + 1, 0))
     else ((j / 2 + 1, cols - 1), (j / 2, cols - 1)))
  else
    (if (j - 2 * (rows - 1)) % 2 = 0 then
      ((0, (j - 2 * (rows - 1)) / 2 + 1), (0, (j - 2 * (rows - 1)) / 2))
     else ((rows - 1, (j - 2 * (rows - 1)) / 2), (rows - 1, (j - 2 * (rows - 1)) / 2 + 1)))

/-- The boundary segment of the `k`-th pair of side-wall facets: the top edge
(row 0, `y = 0`) first, then the bottom edge (row `rows - 1`), the left edge
(column 0, `x = 0`) and the right edge (column `cols - 1`). -/
def wall_segment (cols rows k : Nat) : segment :=
  if k < cols - 1 then ((0, k), (0, k + 1))
  else if k < 2 * (cols - 1) then
    ((rows - 1, k - (cols - 1)), (rows - 1, k - (cols - 1) + 1))
  else if k < 2 * (cols - 1) + (rows - 1) then
    ((k - 2 * (cols - 1), 0), (k - 2 * (cols - 1) + 1, 0))
  else
    ((k - (2 * (cols - 1) + (rows - 1)), cols - 1),
      (k - (2 * (cols - 1) + (rows - 1)) + 1, cols - 1))

/-- The four corner points of the wall quad over a boundary segment: the
top-surface positions of its two samples, then the points with the same
`(x, y)` at the floor height `fz`. -/
def quad_corners (g : Nat → ℚ) (cols : Nat) (scale_pct base_height units_per_pixel fz : ℚ)
    (sg : segment) : List (triplet_t ℚ) :=
  [position g cols scale_pct base_height units_per_pixel sg.1.1 sg.1.2,
    position g cols scale_pct base_height units_per_pixel sg.2.1 sg.2.2,
    lower_pt units_per_pixel fz sg.1.1 sg.1.2,
    lower_pt units_per_pixel fz sg.2.1 sg.2.2]

/-- The three vertices of a facet, in stored order. -/
def verts (fa : facet_t ℚ) : List (triplet_t ℚ) := [fa.vertex1, fa.vertex2, fa.vertex3]

/-- The three directed edges of a facet between consecutive vertices. -/
def edges (fa : facet_t ℚ) : List (triplet_t ℚ × triplet_t ℚ) :=
  [(fa.vertex1, fa.vertex2), (fa.vertex2, fa.vertex3), (fa.vertex3, fa.vertex1)]

/-- Modelled from the spec: `stl_gen_normal_vector` is in no source file; this
is the vector `(b - a) × (c - a)` of a facet with vertices `a`, `b`, `c` in
stored order, which the spec says the normal is the normalisation of. -/
def cross (fa : facet_t ℚ) : triplet_t ℚ :=
  let v1 : triplet_t ℚ :=
    ⟨fa.vertex2.t1 - fa.vertex1.t1, fa.vertex2.t2 - fa.vertex1.t2, fa.vertex2.t3 - fa.vertex1.t3⟩
  let v2 : triplet_t ℚ :=
    ⟨fa.vertex3.t1 - fa.vertex1.t1, fa.vertex3.t2 - fa.vertex1.t2, fa.vertex3.t3 - fa.vertex1.t3⟩
  ⟨v1.t2 * v2.t3 - v1.t3 * v2.t2, v1.t3 * v2.t1 - v1.t1 * v2.t3, v1.t1 * v2.t2 - v1.t2 * v2.t1⟩

/-- The triangles of a shell over a grid of `R × C` cells, from its top points
`T`, floor points `B` and fan centre `Ctr`: the fourteen kinds of triangle
that the seven loops of the builder write. -/
inductive in_shell (T B : Nat → Nat → triplet_t ℚ) (Ctr : triplet_t ℚ) (R C : Nat) :
    verticies_t → Prop
  | top1 (r c : Nat) (hr : r < R) (hc : c < C) :
      in_shell T B Ctr R C (T r c, T r (c + 1), T (r + 1) c)
  | top2 (r c : Nat) (hr : r < R) (hc : c < C) :
      in_shell T B Ctr R C (T r (c + 1), T (r + 1) (c + 1), T (r + 1) c)
  | cap_left (r : Nat) (hr : r < R) : in_shell T B Ctr R C (B r 0, B (r + 1) 0, Ctr)
  | cap_right (r : Nat) (hr : r < R) : in_shell T B Ctr R C (B (r + 1) C, B r C, Ctr)
  | cap_top (c : Nat) (hc : c < C) : in_shell T B Ctr R C (B 0 (c + 1), B 0 c, Ctr)
  | cap_bottom (c : Nat) (hc : c < C) : in_shell T B Ctr R C (B R c, B R (c + 1), Ctr)
  | wall_top1 (c : Nat) (hc : c < C) : in_shell T B Ctr R C (T 0 c, B 0 c, T 0 (c + 1))
  | wall_top2 (c : Nat) (hc : c < C) : in_shell T B Ctr R C (T 0 (c + 1), B 0 c, B 0 (c + 1))
  | wall_bottom1 (c : Nat) (hc : c < C) : in_shell T B Ctr R C (T R c, T R (c + 1), B R c)
  | wall_bottom2 (c : Nat) (hc : c < C) :
      in_shell T B Ctr R C (T R (c + 1), B R (c + 1), B R c)
  | wall_left1 (r : Nat) (hr : r < R) : in_shell T B Ctr R C (T r 0, T (r + 1) 0, B r 0)
  | wall_left2 (r : Nat) (hr : r < R) :
      in_shell T B Ctr R C (T (r + 1) 0, B (r + 1) 0, B r 0)
  | wall_right1 (r : Nat) (hr : r < R) : in_shell T B Ctr R C (T r C, B r C, T (r + 1) C)
  | wall_right2 (r : Nat) (hr : r < R) :
      in_shell T B Ctr R C (T (r + 1) C, B r C, B (r + 1) C)

/-- The three directed edges of a triangle given by its vertices. -/
def vedges (v : verticies_t) : List (triplet_t ℚ × triplet_t ℚ) :=
  [(v.1, v.2.1), (v.2.1, v.2.2), (v.2.2, v.1)]

/-- The third vertex of a facet lies on the line through its first two
vertices, for a facet whose first two vertices span a segment parallel to the
Y axis or to the X axis: the three X coordinates are equal, or the three Y
coordinates are. -/
def center_on_segment_line (fa : facet_t ℚ) : Prop :=
  (fa.vertex1.t1 = fa.vertex2.t1 ∧ fa.vertex3.t1 = fa.vertex1.t1) ∨
  (fa.vertex1.t2 = fa.vertex2.t2 ∧ fa.vertex3.t2 = fa.vertex1.t2)

/-! ## The facet indices that the mesh loops assign -/

/-- The loop body of `write_pair` seen through the indices it assigns: the
state is the list of the indices assigned so far, in order of assignment, and
`f`.  The body assigns `facets[f]` and `facets[f+1]`, then `f += 2`, with `f`
an `unsigned int`. -/
def index_pair (s : List Nat × Nat) : List Nat × Nat :=
  (s.1 ++ [s.2, (s.2 + 1) % 2 ^ 32], (s.2 + 2) % 2 ^ 32)

/-- The seven mesh loops of `mesh_loops` seen through the indices they
assign. -/
def mesh_indices (cols rows : Nat) (s : List Nat × Nat) : List Nat × Nat :=
  let s := (List.range (rows - 1)).foldl
    (fun s _ => (List.range (cols - 1)).foldl (fun s _ => index_pair s) s) s
  let s := (List.range (rows - 1)).foldl (fun s _ => index_pair s) s
  let s := (List.range (cols - 1)).foldl (fun s _ => index_pair s) s
  let s := (List.range (cols - 1)).foldl (fun s _ => index_pair s) s
  let s := (List.range (cols - 1)).foldl (fun s _ => index_pair s) s
  let s := (List.range (rows - 1)).foldl (fun s _ => index_pair s) s
  let s := (List.range (rows - 1)).foldl (fun s _ => index_pair s) s
  s

/-! ## `stl3d_heightmap.c`: the variants for 8-bit samples

The sample arrays are functions of the index, as for `stl_from_heightmap_double`:
`unsigned char` samples are bytes, `signed char` samples are integers (between
-128 and 127).  The conversion `vals_double[i] = vals[i]` is exact. -/

/-- The buffer `vals_double` after the loop
`for(i = 0; i < cols * rows; i++) vals_double[i] = vals[i]`, where `vals`
gives the converted samples; the product `cols * rows` is taken in
`unsigned int`, as it is for the size of the buffer. -/
def widen_loop (vals : Nat → ℚ) (cols rows : Nat) : List ℚ :=
  (List.range ((cols * rows) % 2 ^ 32)).map vals

/-- The expression `vals_double[k]` on the buffer.  Reading outside the buffer
has no meaning in C and yields 0 here. -/
def buffer_at (vals_double : List ℚ) (k : Nat) : ℚ := vals_double.getD k 0

def stl_from_heightmap_uchar (env : helpers_t) (vals : Option (Nat → byte))
    (origin : stl_origin_t) (cols rows : Nat) (scale_pct base_height units_per_pixel : ℚ)
    (stl : Bool) : stl_error_t × Option (stl_t ℚ) :=
  let error := STL_SUCCESS
  let error :=
    if vals.isNone ∨ 0 = cols ∨ 0 = rows then STL_LOG_ERR STL_ERROR_INVALID_ARG else error
  let (error, out) :=
    if STL_SUCCESS = error then
      let vals_double :=
        widen_loop (fun i => (((vals.getD (fun _ => 0)) i).val : ℚ)) cols rows
      stl_from_heightmap_double env (some (buffer_at vals_double)) origin cols rows scale_pct
        base_height units_per_pixel stl
    else (error, none)
  (STL_LOG_ERR error, out)

def stl_from_heightmap_char (env : helpers_t) (vals : Option (Nat → Int))
    (origin : stl_origin_t) (cols rows : Nat) (scale_pct base_height units_per_pixel : ℚ)
    (stl : Bool) : stl_error_t × Option (stl_t ℚ) :=
  let error := STL_SUCCESS
  let error :=
    if vals.isNone ∨ 0 = cols ∨ 0 = rows then STL_LOG_ERR STL_ERROR_INVALID_ARG else error
  let (error, out) :=
    if STL_SUCCESS = error then
      let vals_double :=
        widen_loop (fun i => (((vals.getD (fun _ => 0)) i : Int) : ℚ)) cols rows
      stl_from_heightmap_double env (some (buffer_at vals_double)) origin cols rows scale_pct
        base_height units_per_pixel stl
    else (error, none)
  (STL_LOG_ERR error, out)

/-- The conversion of the `size_t` result of `fread` to the `int` variable
`res`: the low 32 bits, read as a two's complement number. -/
def int_of_size (k : Nat) : Int :=
  if k % 2 ^ 32 < 2 ^ 31 then ((k % 2 ^ 32 : Nat) : Int) else ((k % 2 ^ 32 : Nat) : Int) - 2 ^ 32

/-- The conversion of the `int` variable `res` to `size_t` (64 bits) for the
comparison with `cols * rows * sizeof(vals[0])`. -/
def size_of_int (i : Int) : Nat := (i % 2 ^ 64).toNat

def stl_from_heightmap_uchar_file (env : helpers_t) (fs : filesystem)
    (filename : Option String) (origin : stl_origin_t) (cols rows : Nat)
    (scale_pct base_height units_per_pixel : ℚ) (stl : Bool) :
    stl_error_t × Option (stl_t ℚ) :=
  let error := STL_SUCCESS
  let error := if filename.isNone then STL_LOG_ERR STL_ERROR_INVALID_ARG else error
  let fp : Option (List byte) := if STL_SUCCESS = error then filename.bind fs else none
  let error :=
    if STL_SUCCESS = error then
      (if fp.isNone then STL_LOG_ERR STL_ERROR_IO_ERROR else error)
    else error
  let vals : List byte :=
    if STL_SUCCESS = error then (fread ((cols * rows) % 2 ^ 32) (fp.getD [])).1 else []
  let res : Int := if STL_SUCCESS = error then int_of_size vals.length else 0
  let error :=
    if STL_SUCCESS = error then
      (if size_of_int res ≠ (cols * rows) % 2 ^ 32 then STL_LOG_ERR STL_ERROR_IO_ERROR
       else error)
    else error
  let (error, out) :=
    if STL_SUCCESS = error then
      stl_from_heightmap_uchar env (some (fun i => vals.getD i 0)) origin cols rows scale_pct
        base_height units_per_pixel stl
    else (error, none)
  (STL_LOG_ERR error, out)

/-- A file system whose only content is three bytes, at every path. -/
def three_byte_fs : filesystem := fun _ => some [1, 2, 3]

/-! ## `stl3d_lib.c`: transforms

The transforms compute in `double` and store `float`; both are the same exact
field `F` here (the rationals to evaluate, the reals for the trigonometric
facts), and the casts are the identity.  A transform changes the model in
place: the second component of the result is the model after the call, `none`
when there is no model. -/

abbrev stl_axis_t := Int

def STL_AXIS_UNKNOWN : stl_axis_t := 0

def STL_AXIS_X : stl_axis_t := 1

def STL_AXIS_Y : stl_axis_t := 2

def STL_AXIS_Z : stl_axis_t := 3

/-- What `stl_rotate` takes from `<math.h>`: the constant `M_PI` and the
functions `cos` and `sin`. -/
structure libm_t (F : Type) where
  M_PI : F
  cos : F → F
  sin : F → F

def deg2rad {F : Type} [Field F] (lm : libm_t F) (deg : F) : F :=
  deg * lm.M_PI / 180

def _rot_vec_x {F : Type} [Field F] (cs sn : F) (triplet : triplet_t F) : triplet_t F :=
  let py := triplet.t2 * cs - triplet.t3 * sn
  let pz := triplet.t2 * sn + triplet.t3 * cs
  { triplet with t2 := py, t3 := pz }

def _rot_vec_y {F : Type} [Field F] (cs sn : F) (triplet : triplet_t F) : triplet_t F :=
  let px := triplet.t1 * cs + triplet.t3 * sn
  let pz := -triplet.t1 * sn + triplet.t3 * cs
  { triplet with t1 := px, t3 := pz }

def _rot_vec_z {F : Type} [Field F] (cs sn : F) (triplet : triplet_t F) : triplet_t F :=
  let px := triplet.t1 * cs - triplet.t2 * sn
  let py := triplet.t1 * sn + triplet.t2 * cs
  { triplet with t1 := px, t2 := py }

/-- The body of the loop of `stl_rotate` for `stl->facets[i]`. -/
def stl_rotate_facet {F : Type} [Field F] (axis : stl_axis_t) (cs sn : F)
    (facet : facet_t F) : facet_t F :=
  if STL_AXIS_X = axis then
    { facet with
      normal := _rot_vec_x cs sn facet.normal
      vertex1 := _rot_vec_x cs sn facet.vertex1
      vertex2 := _rot_vec_x cs sn facet.vertex2
      vertex3 := _rot_vec_x cs sn facet.vertex3 }
  else if STL_AXIS_Y = axis then
    { facet with
      normal := _rot_vec_y cs sn facet.normal
      vertex1 := _rot_vec_y cs sn facet.vertex1
      vertex2 := _rot_vec_y cs sn facet.vertex2
      vertex3 := _rot_vec_y cs sn facet.vertex3 }
  else
    { facet with
      normal := _rot_vec_z cs sn facet.normal
      vertex1 := _rot_vec_z cs sn facet.vertex1
      vertex2 := _rot_vec_z cs sn facet.vertex2
      vertex3 := _rot_vec_z cs sn facet.vertex3 }

def stl_rotate {F : Type} [Field F] (lm : libm_t F) (axis : stl_axis_t) (degrees : F)
    (stl : Option (stl_t F)) : stl_error_t × Option (stl_t F) :=
  match stl with
  | none => (STL_LOG_ERR STL_ERROR, none)
  | some stl =>
    let error := STL_SUCCESS
    let radians := deg2rad lm degrees
    let cs := lm.cos radians
    let sn := lm.sin radians
    let facets := (List.range stl.facets_count).foldl
      (fun facets i => facets.modify (stl_rotate_facet axis cs sn) i) stl.facets
    (STL_LOG_ERR error, some { stl with facets := facets })

/-- The body of the loop of `stl_scale` for `stl->facets[i]`. -/
def stl_scale_facet {F : Type} [Field F] (scale_x scale_y scale_z : F)
    (facet : facet_t F) : facet_t F :=
  { facet with
    vertex1 :=
      ⟨facet.vertex1.t1 * scale_x, facet.vertex1.t2 * scale_y, facet.vertex1.t3 * scale_z⟩
    vertex2 :=
      ⟨facet.vertex2.t1 * scale_x, facet.vertex2.t2 * scale_y, facet.vertex2.t3 * scale_z⟩
    vertex3 :=
      ⟨facet.vertex3.t1 * scale_x, facet.vertex3.t2 * scale_y, facet.vertex3.t3 * scale_z⟩ }

def stl_scale {F : Type} [Field F] (pct_x pct_y pct_z : F) (stl : Option (stl_t F)) :
    stl_error_t × Option (stl_t F) :=
  let error := STL_SUCCESS
  let scale_x := pct_x / 100
  let scale_y := pct_y / 100
  let scale_z := pct_z / 100
  let error := if stl.isNone then STL_LOG_ERR STL_ERROR_INVALID_ARG else error
  let stl :=
    if STL_SUCCESS = error then
      stl.map (fun stl =>
        { stl with
          facets := (List.range stl.facets_count).foldl
            (fun facets i => facets.modify (stl_scale_facet scale_x scale_y scale_z) i)
            stl.facets })
    else stl
  (STL_LOG_ERR error, stl)

/-! ## The transforms in the words of the spec -/

/-- A value of the C type `stl_t` as far as the transforms look at it: the
array `facets` has `facets_count` entries. -/
def stl_sized {F : Type} (m : stl_t F) : Prop := m.facets.length = m.facets_count

instance {F : Type} (m : stl_t F) : Decidable (stl_sized m) := by
  unfold stl_sized; infer_instance

/-- Rotation of a vector by the angle with cosine `c` and sine `s` about the
given principal axis: the standard 2D rotation of the two other components. -/
def rotated {F : Type} [Field F] (axis : stl_axis_t) (c s : F) (v : triplet_t F) :
    triplet_t F :=
  if axis = STL_AXIS_X then ⟨v.t1, v.t2 * c - v.t3 * s, v.t2 * s + v.t3 * c⟩
  else if axis = STL_AXIS_Y then ⟨v.t3 * s + v.t1 * c, v.t2, v.t3 * c - v.t1 * s⟩
  else ⟨v.t1 * c - v.t2 * s, v.t1 * s + v.t2 * c, v.t3⟩

/-- Scaling of a position by the percentages of the three axes. -/
def scaled {F : Type} [Field F] (pct_x pct_y pct_z : F) (v : triplet_t F) : triplet_t F :=
  ⟨v.t1 * (pct_x / 100), v.t2 * (pct_y / 100), v.t3 * (pct_z / 100)⟩

/-- A model of two facets with rational coordinates. -/
def example_solid : stl_t ℚ :=
  { header := List.replicate 80 0
    facets_count := 2
    facets :=
      [⟨⟨0, 0, 1⟩, ⟨1, 0, 0⟩, ⟨0, 1, 0⟩, ⟨0, 0, 1⟩, 7⟩,
       ⟨⟨1, 0, 0⟩, ⟨1, 2, 3⟩, ⟨4, 5, 6⟩, ⟨7, 8, 9⟩, 513⟩] }

/-- Exact values of the quarter turn, to evaluate `stl_rotate` on rationals:
`M_PI` is 180, so that `deg2rad` is the identity, and `cos`, `sin` are exact
at the multiples of 90 degrees. -/
def quarter_turns : libm_t ℚ :=
  { M_PI := 180
    cos := fun x => if x = 0 then 1 else if x = 90 then 0 else if x = 180 then -1 else 0
    sin := fun x => if x = 0 then 0 else if x = 90 then 1 else if x = 180 then 0 else -1 }

/-- The squared length `x^2 + y^2 + z^2` of a vector. -/
def norm_sq {F : Type} [Field F] (v : triplet_t F) : F :=
  v.t1 * v.t1 + v.t2 * v.t2 + v.t3 * v.t3

/-! ## Lemmas on the little-endian helpers -/

theorem and_0xFF (x : Nat) : x &&& 0xFF = x % 256 :=
  Nat.and_pow_two_sub_one_eq_mod x 8

theorem or_shift8 (a b : Nat) (hb : b < 256) : (a <<< 8) ||| b = 256 * a + b := by
  rw [Nat.shiftLeft_eq, Nat.mul_comm a, show (2:Nat) ^ 8 = 256 from rfl]
  exact (Nat.mul_add_lt_is_or (i := 8) hb a).symm

theorem stl_pack_le16_eq (buffer : List byte) :
    stl_pack_le16 buffer = (buffer.getD 0 0).val + 256 * (buffer.getD 1 0).val := by
  unfold stl_pack_le16
  rw [Nat.shiftLeft_zero, or_shift8 _ _ (buffer.getD 0 0).isLt]
  omega

theorem stl_pack_le32_eq (buffer : List byte) :
    stl_pack_le32 buffer = (buffer.getD 0 0).val + 256 * (buffer.getD 1 0).val +
      65536 * (buffer.getD 2 0).val + 16777216 * (buffer.getD 3 0).val := by
  unfold stl_pack_le32
  have h0 := (buffer.getD 0 0).isLt
  have h1 := (buffer.getD 1 0).isLt
  have h2 := (buffer.getD 2 0).isLt
  have h3 := (buffer.getD 3 0).isLt
  generalize (buffer.getD 0 0).val = b0 at *
  generalize (buffer.getD 1 0).val = b1 at *
  generalize (buffer.getD 2 0).val = b2 at *
  generalize (buffer.getD 3 0).val = b3 at *
  have e1 : (b3 <<< 24) ||| (b2 <<< 16) = 2 ^ 24 * b3 + b2 * 2 ^ 16 := by
    rw [Nat.shiftLeft_eq, Nat.shiftLeft_eq, Nat.mul_comm b3]
    exact (Nat.mul_add_lt_is_or (i := 24) (by omega) b3).symm
  have e2 : (2 ^ 24 * b3 + b2 * 2 ^ 16) ||| (b1 <<< 8)
      = 2 ^ 16 * (2 ^ 8 * b3 + b2) + b1 * 2 ^ 8 := by
    rw [Nat.shiftLeft_eq, show 2 ^ 24 * b3 + b2 * 2 ^ 16 = 2 ^ 16 * (2 ^ 8 * b3 + b2) by ring]
    exact (Nat.mul_add_lt_is_or (i := 16) (by omega) _).symm
  have e3 : (2 ^ 16 * (2 ^ 8 * b3 + b2) + b1 * 2 ^ 8) ||| (b0 <<< 0)
      = 2 ^ 8 * (2 ^ 8 * (2 ^ 8 * b3 + b2) + b1) + b0 := by
    rw [Nat.shiftLeft_zero,
      show 2 ^ 16 * (2 ^ 8 * b3 + b2) + b1 * 2 ^ 8 = 2 ^ 8 * (2 ^ 8 * (2 ^ 8 * b3 + b2) + b1) by ring]
    exact (Nat.mul_add_lt_is_or (i := 8) (by omega) _).symm
  rw [e1, e2, e3]
  ring

theorem stl_unpack_le16_eq (val : Nat) :
    stl_unpack_le16 val = (STL_SUCCESS, [le_byte val 0, le_byte val 1]) := by
  simp only [stl_unpack_le16, STL_LOG_ERR, le_byte, and_0xFF, Nat.shiftRight_eq_div_pow,
    Nat.mod_mod]
  norm_num

theorem stl_unpack_le32_eq (val : Nat) :
    stl_unpack_le32 val =
      (STL_SUCCESS, [le_byte val 0, le_byte val 1, le_byte val 2, le_byte val 3]) := by
  simp only [stl_unpack_le32, STL_LOG_ERR, le_byte, and_0xFF, Nat.shiftRight_eq_div_pow,
    Nat.mod_mod]
  norm_num

theorem le_byte_val (v k : Nat) : (le_byte v k).val = v / 256 ^ k % 256 := by
  simp [le_byte, Fin.ofNat]

theorem le16_roundtrip (v : Nat) (h : v < 2 ^ 16) :
    stl_pack_le16 [le_byte v 0, le_byte v 1] = v := by
  rw [stl_pack_le16_eq]
  simp only [List.getD_cons_zero, List.getD_cons_succ, le_byte_val]
  omega

theorem le32_roundtrip (v : Nat) (h : v < 2 ^ 32) :
    stl_pack_le32 [le_byte v 0, le_byte v 1, le_byte v 2, le_byte v 3] = v := by
  rw [stl_pack_le32_eq]
  simp only [List.getD_cons_zero, List.getD_cons_succ, le_byte_val]
  omega

/-! ## Lemmas on writing -/

theorem stl_write_next_triplet_eq (fp : List byte) (t : triplet_t float_t) :
    stl_write_next_triplet fp t =
      (STL_SUCCESS, fp ++ (float_bytes t.t1 ++ float_bytes t.t2 ++ float_bytes t.t3)) := by
  simp [stl_write_next_triplet, fwrite, float_bytes, STL_LOG_ERR]

theorem stl_write_next_facet_eq (fp : List byte) (f : facet_t float_t) :
    stl_write_next_facet fp f = (STL_SUCCESS, fp ++ facet_record f) := by
  simp [stl_write_next_facet, stl_write_next_triplet_eq, stl_unpack_le16_eq, fwrite,
    facet_record, STL_LOG_ERR]

theorem stl_write_file_loop_eq (facets : List (facet_t float_t)) :
    ∀ (n i : Nat) (fp : List byte), i + n ≤ facets.length →
      stl_write_file_loop facets n i fp =
        (STL_SUCCESS, fp ++ ((facets.drop i).take n).flatMap facet_record) := by
  intro n
  induction n with
  | zero => intro i fp _; simp [stl_write_file_loop]
  | succ n ih =>
    intro i fp h
    have hi : i < facets.length := by omega
    have hd : facets.drop i = facets[i] :: facets.drop (i + 1) := by
      simp
    rw [stl_write_file_loop, stl_write_next_facet_eq]
    simp only [ne_eq, not_true_eq_false, if_false]
    rw [ih (i + 1) _ (by omega), hd, List.take_succ_cons, List.flatMap_cons]
    simp [List.getD_eq_getElem?_getD, List.getElem?_eq_getElem hi]

theorem facet_record_length (f : facet_t float_t) : (facet_record f).length = 50 := by
  simp [facet_record, float_bytes]

theorem flatMap_facet_record_length (l : List (facet_t float_t)) :
    (l.flatMap facet_record).length = 50 * l.length := by
  induction l with
  | nil => simp
  | cons f l ih => simp [List.flatMap_cons, facet_record_length, ih]; omega

/-! ## Lemmas on reading -/

theorem getD_drop_add (l : List byte) (k i : Nat) :
    (l.drop k).getD i 0 = l.getD (k + i) 0 := by
  simp [List.getElem?_drop]

theorem getD_take_lt (l : List byte) (n i : Nat) (h : i < n) :
    (l.take n).getD i 0 = l.getD i 0 := by
  simp [List.getElem?_take_of_lt h]

theorem float_at_offset_drop (l : List byte) (k off : Nat) :
    float_at_offset (l.drop k) off = float_at_offset l (k + off) := by
  simp only [float_at_offset, getD_drop_add, Nat.add_assoc]

theorem triplet_at_offset_drop (l : List byte) (k off : Nat) :
    triplet_at_offset (l.drop k) off = triplet_at_offset l (k + off) := by
  simp only [triplet_at_offset, float_at_offset_drop, Nat.add_assoc]

theorem facet_at_offset_drop (l : List byte) (k off : Nat) :
    facet_at_offset (l.drop k) off = facet_at_offset l (k + off) := by
  simp only [facet_at_offset, triplet_at_offset_drop, getD_drop_add, Nat.add_assoc]

theorem stl_read_next_triplet_ok (fp : List byte) (t : triplet_t float_t)
    (h : 12 ≤ fp.length) :
    stl_read_next_triplet fp t = (STL_SUCCESS, fp.drop 12, triplet_at_offset fp 0) := by
  have hl : (fp.take 12).length = 12 := by simp; omega
  simp only [stl_read_next_triplet, fread, hl, STL_LOG_ERR, ne_eq, not_true_eq_false,
    if_false, if_true, float_at, triplet_at_offset, float_at_offset]
  simp only [getD_take_lt fp 12 _ (by omega : 4 * 0 < 12), getD_take_lt fp 12 _ (by omega : 4 * 0 + 1 < 12),
    getD_take_lt fp 12 _ (by omega : 4 * 0 + 2 < 12), getD_take_lt fp 12 _ (by omega : 4 * 0 + 3 < 12),
    getD_take_lt fp 12 _ (by omega : 4 * 1 < 12), getD_take_lt fp 12 _ (by omega : 4 * 1 + 1 < 12),
    getD_take_lt fp 12 _ (by omega : 4 * 1 + 2 < 12), getD_take_lt fp 12 _ (by omega : 4 * 1 + 3 < 12),
    getD_take_lt fp 12 _ (by omega : 4 * 2 < 12), getD_take_lt fp 12 _ (by omega : 4 * 2 + 1 < 12),
    getD_take_lt fp 12 _ (by omega : 4 * 2 + 2 < 12), getD_take_lt fp 12 _ (by omega : 4 * 2 + 3 < 12)]

theorem stl_read_next_triplet_short (fp : List byte) (t : triplet_t float_t)
    (h : fp.length < 12) :
    stl_read_next_triplet fp t = (STL_ERROR, fp.drop 12, t) := by
  have hl : (fp.take 12).length ≠ 12 := by simp; omega
  have hne : ¬ (STL_SUCCESS = STL_ERROR) := by decide
  simp only [stl_read_next_triplet, fread, STL_LOG_ERR, ne_eq, Ne.symm hl, not_false_eq_true,
    if_true, hne, if_false]

theorem success_ne_error : ¬ (STL_SUCCESS = STL_ERROR) := by decide

theorem stl_read_next_facet_ok (fp : List byte) (z : facet_t float_t) (h : 50 ≤ fp.length) :
    stl_read_next_facet fp z = (STL_SUCCESS, fp.drop 50, facet_at_offset fp 0) := by
  have h1 := stl_read_next_triplet_ok fp z.normal (by omega)
  have h2 := stl_read_next_triplet_ok (fp.drop 12) z.vertex1 (by simp; omega)
  have h3 := stl_read_next_triplet_ok (fp.drop 24) z.vertex2 (by simp; omega)
  have h4 := stl_read_next_triplet_ok (fp.drop 36) z.vertex3
    (by simp; omega)
  have hl : (List.take 2 (fp.drop 48)).length = 2 := by
    simp; omega
  simp only [stl_read_next_facet, h1, h2, h3, h4, if_true, fread, hl, STL_LOG_ERR, ne_eq,
    not_true_eq_false, if_false, stl_pack_le16_eq, facet_at_offset, triplet_at_offset_drop,
    le_value, List.drop_drop, getD_take_lt _ 2 0 (by omega), getD_take_lt _ 2 1 (by omega),
    getD_drop_add]
  simp

theorem stl_read_next_facet_short (fp : List byte) (z : facet_t float_t) (h : fp.length < 50) :
    (stl_read_next_facet fp z).1 = STL_ERROR := by
  by_cases c1 : fp.length < 12
  · have h1 := stl_read_next_triplet_short fp z.normal c1
    simp [stl_read_next_facet, h1, success_ne_error, STL_LOG_ERR, List.drop_drop]
  have h1 := stl_read_next_triplet_ok fp z.normal (by omega)
  by_cases c2 : fp.length < 24
  · have h2 := stl_read_next_triplet_short (fp.drop 12) z.vertex1 (by simp; omega)
    simp [stl_read_next_facet, h1, h2, success_ne_error, STL_LOG_ERR, List.drop_drop]
  have h2 := stl_read_next_triplet_ok (fp.drop 12) z.vertex1 (by simp; omega)
  by_cases c3 : fp.length < 36
  · have h3 := stl_read_next_triplet_short (fp.drop 24) z.vertex2 (by simp; omega)
    simp [stl_read_next_facet, h1, h2, h3, success_ne_error, STL_LOG_ERR, List.drop_drop]
  have h3 := stl_read_next_triplet_ok (fp.drop 24) z.vertex2 (by simp; omega)
  by_cases c4 : fp.length < 48
  · have h4 := stl_read_next_triplet_short (fp.drop 36) z.vertex3
      (by simp; omega)
    simp [stl_read_next_facet, h1, h2, h3, h4, success_ne_error, STL_LOG_ERR, List.drop_drop]
  have h4 := stl_read_next_triplet_ok (fp.drop 36) z.vertex3
    (by simp; omega)
  have hl : (List.take 2 (fp.drop 48)).length ≠ 2 := by
    simp; omega
  simp only [stl_read_next_facet, h1, h2, h3, h4, if_true, fread, STL_LOG_ERR, ne_eq,
    Ne.symm hl, not_false_eq_true, success_ne_error, if_false, List.drop_drop]

theorem stl_read_file_loop_ok :
    ∀ (n : Nat) (fp : List byte) (acc : List (facet_t float_t)), 50 * n ≤ fp.length →
      stl_read_file_loop n fp acc =
        (STL_SUCCESS, fp.drop (50 * n),
          acc ++ (List.range n).map (fun i => facet_at_offset fp (50 * i))) := by
  intro n
  induction n with
  | zero => intro fp acc _; simp [stl_read_file_loop]
  | succ n ih =>
    intro fp acc h
    rw [stl_read_file_loop, stl_read_next_facet_ok fp _ (by omega)]
    simp only [ne_eq, not_true_eq_false, if_false]
    rw [ih (fp.drop 50) _ (by simp; omega), List.range_succ_eq_map, List.map_cons,
      List.map_map, List.drop_drop]
    have e : (fun i => facet_at_offset (List.drop 50 fp) (50 * i))
        = ((fun i => facet_at_offset fp (50 * i)) ∘ Nat.succ) := by
      funext i
      simp only [Function.comp, facet_at_offset_drop]
      congr 1
      omega
    rw [e]
    simp [Nat.mul_succ, Nat.add_comm]

theorem stl_read_file_loop_short :
    ∀ (n : Nat) (fp : List byte) (acc : List (facet_t float_t)), fp.length < 50 * n →
      (stl_read_file_loop n fp acc).1 = STL_ERROR := by
  intro n
  induction n with
  | zero => intro fp acc h; omega
  | succ n ih =>
    intro fp acc h
    by_cases c : fp.length < 50
    · have h1 := stl_read_next_facet_short fp facet_zero c
      rw [stl_read_file_loop]
      generalize stl_read_next_facet fp facet_zero = r at h1
      obtain ⟨e, fp1, f⟩ := r
      simp only at h1
      subst h1
      simp [success_ne_error]
    · rw [stl_read_file_loop, stl_read_next_facet_ok fp _ (by omega)]
      simp only [ne_eq, not_true_eq_false, if_false]
      exact ih _ _ (by simp; omega)

theorem stl_read_next_facet_record (f : facet_t float_t) (rest : List byte)
    (z : facet_t float_t) (h : f.abc < 2 ^ 16) :
    stl_read_next_facet (facet_record f ++ rest) z = (STL_SUCCESS, rest, f) := by
  rw [stl_read_next_facet_ok _ _ (by simp [facet_record_length])]
  have hd : List.drop 50 (facet_record f ++ rest) = rest := by
    rw [List.drop_left' (facet_record_length f)]
  rw [hd]
  have ha : stl_pack_le16 [le_byte f.abc 0, le_byte f.abc 1] = f.abc := le16_roundtrip _ h
  rw [stl_pack_le16_eq] at ha
  simp only [List.getD_cons_zero, List.getD_cons_succ] at ha
  obtain ⟨⟨⟨a0, a1, a2, a3⟩, ⟨b0, b1, b2, b3⟩, ⟨c0, c1, c2, c3⟩⟩,
    ⟨⟨d0, d1, d2, d3⟩, ⟨e0, e1, e2, e3⟩, ⟨g0, g1, g2, g3⟩⟩,
    ⟨⟨h0, h1, h2, h3⟩, ⟨i0, i1, i2, i3⟩, ⟨j0, j1, j2, j3⟩⟩,
    ⟨⟨k0, k1, k2, k3⟩, ⟨l0, l1, l2, l3⟩, ⟨m0, m1, m2, m3⟩⟩, abc⟩ := f
  simp only [facet_record, float_bytes, facet_at_offset, triplet_at_offset, float_at_offset,
    le_value, List.cons_append, List.nil_append, List.getD_cons_zero, List.getD_cons_succ,
    Nat.zero_add, Nat.reduceAdd] at ha ⊢
  simp only [Nat.mul_zero, Nat.add_zero] at ha ⊢
  rw [ha]

theorem stl_read_file_loop_records :
    ∀ (l : List (facet_t float_t)) (rest : List byte) (acc : List (facet_t float_t)),
      (∀ f ∈ l, f.abc < 2 ^ 16) →
      stl_read_file_loop l.length (l.flatMap facet_record ++ rest) acc =
        (STL_SUCCESS, rest, acc ++ l) := by
  intro l
  induction l with
  | nil => intro rest acc _; simp [stl_read_file_loop]
  | cons f l ih =>
    intro rest acc h
    rw [List.length_cons, stl_read_file_loop, List.flatMap_cons, List.append_assoc,
      stl_read_next_facet_record f _ _ (h f (List.mem_cons_self f l))]
    simp only [ne_eq, not_true_eq_false, if_false]
    rw [ih rest _ (fun g hg => h g (List.mem_cons_of_mem f hg))]
    simp

/-! ## The codec as a whole -/

theorem stl_write_file_eq (fs : filesystem) (path : String) (m : stl_t float_t)
    (hwf : stl_wf m) (hfree : fs path = none) :
    stl_write_file fs (some path) (some m) =
      (STL_SUCCESS, fun p => if p = path then some (stl_file_image m) else fs p) := by
  obtain ⟨hh, _, hf, _⟩ := hwf
  have ht : m.header.take STL_HEADER_SIZE = m.header := List.take_of_length_le (by omega)
  have hloop := stl_write_file_loop_eq m.facets m.facets_count 0
  simp only [stl_write_file, hfree, fwrite, ht, hh, STL_LOG_ERR, ne_eq, not_true_eq_false,
    if_false, if_true, stl_unpack_le32_eq, List.length_cons, List.length_nil,
    hloop _ (by omega : 0 + m.facets_count ≤ m.facets.length), List.drop_zero,
    List.nil_append, stl_file_image]
  rw [← hf, List.take_length]

theorem stl_file_image_length (m : stl_t float_t) (hwf : stl_wf m) :
    (stl_file_image m).length = 84 + 50 * m.facets_count := by
  obtain ⟨hh, _, hf, _⟩ := hwf
  simp only [STL_HEADER_SIZE] at hh
  simp only [stl_file_image, List.length_append, flatMap_facet_record_length, hh, hf,
    List.length_cons, List.length_nil]

theorem pack_count_bytes (b : List byte) :
    stl_pack_le32 (List.take 4 (List.drop 80 b)) = announced_count b := by
  rw [stl_pack_le32_eq]
  simp only [announced_count, le_value, getD_take_lt _ 4 0 (by omega),
    getD_take_lt _ 4 1 (by omega), getD_take_lt _ 4 2 (by omega),
    getD_take_lt _ 4 3 (by omega), getD_drop_add, Nat.add_zero, Nat.reduceAdd]
  omega

theorem stl_read_file_image (heap : heap_t) (fs : filesystem) (path : String)
    (m : stl_t float_t) (hwf : stl_wf m) (hsolid : m.header.take 5 ≠ solid)
    (hN : 0 < m.facets_count) (halloc : heap (m.facets_count * sizeof_facet_t) = true)
    (hfile : fs path = some (stl_file_image m)) :
    stl_read_file heap fs (some path) true = some (STL_SUCCESS, some m) := by
  obtain ⟨hh, hc, hf, ha⟩ := hwf
  obtain ⟨hd, c, fc⟩ := m
  simp only at hh hc hf ha hsolid hN halloc
  subst hf
  simp only [STL_HEADER_SIZE] at hh
  have h1 : List.take 80 (stl_file_image ⟨hd, fc.length, fc⟩) = hd := by
    simp only [stl_file_image, List.append_assoc]
    exact List.take_left' hh
  have h2 : List.drop 80 (stl_file_image ⟨hd, fc.length, fc⟩) =
      [le_byte fc.length 0, le_byte fc.length 1,
       le_byte fc.length 2, le_byte fc.length 3] ++
      (fc.flatMap facet_record ++ []) := by
    simp only [stl_file_image, List.append_assoc, List.append_nil]
    exact List.drop_left' hh
  have h3 := stl_read_file_loop_records fc [] [] ha
  have hs : solid.length = 5 := rfl
  have hfit : ¬ (fc.length * sizeof_facet_t < sizeof_facet_t) := by
    unfold sizeof_facet_t
    omega
  simp only [stl_read_file, STL_HEADER_SIZE, hfile, fread, h1, h2, hh, hs, hsolid, STL_LOG_ERR,
    ne_eq, not_true_eq_false, if_false, if_true, List.cons_append, List.nil_append,
    List.take_succ_cons, List.take_zero, List.drop_succ_cons, List.drop_zero, List.length_cons,
    List.length_nil, le32_roundtrip _ hc, h3, halloc, hfit, Bool.not_true, and_self,
    decide_False, Bool.false_eq_true]

theorem stl_read_file_ok (heap : heap_t) (fs : filesystem) (path : String) (b : List byte)
    (hfile : fs path = some b) (hlen : 84 + 50 * announced_count b ≤ b.length)
    (hsolid : b.take 5 ≠ solid) (hN : 0 < announced_count b)
    (halloc : heap (announced_count b * sizeof_facet_t) = true) :
    stl_read_file heap fs (some path) true =
      some (STL_SUCCESS,
        some { header := b.take 80
               facets_count := announced_count b
               facets := (List.range (announced_count b)).map
                 (fun i => facet_at_offset b (84 + 50 * i)) }) := by
  have h1 : (List.take 80 b).length = 80 := by
    simp; omega
  have h2 : List.take solid.length (List.take 80 b) = List.take 5 b := by
    simp [solid, List.take_take]
  have h3 : (List.take 4 (List.drop 80 b)).length = 4 := by
    simp; omega
  have h5 := stl_read_file_loop_ok (announced_count b)
    (List.drop 4 (List.drop 80 b)) [] (by simp; omega)
  have hfit : ¬ (announced_count b * sizeof_facet_t < sizeof_facet_t) := by
    unfold sizeof_facet_t
    omega
  simp only [stl_read_file, STL_HEADER_SIZE, hfile, fread, h1, h2, h3, pack_count_bytes, h5,
    hsolid, STL_LOG_ERR, ne_eq, not_true_eq_false, if_false, if_true, List.nil_append,
    facet_at_offset_drop, halloc, hfit, Bool.not_true, and_self, decide_False,
    Bool.false_eq_true]
  have e : ∀ a, 80 + (4 + 50 * a) = 84 + 50 * a := fun a => by omega
  simp [e]

/-- A file that announces a facet array which the allocator refuses. -/
theorem stl_read_file_nomem (heap : heap_t) (fs : filesystem) (path : String) (b : List byte)
    (hfile : fs path = some b) (hlen : 84 ≤ b.length) (hsolid : b.take 5 ≠ solid)
    (halloc : heap (announced_count b * sizeof_facet_t) = false) :
    stl_read_file heap fs (some path) true = some (STL_ERROR_MEMORY_ERROR, none) := by
  have h1 : (List.take 80 b).length = 80 := by
    simp; omega
  have h2 : List.take solid.length (List.take 80 b) = List.take 5 b := by
    simp [solid, List.take_take]
  have h3 : (List.take 4 (List.drop 80 b)).length = 4 := by
    simp; omega
  have hne : ¬ (STL_SUCCESS = STL_ERROR_MEMORY_ERROR) := by decide
  simp only [stl_read_file, STL_HEADER_SIZE, hfile, fread, h1, h2, h3, pack_count_bytes,
    hsolid, STL_LOG_ERR, ne_eq, not_true_eq_false, if_false, if_true, halloc, Bool.not_false,
    Bool.true_eq_false, and_false, hne, not_false_eq_true, Bool.false_eq_true]

/-- A file that announces no facet, with an allocator that returns a block for
`malloc(0)`: the `memset` writes outside that block. -/
theorem stl_read_file_zero (heap : heap_t) (fs : filesystem) (path : String) (b : List byte)
    (hfile : fs path = some b) (hlen : 84 ≤ b.length) (hsolid : b.take 5 ≠ solid)
    (hN : announced_count b = 0) (halloc : heap 0 = true) :
    stl_read_file heap fs (some path) true = none := by
  have h1 : (List.take 80 b).length = 80 := by
    simp; omega
  have h2 : List.take solid.length (List.take 80 b) = List.take 5 b := by
    simp [solid, List.take_take]
  have h3 : (List.take 4 (List.drop 80 b)).length = 4 := by
    simp; omega
  have hz : (0 : Nat) * sizeof_facet_t = 0 := Nat.zero_mul _
  have hlt : (0 : Nat) < sizeof_facet_t := by decide
  simp only [stl_read_file, STL_HEADER_SIZE, hfile, fread, h1, h2, h3, pack_count_bytes,
    hsolid, STL_LOG_ERR, ne_eq, not_true_eq_false, if_false, if_true, hN, hz, halloc,
    Bool.not_true, and_self, hlt, decide_True]

theorem stl_read_file_solid (heap : heap_t) (fs : filesystem) (path : String) (b : List byte)
    (hfile : fs path = some b) (hlen : 80 ≤ b.length) (hsolid : b.take 5 = solid) :
    stl_read_file heap fs (some path) true = some (STL_ERROR_UNSUPPORTED, none) := by
  have h1 : (List.take 80 b).length = 80 := by
    simp; omega
  have h2 : List.take solid.length (List.take 80 b) = List.take 5 b := by
    simp [solid, List.take_take]
  have hne : ¬ (STL_SUCCESS = STL_ERROR_UNSUPPORTED) := by decide
  simp only [stl_read_file, STL_HEADER_SIZE, hfile, fread, h1, h2, hsolid, STL_LOG_ERR, ne_eq,
    not_true_eq_false, if_false, if_true, hne, not_false_eq_true, false_and,
    Bool.false_eq_true]

theorem stl_read_file_cut (heap : heap_t) (fs : filesystem) (path : String) (b : List byte)
    (hfile : fs path = some b) (ht : truncated b)
    (hsolid : ¬ (80 ≤ b.length ∧ b.take 5 = solid))
    (halloc : 84 ≤ b.length → heap (announced_count b * sizeof_facet_t) = true) :
    stl_read_file heap fs (some path) true = some (STL_ERROR, none) := by
  by_cases c1 : b.length < 80
  · have h1 : (List.take 80 b).length ≠ 80 := by
      simp; omega
    simp only [stl_read_file, STL_HEADER_SIZE, hfile, fread, STL_LOG_ERR, ne_eq, Ne.symm h1,
      not_false_eq_true, if_true, success_ne_error, if_false, false_and, Bool.false_eq_true]
  have hsolid5 : ¬ (b.take 5 = solid) := fun h => hsolid ⟨by omega, h⟩
  have h1 : (List.take 80 b).length = 80 := by
    simp; omega
  have h2 : List.take solid.length (List.take 80 b) = List.take 5 b := by
    simp [solid, List.take_take]
  by_cases c2 : b.length < 84
  · have h3 : (List.take 4 (List.drop 80 b)).length ≠ 4 := by
      simp; omega
    simp only [stl_read_file, STL_HEADER_SIZE, hfile, fread, h1, h2, hsolid5, STL_LOG_ERR, ne_eq,
      not_true_eq_false, if_false, if_true, Ne.symm h3, not_false_eq_true, success_ne_error,
      false_and, Bool.false_eq_true]
  have h3 : (List.take 4 (List.drop 80 b)).length = 4 := by
    simp; omega
  have hlt : b.length < 84 + 50 * announced_count b := by
    rcases ht with h | h
    · omega
    · exact h
  have h5 := stl_read_file_loop_short (announced_count b)
    (List.drop 4 (List.drop 80 b)) [] (by simp; omega)
  generalize hr : stl_read_file_loop (announced_count b)
    (List.drop 4 (List.drop 80 b)) [] = r at h5
  obtain ⟨e, fp1, fl⟩ := r
  simp only at h5
  subst h5
  have ha := halloc (by omega)
  have hfit : ¬ (announced_count b * sizeof_facet_t < sizeof_facet_t) := by
    unfold sizeof_facet_t
    omega
  simp only [stl_read_file, STL_HEADER_SIZE, hfile, fread, h1, h2, h3, pack_count_bytes, hr,
    hsolid5, STL_LOG_ERR, ne_eq, not_true_eq_false, if_false, if_true, success_ne_error,
    not_false_eq_true, ha, hfit, Bool.not_true, and_self, decide_False, Bool.false_eq_true]

/-! ## Codec claims -/

set_option maxRecDepth 20000

/-- C2, counterexample.  Two well-formed models without facets are written
successfully to a free path and cannot be read back.  The first has a header
that starts with `solid`: reading the file fails with `STL_ERROR_UNSUPPORTED`.
The second has another header: whatever the allocator does, reading the file
does not succeed, for `malloc(0)` returns either `NULL`, and the status is
`STL_ERROR_MEMORY_ERROR`, or a block of no bytes, into which the `memset` of
`sizeof(facet_t)` bytes writes. -/
theorem roundtrip_fails_for_solid_header :
    stl_wf solid_model ∧ empty_fs example_path = none ∧
    (stl_write_file empty_fs (some example_path) (some solid_model)).1 = STL_SUCCESS ∧
    (∀ heap : heap_t,
      stl_read_file heap (stl_write_file empty_fs (some example_path) (some solid_model)).2
        (some example_path) true = some (STL_ERROR_UNSUPPORTED, none)) ∧
    stl_wf empty_model ∧ empty_model.header.take 5 ≠ solid ∧
    (stl_write_file empty_fs (some example_path) (some empty_model)).1 = STL_SUCCESS ∧
    (∀ heap : heap_t,
      stl_read_file heap (stl_write_file empty_fs (some example_path) (some empty_model)).2
        (some example_path) true ≠ some (STL_SUCCESS, some empty_model)) ∧
    stl_read_file always_heap
      (stl_write_file empty_fs (some example_path) (some empty_model)).2
      (some example_path) true = none ∧
    stl_read_file nonzero_heap
      (stl_write_file empty_fs (some example_path) (some empty_model)).2
      (some example_path) true = some (STL_ERROR_MEMORY_ERROR, none) := by
  have hw : stl_wf solid_model := by decide
  have hw2 : stl_wf empty_model := by decide
  have hr := fun heap : heap_t => stl_read_file_solid heap
    (fun p => if p = example_path then some (stl_file_image solid_model) else empty_fs p)
    example_path (stl_file_image solid_model) (by simp) (by decide) (by decide)
  have hz := fun (heap : heap_t) (h : heap 0 = true) => stl_read_file_zero heap
    (fun p => if p = example_path then some (stl_file_image empty_model) else empty_fs p)
    example_path (stl_file_image empty_model) (by simp) (by decide) (by decide) (by decide) h
  have hm := fun (heap : heap_t) (h : heap 0 = false) => stl_read_file_nomem heap
    (fun p => if p = example_path then some (stl_file_image empty_model) else empty_fs p)
    example_path (stl_file_image empty_model) (by simp) (by decide) (by decide)
    (by rw [show announced_count (stl_file_image empty_model) * sizeof_facet_t = 0 by decide]
        exact h)
  rw [stl_write_file_eq empty_fs example_path solid_model hw rfl,
    stl_write_file_eq empty_fs example_path empty_model hw2 rfl]
  refine ⟨hw, rfl, rfl, hr, hw2, by decide, rfl, ?_, hz always_heap rfl, hm nonzero_heap rfl⟩
  intro heap
  cases h : heap 0 with
  | true =>
    rw [hz heap h]
    exact fun c => Option.noConfusion c
  | false =>
    rw [hm heap h]
    decide

/-- C2, amended.  Round trip: for every well-formed model with at least one
facet whose header does not start with `solid`, every path at which no file
exists and every allocator that grants the facet array, `stl_write_file`
succeeds and a following `stl_read_file` of that path succeeds and returns
exactly the model: header, facet count and every field of every facet. -/
theorem stl_write_read_roundtrip (heap : heap_t) (fs : filesystem) (path : String)
    (m : stl_t float_t) (hwf : stl_wf m) (hsolid : m.header.take 5 ≠ solid)
    (hfree : fs path = none) (hN : 0 < m.facets_count)
    (halloc : heap (m.facets_count * sizeof_facet_t) = true) :
    (stl_write_file fs (some path) (some m)).1 = STL_SUCCESS ∧
    stl_read_file heap (stl_write_file fs (some path) (some m)).2 (some path) true =
      some (STL_SUCCESS, some m) := by
  rw [stl_write_file_eq fs path m hwf hfree]
  exact ⟨rfl, stl_read_file_image heap _ path m hwf hsolid hN halloc (by simp)⟩

theorem stl_write_read_roundtrip_witness :
    stl_wf example_model ∧ example_model.header.take 5 ≠ solid ∧
    empty_fs example_path = none ∧ 0 < example_model.facets_count ∧
    limited_heap (example_model.facets_count * sizeof_facet_t) = true ∧
    (stl_write_file empty_fs (some example_path) (some example_model)).1 = STL_SUCCESS ∧
    stl_read_file limited_heap
      (stl_write_file empty_fs (some example_path) (some example_model)).2
      (some example_path) true = some (STL_SUCCESS, some example_model) :=
  ⟨by decide, by decide, rfl, by decide, by decide,
    stl_write_read_roundtrip limited_heap empty_fs example_path example_model (by decide)
      (by decide) rfl (by decide) (by decide)⟩

/-- C3.  Whenever `stl_write_file` succeeds on a well-formed model with `N`
facets, the file at the path holds exactly: the 80 header bytes, the facet
count as four little-endian bytes, then for each facet in order its twelve
floats (normal, vertex 1, vertex 2, vertex 3) and the attribute field as two
little-endian bytes; this is `84 + 50 * N` bytes. -/
theorem stl_write_file_layout (fs : filesystem) (path : String) (m : stl_t float_t)
    (hwf : stl_wf m)
    (hok : (stl_write_file fs (some path) (some m)).1 = STL_SUCCESS) :
    (stl_write_file fs (some path) (some m)).2 path = some (stl_file_image m) ∧
    (stl_file_image m).length = 84 + 50 * m.facets_count := by
  have hfree : fs path = none := by
    cases h : fs path with
    | none => rfl
    | some c =>
      simp only [stl_write_file, h, STL_LOG_ERR] at hok
      exact absurd hok.symm success_ne_error
  rw [stl_write_file_eq fs path m hwf hfree]
  exact ⟨by simp, stl_file_image_length m hwf⟩

theorem stl_write_file_layout_witness :
    stl_wf example_model ∧
    (stl_write_file empty_fs (some example_path) (some example_model)).1 = STL_SUCCESS ∧
    (stl_write_file empty_fs (some example_path) (some example_model)).2 example_path
      = some (stl_file_image example_model) ∧
    (stl_file_image example_model).length = 84 + 50 * example_model.facets_count :=
  ⟨by decide, by decide,
    stl_write_file_layout empty_fs example_path example_model (by decide) (by decide)⟩

/-- C4, counterexample.  The file of 84 bytes that announces no facet and does
not start with `solid` is at least `84 + 50 * 0` bytes long, and
`stl_read_file` does not succeed on it whatever the allocator does: when
`malloc(0)` returns a block the `memset` of `sizeof(facet_t)` bytes writes
outside it, and when it returns `NULL` the status is
`STL_ERROR_MEMORY_ERROR`.  And a file that announces one facet is not loaded
when the allocator refuses the facet array. -/
theorem no_facet_file_is_not_loaded :
    84 + 50 * announced_count no_facet_file ≤ no_facet_file.length ∧
    no_facet_file.take 5 ≠ solid ∧
    (∀ heap : heap_t, ∀ m,
      stl_read_file heap (fun _ => some no_facet_file) (some example_path) true ≠
        some (STL_SUCCESS, m)) ∧
    stl_read_file always_heap (fun _ => some no_facet_file) (some example_path) true = none ∧
    stl_read_file nonzero_heap (fun _ => some no_facet_file) (some example_path) true =
      some (STL_ERROR_MEMORY_ERROR, none) ∧
    84 + 50 * announced_count one_facet_file ≤ one_facet_file.length ∧
    one_facet_file.take 5 ≠ solid ∧
    stl_read_file (fun _ => false) (fun _ => some one_facet_file) (some example_path) true =
      some (STL_ERROR_MEMORY_ERROR, none) := by
  have hz := fun (heap : heap_t) (h : heap 0 = true) => stl_read_file_zero heap
    (fun _ => some no_facet_file) example_path no_facet_file rfl (by decide) (by decide)
    (by decide) h
  have hm := fun (heap : heap_t) (h : heap 0 = false) => stl_read_file_nomem heap
    (fun _ => some no_facet_file) example_path no_facet_file rfl (by decide) (by decide)
    (by rw [show announced_count no_facet_file * sizeof_facet_t = 0 by decide]
        exact h)
  refine ⟨by decide, by decide, ?_, hz always_heap rfl, hm nonzero_heap rfl, by decide,
    by decide,
    stl_read_file_nomem (fun _ => false) (fun _ => some one_facet_file) example_path
      one_facet_file rfl (by decide) (by decide) rfl⟩
  intro heap m
  cases h : heap 0 with
  | true =>
    rw [hz heap h]
    exact fun c => Option.noConfusion c
  | false =>
    rw [hm heap h]
    intro c
    exact absurd (Prod.mk.inj (Option.some.inj c)).1 (by decide)

/-- C4, amended.  For every file of at least `84 + 50 * N` bytes, `N >= 1` the
little-endian value of bytes 80 .. 83, whose first five bytes are not `solid`,
and every allocator that grants the array of `N` facets, `stl_read_file`
succeeds; the model has bytes 0 .. 79 as header, `N` as facet count, and as
facet `i` the twelve floats and the little-endian attribute field of the
record at offset `84 + 50 * i`.  When the allocator refuses the array the
status is `STL_ERROR_MEMORY_ERROR` and no model is returned. -/
theorem stl_read_file_layout (heap : heap_t) (fs : filesystem) (path : String)
    (b : List byte) (hfile : fs path = some b)
    (hlen : 84 + 50 * announced_count b ≤ b.length) (hsolid : b.take 5 ≠ solid)
    (hN : 1 ≤ announced_count b) :
    (heap (announced_count b * sizeof_facet_t) = true →
      stl_read_file heap fs (some path) true =
        some (STL_SUCCESS,
          some { header := b.take 80
                 facets_count := announced_count b
                 facets := (List.range (announced_count b)).map
                   (fun i => facet_at_offset b (84 + 50 * i)) })) ∧
    (heap (announced_count b * sizeof_facet_t) = false →
      stl_read_file heap fs (some path) true = some (STL_ERROR_MEMORY_ERROR, none)) :=
  ⟨fun halloc => stl_read_file_ok heap fs path b hfile hlen hsolid hN halloc,
    fun halloc => stl_read_file_nomem heap fs path b hfile (by omega) hsolid halloc⟩

theorem stl_read_file_layout_witness :
    84 + 50 * announced_count one_facet_file ≤ one_facet_file.length ∧
    one_facet_file.take 5 ≠ solid ∧ 1 ≤ announced_count one_facet_file ∧
    limited_heap (announced_count one_facet_file * sizeof_facet_t) = true ∧
    stl_read_file limited_heap (fun _ => some one_facet_file) (some example_path) true =
      some (STL_SUCCESS,
        some { header := one_facet_file.take 80
               facets_count := announced_count one_facet_file
               facets := (List.range (announced_count one_facet_file)).map
                 (fun i => facet_at_offset one_facet_file (84 + 50 * i)) }) :=
  ⟨by decide, by decide, by decide, by decide,
    (stl_read_file_layout limited_heap (fun _ => some one_facet_file) example_path
      one_facet_file rfl (by decide) (by decide) (by decide)).1 (by decide)⟩

/-- C5, counterexample.  The file that consists of the five characters `solid`
and nothing else is rejected with `STL_ERROR`, which is not
`STL_ERROR_UNSUPPORTED`: the 80-byte header is read before it is compared. -/
theorem solid_only_file_is_not_unsupported :
    solid_only_fs example_path = some solid ∧ solid.take 5 = solid ∧
    (∀ heap : heap_t,
      stl_read_file heap solid_only_fs (some example_path) true = some (STL_ERROR, none)) ∧
    STL_ERROR ≠ STL_ERROR_UNSUPPORTED :=
  ⟨rfl, rfl,
    fun heap => stl_read_file_cut heap solid_only_fs example_path solid rfl (by decide)
      (by decide) (fun h => absurd h (by decide)),
    by decide⟩

/-- C5, amended.  For every file of at least 80 bytes whose first five bytes
are the characters `solid`, whatever follows, `stl_read_file` fails with
`STL_ERROR_UNSUPPORTED` and returns no model. -/
theorem stl_read_file_rejects_solid (heap : heap_t) (fs : filesystem) (path : String)
    (b : List byte) (hfile : fs path = some b) (hlen : 80 ≤ b.length)
    (hsolid : b.take 5 = solid) :
    stl_read_file heap fs (some path) true = some (STL_ERROR_UNSUPPORTED, none) :=
  stl_read_file_solid heap fs path b hfile hlen hsolid

theorem stl_read_file_rejects_solid_witness :
    80 ≤ solid_cut_file.length ∧ solid_cut_file.take 5 = solid ∧
    stl_read_file always_heap (fun _ => some solid_cut_file) (some example_path) true =
      some (STL_ERROR_UNSUPPORTED, none) :=
  ⟨by decide, by decide,
    stl_read_file_rejects_solid always_heap (fun _ => some solid_cut_file) example_path
      solid_cut_file rfl (by decide) (by decide)⟩

/-- C6, counterexample.  A file of 82 bytes that starts with `solid` is cut
inside the count field, yet it fails with `STL_ERROR_UNSUPPORTED` and not with
`STL_ERROR`, the code returned for input that ends too early.  And a file of
84 bytes that announces 4294967295 facets and holds none fails with
`STL_ERROR_MEMORY_ERROR` when the allocator refuses an array of that size:
the array is allocated before the first record is read. -/
theorem cut_solid_file_is_unsupported :
    truncated solid_cut_file ∧
    (∀ heap : heap_t,
      stl_read_file heap (fun _ => some solid_cut_file) (some example_path) true =
        some (STL_ERROR_UNSUPPORTED, none)) ∧
    STL_ERROR_UNSUPPORTED ≠ STL_ERROR ∧
    truncated huge_count_file ∧ huge_count_file.take 5 ≠ solid ∧
    stl_read_file limited_heap (fun _ => some huge_count_file) (some example_path) true =
      some (STL_ERROR_MEMORY_ERROR, none) ∧
    STL_ERROR_MEMORY_ERROR ≠ STL_ERROR :=
  ⟨by decide,
    fun heap => stl_read_file_solid heap (fun _ => some solid_cut_file) example_path
      solid_cut_file rfl (by decide) (by decide),
    by decide, by decide, by decide,
    stl_read_file_nomem limited_heap (fun _ => some huge_count_file) example_path
      huge_count_file rfl (by decide) (by decide) (by decide),
    by decide⟩

/-- C6, amended.  For every file that ends before the header, the count field
or the last announced facet record is complete, `stl_read_file` fails and
leaves the output reference unwritten.  The status is `STL_ERROR`, except for
a file of at least 80 bytes that starts with `solid`, where it is
`STL_ERROR_UNSUPPORTED`, and except for a file with a complete count field
whose announced facet array the allocator refuses, where it is
`STL_ERROR_MEMORY_ERROR`. -/
theorem stl_read_file_truncated (heap : heap_t) (fs : filesystem) (path : String)
    (b : List byte) (hfile : fs path = some b) (ht : truncated b) :
    stl_read_file heap fs (some path) true =
      some
        (if 80 ≤ b.length ∧ b.take 5 = solid then STL_ERROR_UNSUPPORTED
         else if 84 ≤ b.length ∧ heap (announced_count b * sizeof_facet_t) = false then
           STL_ERROR_MEMORY_ERROR
         else STL_ERROR, none) := by
  by_cases c : 80 ≤ b.length ∧ b.take 5 = solid
  · rw [if_pos c]
    exact stl_read_file_solid heap fs path b hfile c.1 c.2
  · rw [if_neg c]
    by_cases c2 : 84 ≤ b.length ∧ heap (announced_count b * sizeof_facet_t) = false
    · rw [if_pos c2]
      exact stl_read_file_nomem heap fs path b hfile c2.1
        (fun h => c ⟨by omega, h⟩) c2.2
    · rw [if_neg c2]
      refine stl_read_file_cut heap fs path b hfile ht c (fun h => ?_)
      cases hh : heap (announced_count b * sizeof_facet_t) with
      | true => rfl
      | false => exact absurd ⟨h, hh⟩ c2

theorem stl_read_file_truncated_witness :
    truncated cut_facet_file ∧
    stl_read_file always_heap (fun _ => some cut_facet_file) (some example_path) true =
      some
        (if 80 ≤ cut_facet_file.length ∧ cut_facet_file.take 5 = solid then
           STL_ERROR_UNSUPPORTED
         else if 84 ≤ cut_facet_file.length ∧
             always_heap (announced_count cut_facet_file * sizeof_facet_t) = false then
           STL_ERROR_MEMORY_ERROR
         else STL_ERROR, none) ∧
    (if 80 ≤ cut_facet_file.length ∧ cut_facet_file.take 5 = solid then STL_ERROR_UNSUPPORTED
     else if 84 ≤ cut_facet_file.length ∧
         always_heap (announced_count cut_facet_file * sizeof_facet_t) = false then
       STL_ERROR_MEMORY_ERROR
     else STL_ERROR) = STL_ERROR :=
  ⟨by decide,
    stl_read_file_truncated always_heap (fun _ => some cut_facet_file) example_path
      cut_facet_file rfl (by decide),
    by decide⟩

/-! ## Lemmas on the mesh loops -/

theorem modify_append_cons (g : facet_t ℚ → facet_t ℚ) (pre : List (facet_t ℚ))
    (x : facet_t ℚ) (post : List (facet_t ℚ)) :
    List.modify g pre.length (pre ++ x :: post) = pre ++ g x :: post := by
  induction pre with
  | nil => simp
  | cons a pre ih => simp [ih]

theorem modify_append_cons_succ (g : facet_t ℚ → facet_t ℚ) (pre : List (facet_t ℚ))
    (y x : facet_t ℚ) (post : List (facet_t ℚ)) :
    List.modify g (pre.length + 1) (pre ++ y :: x :: post) = pre ++ y :: g x :: post := by
  induction pre with
  | nil => simp
  | cons a pre ih => simp [ih]

theorem emits_write_pair (env : helpers_t) (v w : verticies_t) :
    Emits env (fun s => write_pair env s v w) [mk_facet env v, mk_facet env w] := by
  intro pre k h
  simp only [List.length_cons, List.length_nil] at h ⊢
  have e1 : (pre.length + 1) % 2 ^ 32 = pre.length + 1 := Nat.mod_eq_of_lt (by omega)
  have e2 : (pre.length + 2) % 2 ^ 32 = pre.length + 2 := Nat.mod_eq_of_lt (by omega)
  have r : List.replicate (0 + 1 + 1 + k) env.fresh_facet
      = env.fresh_facet :: env.fresh_facet :: List.replicate k env.fresh_facet := by
    rw [show 0 + 1 + 1 + k = k + 1 + 1 by omega, List.replicate_succ, List.replicate_succ]
  simp only [write_pair, set_facet, e1, e2, r]
  rw [modify_append_cons, modify_append_cons_succ]
  simp [mk_facet]

theorem emits_nil (env : helpers_t) : Emits env (fun s => s) [] := by
  intro pre k _
  simp

theorem emits_comp (env : helpers_t)
    (b1 b2 : List (facet_t ℚ) × Nat → List (facet_t ℚ) × Nat) (E1 E2 : List (facet_t ℚ))
    (h1 : Emits env b1 E1) (h2 : Emits env b2 E2) :
    Emits env (fun s => b2 (b1 s)) (E1 ++ E2) := by
  intro pre k h
  simp only [List.length_append] at h
  have a1 := h1 pre (E2.length + k) (by omega)
  have a2 := h2 (pre ++ E1) k (by simp only [List.length_append]; omega)
  simp only [List.length_append] at a2 ⊢
  rw [show E1.length + E2.length + k = E1.length + (E2.length + k) by omega, a1, a2]
  simp [Nat.add_assoc]

theorem emits_foldl (env : helpers_t) {ι : Type}
    (body : ι → List (facet_t ℚ) × Nat → List (facet_t ℚ) × Nat)
    (E : ι → List (facet_t ℚ)) (l : List ι) (h : ∀ i ∈ l, Emits env (body i) (E i)) :
    Emits env (fun s => l.foldl (fun s i => body i s) s) (l.flatMap E) := by
  induction l with
  | nil => simpa using emits_nil env
  | cons i l ih =>
    have hi := h i (List.mem_cons_self i l)
    have hl := ih (fun j hj => h j (List.mem_cons_of_mem i hj))
    have := emits_comp env _ _ _ _ hi hl
    simpa [List.flatMap_cons] using this

theorem emits_pairs (env : helpers_t) (v w : Nat → verticies_t) (n : Nat) :
    Emits env
      (fun s => (List.range n).foldl (fun s i => write_pair env s (v i) (w i)) s)
      ((List.range n).flatMap fun i => [mk_facet env (v i), mk_facet env (w i)]) :=
  emits_foldl env (fun i s => write_pair env s (v i) (w i))
    (fun i => [mk_facet env (v i), mk_facet env (w i)]) (List.range n)
    (fun i _ => emits_write_pair env (v i) (w i))

theorem length_flatMap_const {ι α : Type} (l : List ι) (g : ι → List α) (k : Nat)
    (h : ∀ i, (g i).length = k) : (l.flatMap g).length = l.length * k := by
  induction l with
  | nil => simp
  | cons i l ih => simp [List.flatMap_cons, ih, h, Nat.succ_mul, Nat.add_comm]

theorem length_flatMap_pair {ι α : Type} (l : List ι) (A B : ι → α) :
    (l.flatMap fun i => [A i, B i]).length = 2 * l.length := by
  rw [length_flatMap_const l (fun i => [A i, B i]) 2 (fun _ => rfl), Nat.mul_comm]

theorem top_facets_length (env : helpers_t) (L : locals_t) :
    (top_facets env L).length = 2 * (L.cols - 1) * (L.rows - 1) := by
  unfold top_facets
  rw [length_flatMap_const (List.range (L.rows - 1))
    (fun r => (List.range (L.cols - 1)).flatMap fun c =>
      [mk_facet env (top_mesh_1 L r c), mk_facet env (top_mesh_2 L r c)])
    (2 * (L.cols - 1))
    (fun r => by rw [length_flatMap_pair, List.length_range])]
  rw [List.length_range, Nat.mul_comm]

theorem cap_facets_length (env : helpers_t) (L : locals_t) :
    (cap_facets env L).length = 2 * (L.cols - 1) + 2 * (L.rows - 1) := by
  unfold cap_facets
  simp only [List.length_append, length_flatMap_pair, List.length_range]
  omega

theorem wall_facets_length (env : helpers_t) (L : locals_t) :
    (wall_facets env L).length = 4 * (L.cols - 1) + 4 * (L.rows - 1) := by
  unfold wall_facets
  simp only [List.length_append, length_flatMap_pair, List.length_range]
  omega

theorem mesh_facets_length (env : helpers_t) (L : locals_t) :
    (mesh_facets env L).length = facet_total L.cols L.rows := by
  unfold mesh_facets facet_total
  rw [List.length_append, List.length_append, top_facets_length, cap_facets_length,
    wall_facets_length]
  omega

theorem emits_mesh_loops (env : helpers_t) (L : locals_t) :
    Emits env (mesh_loops env L) (mesh_facets env L) := by
  have hT : Emits env
      (fun s => (List.range (L.rows - 1)).foldl
        (fun s r => (List.range (L.cols - 1)).foldl
          (fun s c => write_pair env s (top_mesh_1 L r c) (top_mesh_2 L r c)) s) s)
      (top_facets env L) :=
    emits_foldl env
      (fun r s => (List.range (L.cols - 1)).foldl
        (fun s c => write_pair env s (top_mesh_1 L r c) (top_mesh_2 L r c)) s)
      (fun r => (List.range (L.cols - 1)).flatMap fun c =>
        [mk_facet env (top_mesh_1 L r c), mk_facet env (top_mesh_2 L r c)])
      (List.range (L.rows - 1))
      (fun r _ => emits_pairs env (top_mesh_1 L r) (top_mesh_2 L r) (L.cols - 1))
  have h1 := emits_pairs env (bottom_left L) (bottom_right L) (L.rows - 1)
  have h2 := emits_pairs env (bottom_top L) (bottom_bottom L) (L.cols - 1)
  have h3 := emits_pairs env (side_top_1 L) (side_top_2 L) (L.cols - 1)
  have h4 := emits_pairs env (side_bottom_1 L) (side_bottom_2 L) (L.cols - 1)
  have h5 := emits_pairs env (side_left_1 L) (side_left_2 L) (L.rows - 1)
  have h6 := emits_pairs env (side_right_1 L) (side_right_2 L) (L.rows - 1)
  have hall := emits_comp env _ _ _ _
    (emits_comp env _ _ _ _
      (emits_comp env _ _ _ _
        (emits_comp env _ _ _ _
          (emits_comp env _ _ _ _ (emits_comp env _ _ _ _ hT h1) h2) h3) h4) h5) h6
  have e : mesh_facets env L =
      top_facets env L ++
      ((List.range (L.rows - 1)).flatMap fun i =>
        [mk_facet env (bottom_left L i), mk_facet env (bottom_right L i)]) ++
      ((List.range (L.cols - 1)).flatMap fun i =>
        [mk_facet env (bottom_top L i), mk_facet env (bottom_bottom L i)]) ++
      ((List.range (L.cols - 1)).flatMap fun i =>
        [mk_facet env (side_top_1 L i), mk_facet env (side_top_2 L i)]) ++
      ((List.range (L.cols - 1)).flatMap fun i =>
        [mk_facet env (side_bottom_1 L i), mk_facet env (side_bottom_2 L i)]) ++
      ((List.range (L.rows - 1)).flatMap fun i =>
        [mk_facet env (side_left_1 L i), mk_facet env (side_left_2 L i)]) ++
      ((List.range (L.rows - 1)).flatMap fun i =>
        [mk_facet env (side_right_1 L i), mk_facet env (side_right_2 L i)]) := by
    simp only [mesh_facets, cap_facets, wall_facets, List.append_assoc]
  rw [e]
  exact hall

theorem mesh_loops_eq (env : helpers_t) (L : locals_t)
    (h : facet_total L.cols L.rows < 2 ^ 32) :
    mesh_loops env L (List.replicate (facet_total L.cols L.rows) env.fresh_facet, 0) =
      (mesh_facets env L, facet_total L.cols L.rows) := by
  have key := emits_mesh_loops env L [] 0
    (by rw [mesh_facets_length]; simpa using h)
  simpa [mesh_facets_length] using key

theorem mod_chain (p a b : Nat) (h : p + a + b + 2 * a + 2 * b < 2 ^ 32) :
    ((((((p % 2 ^ 32 + (a % 2 ^ 32 + b % 2 ^ 32)) % 2 ^ 32 + a % 2 ^ 32) % 2 ^ 32
      + a % 2 ^ 32) % 2 ^ 32 + b % 2 ^ 32) % 2 ^ 32 + b % 2 ^ 32) % 2 ^ 32)
      = p + a + b + 2 * a + 2 * b := by
  rw [Nat.mod_eq_of_lt (by omega : p < 2 ^ 32), Nat.mod_eq_of_lt (by omega : a < 2 ^ 32),
    Nat.mod_eq_of_lt (by omega : b < 2 ^ 32),
    Nat.mod_eq_of_lt (by omega : p + (a + b) < 2 ^ 32),
    Nat.mod_eq_of_lt (by omega : p + (a + b) + a < 2 ^ 32),
    Nat.mod_eq_of_lt (by omega : p + (a + b) + a + a < 2 ^ 32),
    Nat.mod_eq_of_lt (by omega : p + (a + b) + a + a + b < 2 ^ 32),
    Nat.mod_eq_of_lt (by omega : p + (a + b) + a + a + b + b < 2 ^ 32)]
  omega

theorem fascet_count_eq (cols rows : Nat) (h : facet_total cols rows < 2 ^ 32) :
    fascet_count cols rows = facet_total cols rows := by
  have e : 2 * (cols - 1) * (rows - 1) = (cols - 1) * (rows - 1) * 2 := by ring
  have e1 : 2 * (cols - 1) = (cols - 1) * 2 := Nat.mul_comm _ _
  have e2 : 2 * (rows - 1) = (rows - 1) * 2 := Nat.mul_comm _ _
  have e3 : 4 * (cols - 1) = 2 * ((cols - 1) * 2) := by ring
  have e4 : 4 * (rows - 1) = 2 * ((rows - 1) * 2) := by ring
  unfold facet_total at h ⊢
  rw [e, e1, e2, e3, e4] at h ⊢
  exact mod_chain _ _ _ h

theorem locals_of_cols (vals : Nat → ℚ) (origin : stl_origin_t) (cols rows : Nat)
    (s b u : ℚ) : (locals_of vals origin cols rows s b u).cols = cols := rfl

theorem locals_of_rows (vals : Nat → ℚ) (origin : stl_origin_t) (cols rows : Nat)
    (s b u : ℚ) : (locals_of vals origin cols rows s b u).rows = rows := rfl

theorem locals_of_min_z_scaled (vals : Nat → ℚ) (origin : stl_origin_t) (cols rows : Nat)
    (s b u : ℚ) :
    (locals_of vals origin cols rows s b u).min_z_scaled =
      find_min_z vals (locals_of vals origin cols rows s b u).hmap cols rows * (s / 100) := rfl

theorem args_accepted (vals : Nat → ℚ) (cols rows : Nat) (s u : ℚ)
    (hc : 2 ≤ cols) (hr : 2 ≤ rows) (hs : 0 < s) (hu : 0 < u) :
    ¬ ((some vals).isNone ∨ cols < 2 ∨ rows < 2 ∨ s ≤ 0 ∨ u ≤ 0 ∨ true = false) := by
  simp only [Option.isNone_some, Bool.false_eq_true, false_or, not_or, not_lt, not_le,
    not_false_eq_true, and_true]
  exact ⟨hc, hr, hs, hu, by decide⟩

theorem stl_from_heightmap_double_eq (env : helpers_t) (vals : Nat → ℚ)
    (origin : stl_origin_t) (cols rows : Nat) (s b u : ℚ) (hv : valid_input cols rows s u) :
    stl_from_heightmap_double env (some vals) origin cols rows s b u true =
      (STL_SUCCESS,
        some { header := env.fresh_header
               facets_count := facet_total cols rows
               facets := mesh_facets env (locals_of vals origin cols rows s b u) }) := by
  obtain ⟨hc, hr, hs, hu, hfit⟩ := hv
  have hacc := args_accepted vals cols rows s u hc hr hs hu
  have hm := mesh_loops_eq env (locals_of vals origin cols rows s b u) hfit
  rw [locals_of_cols, locals_of_rows] at hm
  simp only [stl_from_heightmap_double, hacc, if_false, if_true, stl_new,
    fascet_count_eq cols rows hfit, STL_LOG_ERR, ne_eq, not_true_eq_false, Option.map_some',
    Option.getD_some, hm]

/-! ## Lemmas on the row table `hmap` -/

theorem getD_set_nat (l : List Nat) (i j a : Nat) :
    (l.set i a).getD j 0 = if i = j ∧ i < l.length then a else l.getD j 0 := by
  simp only [List.getD_eq_getElem?_getD, List.getElem?_set]
  by_cases h : i = j
  · subst h
    by_cases h2 : i < l.length
    · simp only [h2, and_self, if_true, Option.getD_some]
    · simp only [h2, and_false, if_false, if_true, Option.getD_none,
        List.getElem?_eq_none (Nat.le_of_not_lt h2)]
  · simp only [h, false_and, if_false]

theorem hmap_swap_invariant (l : List Nat) :
    ∀ k, 2 * k ≤ l.length →
      ((List.range k).foldl
        (fun (s : List Nat × Nat) i =>
          (((s.1.set i (s.1.getD s.2 0)).set s.2 (s.1.getD i 0)), s.2 - 1))
        (l, l.length - 1)).2 = l.length - 1 - k ∧
      ((List.range k).foldl
        (fun (s : List Nat × Nat) i =>
          (((s.1.set i (s.1.getD s.2 0)).set s.2 (s.1.getD i 0)), s.2 - 1))
        (l, l.length - 1)).1.length = l.length ∧
      ∀ i, i < l.length →
        ((List.range k).foldl
          (fun (s : List Nat × Nat) i =>
            (((s.1.set i (s.1.getD s.2 0)).set s.2 (s.1.getD i 0)), s.2 - 1))
          (l, l.length - 1)).1.getD i 0 =
          if i < k ∨ l.length - k ≤ i then l.getD (l.length - 1 - i) 0 else l.getD i 0 := by
  intro k
  induction k with
  | zero =>
    intro _
    refine ⟨by simp, by simp, fun i hi => ?_⟩
    have : ¬ (i < 0 ∨ l.length - 0 ≤ i) := by omega
    simp only [List.range_zero, List.foldl_nil, this, if_false]
  | succ k ih =>
    intro hk
    obtain ⟨h2, hlen, hget⟩ := ih (by omega)
    rw [List.range_succ, List.foldl_append, List.foldl_cons, List.foldl_nil]
    generalize (List.range k).foldl
        (fun (s : List Nat × Nat) i =>
          (((s.1.set i (s.1.getD s.2 0)).set s.2 (s.1.getD i 0)), s.2 - 1))
        (l, l.length - 1) = s at h2 hlen hget
    obtain ⟨lk, r⟩ := s
    simp only at h2 hlen hget
    subst h2
    refine ⟨by simp only; omega, by simp [hlen], fun i hi => ?_⟩
    simp only [getD_set_nat, List.length_set, hlen]
    have ha := hget (l.length - 1 - k) (by omega)
    have hb := hget k (by omega)
    have hi' := hget i hi
    rw [if_neg (by omega)] at ha hb
    by_cases c1 : l.length - 1 - k = i
    · rw [if_pos ⟨c1, by omega⟩, if_pos (by omega), hb]
      congr 1
      omega
    · rw [if_neg (fun h => c1 h.1)]
      by_cases c2 : k = i
      · rw [if_pos ⟨c2, by omega⟩, if_pos (by omega), ha]
        congr 1
        omega
      · rw [if_neg (fun h => c2 h.1), hi']
        by_cases c3 : i < k ∨ l.length - k ≤ i
        · rw [if_pos c3, if_pos (by omega)]
        · rw [if_neg c3, if_neg (by omega)]

theorem hmap_swap_getD (l : List Nat) (i : Nat) (hi : i < l.length) :
    (hmap_swap l l.length).getD i 0 = l.getD (l.length - 1 - i) 0 := by
  obtain ⟨_, _, hget⟩ := hmap_swap_invariant l (l.length / 2) (by omega)
  have h := hget i hi
  unfold hmap_swap
  rw [h]
  by_cases c : i < l.length / 2 ∨ l.length - l.length / 2 ≤ i
  · rw [if_pos c]
  · rw [if_neg c]
    congr 1
    omega

theorem hmap_swap_length (l : List Nat) : (hmap_swap l l.length).length = l.length := by
  obtain ⟨_, hlen, _⟩ := hmap_swap_invariant l (l.length / 2) (by omega)
  exact hlen

theorem hmap_swap_eq_reverse (l : List Nat) : hmap_swap l l.length = l.reverse := by
  apply List.ext_getElem?
  intro i
  by_cases hi : i < l.length
  · have h := hmap_swap_getD l i hi
    have h1 : i < (hmap_swap l l.length).length := by rw [hmap_swap_length]; exact hi
    have h2 : l.length - 1 - i < l.length := by omega
    rw [List.getD_eq_getElem?_getD, List.getD_eq_getElem?_getD,
      List.getElem?_eq_getElem h1, List.getElem?_eq_getElem h2] at h
    simp only [Option.getD_some] at h
    rw [List.getElem?_eq_getElem h1, List.getElem?_reverse hi, List.getElem?_eq_getElem h2, h]
  · rw [List.getElem?_eq_none (by rw [hmap_swap_length]; omega),
      List.getElem?_eq_none (by rw [List.length_reverse]; omega)]

theorem hmap_init_length (cols rows : Nat) : (hmap_init cols rows).length = rows := by
  simp [hmap_init]

theorem hmap_init_getD (cols rows r : Nat) (hr : r < rows) :
    (hmap_init cols rows).getD r 0 = (r * cols) % 2 ^ 32 := by
  simp [hmap_init, List.getElem?_range hr]

theorem grid_fits (cols rows : Nat) (hc : 2 ≤ cols) (hr : 2 ≤ rows)
    (hfit : facet_total cols rows < 2 ^ 32) : rows * cols < 2 ^ 32 := by
  obtain ⟨a, rfl⟩ : ∃ a, cols = a + 2 := ⟨cols - 2, by omega⟩
  obtain ⟨b, rfl⟩ : ∃ b, rows = b + 2 := ⟨rows - 2, by omega⟩
  unfold facet_total at hfit
  have e1 : 2 * (a + 2 - 1) * (b + 2 - 1) = 2 * (a * b) + 2 * a + 2 * b + 2 := by
    rw [show a + 2 - 1 = a + 1 by omega, show b + 2 - 1 = b + 1 by omega]; ring
  have e2 : (b + 2) * (a + 2) = a * b + 2 * a + 2 * b + 4 := by ring
  rw [e1] at hfit
  rw [e2]
  generalize a * b = p at *
  omega

theorem row_offset_lt (cols rows r : Nat) (hr : r < rows) (h : rows * cols < 2 ^ 32) :
    r * cols < 2 ^ 32 :=
  lt_of_le_of_lt (Nat.mul_le_mul_right cols (Nat.le_of_lt hr)) h

theorem at_bottom_left (vals : Nat → ℚ) (cols rows : Nat) (s b u : ℚ)
    (hv : valid_input cols rows s u) (r c : Nat) (hr : r < rows) :
    (locals_of vals stl_origin_t.STL_ORIGIN_BOTTOM_LEFT cols rows s b u).at r c =
      vals (r * cols + c) := by
  obtain ⟨hc2, hr2, _, _, hfit⟩ := hv
  have hg := grid_fits cols rows hc2 hr2 hfit
  simp only [locals_t.at, locals_of, reduceCtorEq, if_false, hmap_init_getD cols rows r hr,
    Nat.mod_eq_of_lt (row_offset_lt cols rows r hr hg)]

theorem at_top_left (vals : Nat → ℚ) (cols rows : Nat) (s b u : ℚ)
    (hv : valid_input cols rows s u) (r c : Nat) (hr : r < rows) :
    (locals_of vals stl_origin_t.STL_ORIGIN_TOP_LEFT cols rows s b u).at r c =
      vals ((rows - 1 - r) * cols + c) := by
  obtain ⟨hc2, hr2, _, _, hfit⟩ := hv
  have hg := grid_fits cols rows hc2 hr2 hfit
  have hs := hmap_swap_getD (hmap_init cols rows) r (by rw [hmap_init_length]; exact hr)
  rw [hmap_init_length] at hs
  simp only [locals_t.at, locals_of, if_true, hs,
    hmap_init_getD cols rows (rows - 1 - r) (by omega),
    Nat.mod_eq_of_lt (row_offset_lt cols rows (rows - 1 - r) (by omega) hg)]

theorem flip_rows_at (vals : Nat → ℚ) (cols rows r c : Nat) (hc : c < cols) :
    flip_rows vals cols rows (r * cols + c) = vals ((rows - 1 - r) * cols + c) := by
  have h1 : (r * cols + c) / cols = r := by
    rw [Nat.mul_comm, Nat.mul_add_div (by omega), Nat.div_eq_of_lt hc, Nat.add_zero]
  have h2 : (r * cols + c) % cols = c := by
    rw [Nat.mul_comm, Nat.mul_add_mod, Nat.mod_eq_of_lt hc]
  simp only [flip_rows, h1, h2]

/-! ## Lemmas on the minimum search -/

theorem fold_min_spec {ι : Type} (g : ι → ℚ) (l : List ι) :
    ∀ m0 : ℚ,
      l.foldl (fun m x => if g x < m then g x else m) m0 ≤ m0 ∧
      (∀ x ∈ l, l.foldl (fun m x => if g x < m then g x else m) m0 ≤ g x) ∧
      (l.foldl (fun m x => if g x < m then g x else m) m0 = m0 ∨
        ∃ x ∈ l, l.foldl (fun m x => if g x < m then g x else m) m0 = g x) := by
  induction l with
  | nil => intro m0; simp
  | cons a l ih =>
    intro m0
    rw [List.foldl_cons]
    obtain ⟨h1, h2, h3⟩ := ih (if g a < m0 then g a else m0)
    have hle : (if g a < m0 then g a else m0) ≤ m0 := by
      split_ifs with h
      · exact le_of_lt h
      · exact le_refl _
    have hla : (if g a < m0 then g a else m0) ≤ g a := by
      split_ifs with h
      · exact le_refl _
      · exact not_lt.mp h
    refine ⟨le_trans h1 hle, ?_, ?_⟩
    · intro x hx
      rcases List.mem_cons.mp hx with rfl | hx
      · exact le_trans h1 hla
      · exact h2 x hx
    · rcases h3 with h3 | ⟨x, hx, h3⟩
      · by_cases h : g a < m0
        · right
          exact ⟨a, List.mem_cons_self a l, by rw [h3, if_pos h]⟩
        · left
          rw [h3, if_neg h]
      · right
        exact ⟨x, List.mem_cons_of_mem a hx, h3⟩

theorem fold_min2_spec (g : Nat → Nat → ℚ) (lc lr : List Nat) :
    ∀ m0 : ℚ,
      lr.foldl (fun m r => lc.foldl (fun m c => if g r c < m then g r c else m) m) m0 ≤ m0 ∧
      (∀ r ∈ lr, ∀ c ∈ lc,
        lr.foldl (fun m r => lc.foldl (fun m c => if g r c < m then g r c else m) m) m0
          ≤ g r c) ∧
      (lr.foldl (fun m r => lc.foldl (fun m c => if g r c < m then g r c else m) m) m0 = m0 ∨
        ∃ r ∈ lr, ∃ c ∈ lc,
          lr.foldl (fun m r => lc.foldl (fun m c => if g r c < m then g r c else m) m) m0
            = g r c) := by
  induction lr with
  | nil => intro m0; simp
  | cons a lr ih =>
    intro m0
    rw [List.foldl_cons]
    obtain ⟨i1, i2, i3⟩ := fold_min_spec (g a) lc m0
    obtain ⟨h1, h2, h3⟩ := ih (lc.foldl (fun m c => if g a c < m then g a c else m) m0)
    refine ⟨le_trans h1 i1, ?_, ?_⟩
    · intro r hr c hc
      rcases List.mem_cons.mp hr with rfl | hr
      · exact le_trans h1 (i2 c hc)
      · exact h2 r hr c hc
    · rcases h3 with h3 | ⟨r, hr, c, hc, h3⟩
      · rcases i3 with i3 | ⟨c, hc, i3⟩
        · left
          rw [h3, i3]
        · right
          exact ⟨a, List.mem_cons_self a lr, c, hc, by rw [h3, i3]⟩
      · right
        exact ⟨r, List.mem_cons_of_mem a hr, c, hc, h3⟩

theorem find_min_z_spec (vals : Nat → ℚ) (hmap : List Nat) (cols rows : Nat)
    (hr : 0 < rows) (hc : 0 < cols) :
    (∀ r < rows, ∀ c < cols, find_min_z vals hmap cols rows ≤ vals (hmap.getD r 0 + c)) ∧
    ∃ r < rows, ∃ c < cols, find_min_z vals hmap cols rows = vals (hmap.getD r 0 + c) := by
  obtain ⟨_, h2, h3⟩ := fold_min2_spec (fun r c => vals (hmap.getD r 0 + c))
    (List.range cols) (List.range rows) (vals (hmap.getD 0 0 + 0))
  refine ⟨fun r hr' c hc' => h2 r (List.mem_range.mpr hr') c (List.mem_range.mpr hc'), ?_⟩
  rcases h3 with h3 | ⟨r, hr', c, hc', h3⟩
  · exact ⟨0, hr, 0, hc, h3⟩
  · exact ⟨r, List.mem_range.mp hr', c, List.mem_range.mp hc', h3⟩

theorem find_min_z_congr (vals1 vals2 : Nat → ℚ) (hmap1 hmap2 : List Nat) (cols rows : Nat)
    (hr : 0 < rows) (hc : 0 < cols)
    (h : ∀ r < rows, ∀ c < cols, vals1 (hmap1.getD r 0 + c) = vals2 (hmap2.getD r 0 + c)) :
    find_min_z vals1 hmap1 cols rows = find_min_z vals2 hmap2 cols rows := by
  unfold find_min_z
  rw [h 0 hr 0 hc]
  apply List.foldl_ext
  intro m r hr'
  apply List.foldl_ext
  intro m' c hc'
  rw [h r (List.mem_range.mp hr') c (List.mem_range.mp hc')]

/-- The minimum of a grid is unique: a value below every sample that is itself
a sample equals the value found by the search loop. -/
theorem find_min_z_unique (vals : Nat → ℚ) (hmap : List Nat) (cols rows : Nat)
    (hr : 0 < rows) (hc : 0 < cols) (minZ : ℚ)
    (hle : ∀ r < rows, ∀ c < cols, minZ ≤ vals (hmap.getD r 0 + c))
    (hex : ∃ r < rows, ∃ c < cols, minZ = vals (hmap.getD r 0 + c)) :
    find_min_z vals hmap cols rows = minZ := by
  obtain ⟨f1, r1, hr1, c1, hc1, f2⟩ := find_min_z_spec vals hmap cols rows hr hc
  obtain ⟨r2, hr2, c2, hc2, e2⟩ := hex
  apply le_antisymm
  · rw [e2]; exact f1 r2 hr2 c2 hc2
  · rw [f2]; exact hle r1 hr1 c1 hc1

/-! ## Lemmas on the position of a facet in the mesh -/

theorem getElem?_flatMap_block {ι α : Type} (g : ι → List α) (k : Nat)
    (hg : ∀ x, (g x).length = k) :
    ∀ (l : List ι) (i j : Nat), j < k →
      (l.flatMap g)[i * k + j]? = (l[i]?).bind (fun x => (g x)[j]?) := by
  intro l
  induction l with
  | nil => intro i j _; simp
  | cons a l ih =>
    intro i j hj
    rw [List.flatMap_cons]
    cases i with
    | zero =>
      rw [Nat.zero_mul, Nat.zero_add, List.getElem?_append_left (by rw [hg]; exact hj)]
      simp
    | succ i =>
      rw [List.getElem?_append_right (by rw [hg, Nat.succ_mul]; omega), hg,
        show (i + 1) * k + j - k = i * k + j by rw [Nat.succ_mul]; omega, ih i j hj]
      simp

theorem getElem?_pairs {α : Type} (A B : Nat → α) (n j : Nat) (hj : j < 2 * n) :
    ((List.range n).flatMap fun i => [A i, B i])[j]? =
      some (if j % 2 = 0 then A (j / 2) else B (j / 2)) := by
  have h := getElem?_flatMap_block (fun i => [A i, B i]) 2 (fun _ => rfl) (List.range n)
    (j / 2) (j % 2) (Nat.mod_lt j (by omega))
  rw [show j / 2 * 2 + j % 2 = j by omega, List.getElem?_range (by omega)] at h
  rw [h]
  rcases Nat.mod_two_eq_zero_or_one j with e | e
  · simp [e]
  · simp [e]

theorem getElem?_top_facets (env : helpers_t) (L : locals_t) (r c e : Nat)
    (hr : r < L.rows - 1) (hc : c < L.cols - 1) (he : e < 2) :
    (top_facets env L)[2 * (r * (L.cols - 1) + c) + e]? =
      some (if e = 0 then mk_facet env (top_mesh_1 L r c)
        else mk_facet env (top_mesh_2 L r c)) := by
  have h := getElem?_flatMap_block
    (fun r => (List.range (L.cols - 1)).flatMap fun c =>
      [mk_facet env (top_mesh_1 L r c), mk_facet env (top_mesh_2 L r c)])
    (2 * (L.cols - 1)) (fun r => by rw [length_flatMap_pair, List.length_range])
    (List.range (L.rows - 1)) r (2 * c + e) (by omega)
  have hi : 2 * (r * (L.cols - 1) + c) + e = r * (2 * (L.cols - 1)) + (2 * c + e) := by ring
  rw [List.getElem?_range hr] at h
  simp only [Option.some_bind] at h
  rw [getElem?_pairs _ _ _ _ (by omega)] at h
  unfold top_facets
  rw [hi, h]
  have e1 : (2 * c + e) / 2 = c := by omega
  have e2 : (2 * c + e) % 2 = e := by omega
  rw [e1, e2]

theorem getElem?_mesh_top (env : helpers_t) (L : locals_t) (i : Nat)
    (hi : i < (top_facets env L).length) :
    (mesh_facets env L)[i]? = (top_facets env L)[i]? := by
  unfold mesh_facets
  rw [List.getElem?_append_left (by rw [List.length_append]; omega),
    List.getElem?_append_left hi]

theorem getElem?_mesh_cap (env : helpers_t) (L : locals_t) (j : Nat)
    (hj : j < (cap_facets env L).length) :
    (mesh_facets env L)[(top_facets env L).length + j]? = (cap_facets env L)[j]? := by
  unfold mesh_facets
  rw [List.getElem?_append_left (by rw [List.length_append]; omega),
    List.getElem?_append_right (by omega), Nat.add_sub_cancel_left]

theorem getElem?_mesh_wall (env : helpers_t) (L : locals_t) (j : Nat) :
    (mesh_facets env L)[(top_facets env L).length + (cap_facets env L).length + j]? =
      (wall_facets env L)[j]? := by
  unfold mesh_facets
  rw [List.getElem?_append_right (by rw [List.length_append]; omega), List.length_append,
    Nat.add_sub_cancel_left]

/-! ## The mesh depends on the samples only through `hmap[r][c]` -/

theorem mesh_facets_congr (env : helpers_t) (L L' : locals_t)
    (hcols : L'.cols = L.cols) (hrows : L'.rows = L.rows)
    (hs : L'.scale_pct = L.scale_pct) (hb : L'.base_height = L.base_height)
    (hu : L'.units_per_pixel = L.units_per_pixel) (hm : L'.min_z_scaled = L.min_z_scaled)
    (hx : L'.center_x = L.center_x) (hy : L'.center_y = L.center_y)
    (hr1 : 1 ≤ L.rows) (hc1 : 1 ≤ L.cols)
    (hat : ∀ r < L.rows, ∀ c < L.cols, L'.at r c = L.at r c) :
    mesh_facets env L' = mesh_facets env L := by
  have top : top_facets env L' = top_facets env L := by
    unfold top_facets
    rw [hcols, hrows]
    apply List.flatMap_congr
    intro r hr
    apply List.flatMap_congr
    intro c hc
    have hr' := List.mem_range.mp hr
    have hc' := List.mem_range.mp hc
    simp only [top_mesh_1, top_mesh_2, hs, hb, hu, hat r (by omega) c (by omega),
      hat r (by omega) (c + 1) (by omega), hat (r + 1) (by omega) c (by omega),
      hat (r + 1) (by omega) (c + 1) (by omega)]
  have cap : cap_facets env L' = cap_facets env L := by
    unfold cap_facets
    rw [hcols, hrows]
    congr 1
    · apply List.flatMap_congr
      intro r _
      simp only [bottom_left, bottom_right, hb, hu, hm, hx, hy, hcols]
    · apply List.flatMap_congr
      intro c _
      simp only [bottom_top, bottom_bottom, hb, hu, hm, hx, hy, hrows]
  have wall : wall_facets env L' = wall_facets env L := by
    unfold wall_facets
    rw [hcols, hrows]
    congr 1
    · congr 1
      · congr 1
        · apply List.flatMap_congr
          intro c hc
          have hc' := List.mem_range.mp hc
          simp only [side_top_1, side_top_2, hs, hb, hu, hm, hat 0 (by omega) c (by omega),
            hat 0 (by omega) (c + 1) (by omega)]
        · apply List.flatMap_congr
          intro c hc
          have hc' := List.mem_range.mp hc
          simp only [side_bottom_1, side_bottom_2, hs, hb, hu, hm, hrows,
            hat (L.rows - 1) (by omega) c (by omega),
            hat (L.rows - 1) (by omega) (c + 1) (by omega)]
      · apply List.flatMap_congr
        intro r hr
        have hr' := List.mem_range.mp hr
        simp only [side_left_1, side_left_2, hs, hb, hu, hm, hat r (by omega) 0 (by omega),
          hat (r + 1) (by omega) 0 (by omega)]
    · apply List.flatMap_congr
      intro r hr
      have hr' := List.mem_range.mp hr
      simp only [side_right_1, side_right_2, hs, hb, hu, hm, hcols,
        hat r (by omega) (L.cols - 1) (by omega),
        hat (r + 1) (by omega) (L.cols - 1) (by omega)]
  unfold mesh_facets
  rw [top, cap, wall]

/-! ## The facets of the bottom cap and of the side walls by index -/

theorem getElem?_pairs_mk (env : helpers_t) (A B : Nat → verticies_t) (n j : Nat)
    (hj : j < 2 * n) :
    ((List.range n).flatMap fun i => [mk_facet env (A i), mk_facet env (B i)])[j]? =
      some (mk_facet env (if j % 2 = 0 then A (j / 2) else B (j / 2))) := by
  rw [getElem?_pairs (fun i => mk_facet env (A i)) (fun i => mk_facet env (B i)) n j hj]
  split_ifs <;> rfl

theorem getElem?_cap_facets (env : helpers_t) (L : locals_t) (j : Nat)
    (hj : j < 2 * (L.cols - 1) + 2 * (L.rows - 1)) :
    (cap_facets env L)[j]? = some (mk_facet env (cap_verticies L j)) := by
  unfold cap_facets cap_verticies
  by_cases h : j < 2 * (L.rows - 1)
  · rw [List.getElem?_append_left (by rw [length_flatMap_pair, List.length_range]; exact h),
      getElem?_pairs_mk env _ _ _ _ h, if_pos h]
  · rw [List.getElem?_append_right (by rw [length_flatMap_pair, List.length_range]; omega),
      length_flatMap_pair, List.length_range, getElem?_pairs_mk env _ _ _ _ (by omega), if_neg h]

theorem getElem?_wall_facets (env : helpers_t) (L : locals_t) (j : Nat)
    (hj : j < 4 * (L.cols - 1) + 4 * (L.rows - 1)) :
    (wall_facets env L)[j]? = some (mk_facet env (wall_verticies L j)) := by
  unfold wall_facets wall_verticies
  by_cases h1 : j < 2 * (L.cols - 1)
  · rw [List.getElem?_append_left (by
        simp only [List.length_append, length_flatMap_pair, List.length_range]; omega),
      List.getElem?_append_left (by
        simp only [List.length_append, length_flatMap_pair, List.length_range]; omega),
      List.getElem?_append_left (by
        simp only [length_flatMap_pair, List.length_range]; omega),
      getElem?_pairs_mk env _ _ _ _ h1, if_pos h1]
  · rw [if_neg h1]
    by_cases h2 : j < 4 * (L.cols - 1)
    · rw [List.getElem?_append_left (by
          simp only [List.length_append, length_flatMap_pair, List.length_range]; omega),
        List.getElem?_append_left (by
          simp only [List.length_append, length_flatMap_pair, List.length_range]; omega),
        List.getElem?_append_right (by
          simp only [length_flatMap_pair, List.length_range]; omega),
        length_flatMap_pair, List.length_range, getElem?_pairs_mk env _ _ _ _ (by omega),
        if_pos h2]
    · rw [if_neg h2]
      by_cases h3 : j < 4 * (L.cols - 1) + 2 * (L.rows - 1)
      · rw [List.getElem?_append_left (by
            simp only [List.length_append, length_flatMap_pair, List.length_range]; omega),
          List.getElem?_append_right (by
            simp only [List.length_append, length_flatMap_pair, List.length_range]; omega)]
        simp only [List.length_append, length_flatMap_pair, List.length_range]
        rw [show j - (2 * (L.cols - 1) + 2 * (L.cols - 1)) = j - 4 * (L.cols - 1) by omega,
          getElem?_pairs_mk env _ _ _ _ (by omega), if_pos h3]
      · rw [if_neg h3, List.getElem?_append_right (by
            simp only [List.length_append, length_flatMap_pair, List.length_range]; omega)]
        simp only [List.length_append, length_flatMap_pair, List.length_range]
        rw [show j - (2 * (L.cols - 1) + 2 * (L.cols - 1) + 2 * (L.rows - 1))
            = j - (4 * (L.cols - 1) + 2 * (L.rows - 1)) by omega,
          getElem?_pairs_mk env _ _ _ _ (by omega)]

theorem locals_min (vals : Nat → ℚ) (origin : stl_origin_t) (cols rows : Nat) (s b u : ℚ)
    (hv : valid_input cols rows s u) (minZ : ℚ) (hmin : is_minimum vals cols rows minZ) :
    (locals_of vals origin cols rows s b u).min_z_scaled = minZ * (s / 100) := by
  have hv' := hv
  obtain ⟨hc2, hr2, _, _, _⟩ := hv'
  obtain ⟨hle, r0, hr0, c0, hc0, hex⟩ := hmin
  have key : find_min_z vals (locals_of vals origin cols rows s b u).hmap cols rows = minZ := by
    apply find_min_z_unique vals _ cols rows (by omega) (by omega) minZ
    · intro r hr c hc
      cases origin with
      | STL_ORIGIN_BOTTOM_LEFT =>
        show minZ ≤ (locals_of vals stl_origin_t.STL_ORIGIN_BOTTOM_LEFT cols rows s b u).at r c
        rw [at_bottom_left vals cols rows s b u hv r c hr]
        exact hle r hr c hc
      | STL_ORIGIN_TOP_LEFT =>
        show minZ ≤ (locals_of vals stl_origin_t.STL_ORIGIN_TOP_LEFT cols rows s b u).at r c
        rw [at_top_left vals cols rows s b u hv r c hr]
        exact hle (rows - 1 - r) (by omega) c hc
    · cases origin with
      | STL_ORIGIN_BOTTOM_LEFT =>
        refine ⟨r0, hr0, c0, hc0, ?_⟩
        show minZ = (locals_of vals stl_origin_t.STL_ORIGIN_BOTTOM_LEFT cols rows s b u).at r0 c0
        rw [at_bottom_left vals cols rows s b u hv r0 c0 hr0]
        exact hex
      | STL_ORIGIN_TOP_LEFT =>
        refine ⟨rows - 1 - r0, by omega, c0, hc0, ?_⟩
        show minZ = (locals_of vals stl_origin_t.STL_ORIGIN_TOP_LEFT cols rows s b u).at
          (rows - 1 - r0) c0
        rw [at_top_left vals cols rows s b u hv (rows - 1 - r0) c0 (by omega),
          show rows - 1 - (rows - 1 - r0) = r0 by omega]
        exact hex
  show find_min_z vals (locals_of vals origin cols rows s b u).hmap cols rows * (s / 100)
    = minZ * (s / 100)
  rw [key]

/-! ## Builder claims -/

theorem stl_from_heightmap_double_accepts (env : helpers_t) (vals : Nat → ℚ)
    (origin : stl_origin_t) (cols rows : Nat) (s b u : ℚ)
    (hc : 2 ≤ cols) (hr : 2 ≤ rows) (hs : 0 < s) (hu : 0 < u) :
    stl_from_heightmap_double env (some vals) origin cols rows s b u true =
      (STL_SUCCESS,
        some { header := env.fresh_header
               facets_count := fascet_count cols rows
               facets := (mesh_loops env (locals_of vals origin cols rows s b u)
                 (List.replicate (fascet_count cols rows) env.fresh_facet, 0)).1 }) := by
  have hacc := args_accepted vals cols rows s u hc hr hs hu
  simp only [stl_from_heightmap_double, hacc, if_false, if_true, stl_new, STL_LOG_ERR, ne_eq,
    not_true_eq_false, Option.map_some', Option.getD_some]

theorem stl_from_heightmap_double_rejects (env : helpers_t) (vals : Option (Nat → ℚ))
    (origin : stl_origin_t) (cols rows : Nat) (s b u : ℚ) (newstl : Bool)
    (h : vals = none ∨ cols < 2 ∨ rows < 2 ∨ s ≤ 0 ∨ u ≤ 0 ∨ newstl = false) :
    stl_from_heightmap_double env vals origin cols rows s b u newstl =
      (STL_ERROR_INVALID_ARG, none) := by
  have h' : vals.isNone ∨ cols < 2 ∨ rows < 2 ∨ s ≤ 0 ∨ u ≤ 0 ∨ newstl = false := by
    rcases h with h | h
    · left; rw [h]; rfl
    · right; exact h
  have hne : ¬ (STL_SUCCESS = STL_ERROR_INVALID_ARG) := by decide
  simp only [stl_from_heightmap_double, h', if_true, STL_LOG_ERR, hne, if_false, ne_eq,
    not_false_eq_true]

/-- C1, the code at a failing input.  For a grid of 2 columns and 536870913
rows the builder accepts the arguments and returns a model whose
`facets_count` is 6, while the count of the spec, which is also the number of
facets the loops then write, is 4294967302. -/
theorem facets_count_wraps :
    ∃ m, stl_from_heightmap_double example_env (some zero_grid)
        stl_origin_t.STL_ORIGIN_BOTTOM_LEFT 2 536870913 100 0 1 true = (STL_SUCCESS, some m) ∧
      m.facets_count = 6 ∧ facet_total 2 536870913 = 4294967302 :=
  ⟨_, stl_from_heightmap_double_accepts example_env zero_grid _ 2 536870913 100 0 1
      (by decide) (by decide) (by norm_num) (by norm_num),
    by decide, by decide⟩

/-- Where the count of the spec fits 32 bits, the model returned for accepted
arguments has exactly that `facets_count` and that many facets. -/
theorem facets_count_formula (env : helpers_t) (vals : Nat → ℚ) (origin : stl_origin_t)
    (cols rows : Nat) (s b u : ℚ) (hv : valid_input cols rows s u) :
    ∃ m, stl_from_heightmap_double env (some vals) origin cols rows s b u true =
        (STL_SUCCESS, some m) ∧
      m.facets_count = facet_total cols rows ∧ m.facets.length = facet_total cols rows :=
  ⟨_, stl_from_heightmap_double_eq env vals origin cols rows s b u hv, rfl, by
    rw [mesh_facets_length, locals_of_cols, locals_of_rows]⟩

/-- The argument test of the builder.  `stl_from_heightmap_double` returns
`STL_ERROR_INVALID_ARG` and leaves the output reference unwritten whenever the
samples are absent, `cols < 2`, `rows < 2`, `scale_pct <= 0` or
`units_per_pixel <= 0`; when none of these holds, the output reference is
present and the facet count fits 32 bits, it returns `STL_SUCCESS` and writes
a model. -/
theorem stl_from_heightmap_double_validation (env : helpers_t) (vals : Option (Nat → ℚ))
    (origin : stl_origin_t) (cols rows : Nat) (s b u : ℚ) :
    ((vals = none ∨ cols < 2 ∨ rows < 2 ∨ s ≤ 0 ∨ u ≤ 0) →
      ∀ newstl, stl_from_heightmap_double env vals origin cols rows s b u newstl =
        (STL_ERROR_INVALID_ARG, none)) ∧
    (¬ (vals = none ∨ cols < 2 ∨ rows < 2 ∨ s ≤ 0 ∨ u ≤ 0) →
      facet_total cols rows < 2 ^ 32 →
      ∃ m, stl_from_heightmap_double env vals origin cols rows s b u true =
        (STL_SUCCESS, some m)) := by
  constructor
  · intro h newstl
    have h' : vals = none ∨ cols < 2 ∨ rows < 2 ∨ s ≤ 0 ∨ u ≤ 0 ∨ newstl = false := by
      tauto
    exact stl_from_heightmap_double_rejects env vals origin cols rows s b u newstl h'
  · intro h hfit
    simp only [not_or, not_lt, not_le] at h
    obtain ⟨h1, h2, h3, h4, h5⟩ := h
    cases vals with
    | none => exact absurd rfl h1
    | some v =>
      exact ⟨_, stl_from_heightmap_double_eq env v origin cols rows s b u ⟨h2, h3, h4, h5, hfit⟩⟩

theorem stl_from_heightmap_double_validation_witness :
    ((3 : Nat) < 2 ∨ (1 : Nat) < 2) ∧
    stl_from_heightmap_double example_env (some example_grid)
      stl_origin_t.STL_ORIGIN_BOTTOM_LEFT 3 1 100 0 1 true = (STL_ERROR_INVALID_ARG, none) ∧
    ∃ m, stl_from_heightmap_double example_env (some example_grid)
      stl_origin_t.STL_ORIGIN_BOTTOM_LEFT 3 2 100 0 1 true = (STL_SUCCESS, some m) :=
  ⟨by decide,
    (stl_from_heightmap_double_validation example_env (some example_grid)
      stl_origin_t.STL_ORIGIN_BOTTOM_LEFT 3 1 100 0 1).1 (by norm_num) true,
    (stl_from_heightmap_double_validation example_env (some example_grid)
      stl_origin_t.STL_ORIGIN_BOTTOM_LEFT 3 2 100 0 1).2 (by simp) (by decide)⟩

/-- The layout of the top surface in exact arithmetic, that is with the
rounding of `double` arithmetic and of the cast to `float` left out, as it is
throughout the embedding of the builder (the stored values of the C code are
the `float` roundings of these).  For every valid input with origin
bottom-left and every cell `(r, c)`
with `r <= rows - 2` and `c <= cols - 2`, the facet at index
`2 * (r * (cols - 1) + c)` has the vertices `P(r,c)`, `P(r,c+1)`, `P(r+1,c)`
and the facet at the next index has `P(r,c+1)`, `P(r+1,c+1)`, `P(r+1,c)`, in
that order; both indices lie among the first `2 (cols-1) (rows-1)` facets. -/
theorem top_surface_layout (env : helpers_t) (vals : Nat → ℚ) (cols rows : Nat) (s b u : ℚ)
    (hv : valid_input cols rows s u) (r c : Nat) (hr : r ≤ rows - 2) (hc : c ≤ cols - 2) :
    ∃ m f1 f2,
      stl_from_heightmap_double env (some vals) stl_origin_t.STL_ORIGIN_BOTTOM_LEFT
        cols rows s b u true = (STL_SUCCESS, some m) ∧
      m.facets[2 * (r * (cols - 1) + c)]? = some f1 ∧
      m.facets[2 * (r * (cols - 1) + c) + 1]? = some f2 ∧
      f1.vertex1 = position vals cols s b u r c ∧
      f1.vertex2 = position vals cols s b u r (c + 1) ∧
      f1.vertex3 = position vals cols s b u (r + 1) c ∧
      f2.vertex1 = position vals cols s b u r (c + 1) ∧
      f2.vertex2 = position vals cols s b u (r + 1) (c + 1) ∧
      f2.vertex3 = position vals cols s b u (r + 1) c ∧
      2 * (r * (cols - 1) + c) + 1 < 2 * (cols - 1) * (rows - 1) := by
  have hv' := hv
  obtain ⟨hc2, hr2, _, _, _⟩ := hv'
  have hr' : r < rows - 1 := by omega
  have hc' : c < cols - 1 := by omega
  have hlt : 2 * (r * (cols - 1) + c) + 1 < 2 * (cols - 1) * (rows - 1) := by
    have h1 : (r + 1) * (cols - 1) ≤ (rows - 1) * (cols - 1) :=
      Nat.mul_le_mul_right _ (by omega)
    have h2 : 2 * (cols - 1) * (rows - 1) = 2 * ((rows - 1) * (cols - 1)) := by ring
    have h3 : (r + 1) * (cols - 1) = r * (cols - 1) + (cols - 1) := by ring
    rw [h2]
    omega
  have a00 := at_bottom_left vals cols rows s b u hv r c (by omega)
  have a01 := at_bottom_left vals cols rows s b u hv r (c + 1) (by omega)
  have a10 := at_bottom_left vals cols rows s b u hv (r + 1) c (by omega)
  have a11 := at_bottom_left vals cols rows s b u hv (r + 1) (c + 1) (by omega)
  refine ⟨_,
    mk_facet env
      (top_mesh_1 (locals_of vals stl_origin_t.STL_ORIGIN_BOTTOM_LEFT cols rows s b u) r c),
    mk_facet env
      (top_mesh_2 (locals_of vals stl_origin_t.STL_ORIGIN_BOTTOM_LEFT cols rows s b u) r c),
    stl_from_heightmap_double_eq env vals _ cols rows s b u hv, ?_, ?_,
    ?_, ?_, ?_, ?_, ?_, ?_, hlt⟩
  · show (mesh_facets env _)[2 * (r * (cols - 1) + c)]? = _
    rw [getElem?_mesh_top _ _ _ (by rw [top_facets_length]; exact lt_trans (Nat.lt_succ_self _) hlt)]
    exact getElem?_top_facets env _ r c 0 hr' hc' (by omega)
  · show (mesh_facets env _)[2 * (r * (cols - 1) + c) + 1]? = _
    rw [getElem?_mesh_top _ _ _ (by rw [top_facets_length]; exact hlt)]
    exact getElem?_top_facets env _ r c 1 hr' hc' (by omega)
  all_goals
    simp only [if_true, one_ne_zero, if_false, mk_facet, top_mesh_1, top_mesh_2, position,
      sample, a00, a01, a10, a11, mul_div_assoc]
    rfl

theorem top_surface_layout_witness :
    valid_input 3 2 100 1 ∧
    ∃ m f1 f2,
      stl_from_heightmap_double example_env (some example_grid)
        stl_origin_t.STL_ORIGIN_BOTTOM_LEFT 3 2 100 0 1 true = (STL_SUCCESS, some m) ∧
      m.facets[2 * (0 * (3 - 1) + 1)]? = some f1 ∧
      m.facets[2 * (0 * (3 - 1) + 1) + 1]? = some f2 ∧
      f1.vertex1 = position example_grid 3 100 0 1 0 1 ∧
      f1.vertex2 = position example_grid 3 100 0 1 0 (1 + 1) ∧
      f1.vertex3 = position example_grid 3 100 0 1 (0 + 1) 1 ∧
      f2.vertex1 = position example_grid 3 100 0 1 0 (1 + 1) ∧
      f2.vertex2 = position example_grid 3 100 0 1 (0 + 1) (1 + 1) ∧
      f2.vertex3 = position example_grid 3 100 0 1 (0 + 1) 1 ∧
      2 * (0 * (3 - 1) + 1) + 1 < 2 * (3 - 1) * (2 - 1) :=
  ⟨by decide,
    top_surface_layout example_env example_grid 3 2 100 0 1 (by decide) 0 1
      (by decide) (by decide)⟩

/-- C9.  For every valid input, building with origin top-left from a grid
succeeds and yields exactly the model that building with origin bottom-left
yields from the grid whose row `i` is row `rows - 1 - i`; the swap loop leaves
the row table completely reversed, for odd and for even `rows`. -/
theorem top_left_is_flipped_bottom_left (env : helpers_t) (vals : Nat → ℚ) (cols rows : Nat)
    (s b u : ℚ) (hv : valid_input cols rows s u) :
    (∃ m,
      stl_from_heightmap_double env (some vals) stl_origin_t.STL_ORIGIN_TOP_LEFT
        cols rows s b u true = (STL_SUCCESS, some m) ∧
      stl_from_heightmap_double env (some (flip_rows vals cols rows))
        stl_origin_t.STL_ORIGIN_BOTTOM_LEFT cols rows s b u true = (STL_SUCCESS, some m)) ∧
    hmap_swap (hmap_init cols rows) rows = (hmap_init cols rows).reverse := by
  have hv' := hv
  obtain ⟨hc2, hr2, _, _, _⟩ := hv'
  have hat : ∀ r < rows, ∀ c < cols,
      (locals_of (flip_rows vals cols rows) stl_origin_t.STL_ORIGIN_BOTTOM_LEFT
        cols rows s b u).at r c =
      (locals_of vals stl_origin_t.STL_ORIGIN_TOP_LEFT cols rows s b u).at r c := by
    intro r hr c hc
    rw [at_bottom_left _ cols rows s b u hv r c hr, at_top_left vals cols rows s b u hv r c hr,
      flip_rows_at vals cols rows r c hc]
  have hmin :
      (locals_of (flip_rows vals cols rows) stl_origin_t.STL_ORIGIN_BOTTOM_LEFT
        cols rows s b u).min_z_scaled =
      (locals_of vals stl_origin_t.STL_ORIGIN_TOP_LEFT cols rows s b u).min_z_scaled := by
    have := find_min_z_congr (flip_rows vals cols rows) vals
      (locals_of (flip_rows vals cols rows) stl_origin_t.STL_ORIGIN_BOTTOM_LEFT
        cols rows s b u).hmap
      (locals_of vals stl_origin_t.STL_ORIGIN_TOP_LEFT cols rows s b u).hmap
      cols rows (by omega) (by omega) hat
    rw [locals_of_min_z_scaled, locals_of_min_z_scaled, this]
  have hmesh := mesh_facets_congr env
    (locals_of vals stl_origin_t.STL_ORIGIN_TOP_LEFT cols rows s b u)
    (locals_of (flip_rows vals cols rows) stl_origin_t.STL_ORIGIN_BOTTOM_LEFT cols rows s b u)
    rfl rfl rfl rfl rfl hmin rfl rfl (by show 1 ≤ rows; omega) (by show 1 ≤ cols; omega) hat
  refine ⟨⟨_, stl_from_heightmap_double_eq env vals _ cols rows s b u hv, ?_⟩, ?_⟩
  · rw [stl_from_heightmap_double_eq env _ _ cols rows s b u hv, hmesh]
  · have h := hmap_swap_eq_reverse (hmap_init cols rows)
    rw [hmap_init_length] at h
    exact h

theorem top_left_is_flipped_bottom_left_witness :
    valid_input 3 2 100 1 ∧
    (∃ m,
      stl_from_heightmap_double example_env (some example_grid)
        stl_origin_t.STL_ORIGIN_TOP_LEFT 3 2 100 0 1 true = (STL_SUCCESS, some m) ∧
      stl_from_heightmap_double example_env (some (flip_rows example_grid 3 2))
        stl_origin_t.STL_ORIGIN_BOTTOM_LEFT 3 2 100 0 1 true = (STL_SUCCESS, some m)) ∧
    hmap_swap (hmap_init 3 2) 2 = (hmap_init 3 2).reverse :=
  ⟨by decide, top_left_is_flipped_bottom_left example_env example_grid 3 2 100 0 1 (by decide)⟩

/-- The height of the floor in exact arithmetic, that is with the rounding of
`double` arithmetic and of the cast to `float` left out (the stored value of
the C code is the `float` rounding of `floorZ`).  For every valid input, with
`minZ` the minimum sample of the whole
grid and `floorZ = minZ * scale_pct / 100 - base_height`: every vertex of each
of the `2 (cols-1) + 2 (rows-1)` bottom-cap facets, and every lower vertex of
each of the `4 (cols-1) + 4 (rows-1)` side-wall facets that follow them, has Z
exactly `floorZ`. -/
theorem floor_is_constant (env : helpers_t) (vals : Nat → ℚ) (origin : stl_origin_t)
    (cols rows : Nat) (s b u : ℚ) (hv : valid_input cols rows s u)
    (minZ : ℚ) (hmin : is_minimum vals cols rows minZ) :
    ∃ m,
      stl_from_heightmap_double env (some vals) origin cols rows s b u true =
        (STL_SUCCESS, some m) ∧
      (∀ j < 2 * (cols - 1) + 2 * (rows - 1),
        ∃ fa, m.facets[2 * (cols - 1) * (rows - 1) + j]? = some fa ∧
          fa.vertex1.t3 = floor_z minZ s b ∧ fa.vertex2.t3 = floor_z minZ s b ∧
          fa.vertex3.t3 = floor_z minZ s b) ∧
      (∀ j < 4 * (cols - 1) + 4 * (rows - 1),
        ∃ fa, m.facets[2 * (cols - 1) * (rows - 1) + (2 * (cols - 1) + 2 * (rows - 1)) + j]?
            = some fa ∧
          ∀ v ∈ lower_vertices cols rows j fa, v.t3 = floor_z minZ s b) := by
  have hfloor : (locals_of vals origin cols rows s b u).min_z_scaled -
      (locals_of vals origin cols rows s b u).base_height = floor_z minZ s b := by
    rw [locals_min vals origin cols rows s b u hv minZ hmin]
    show minZ * (s / 100) - b = minZ * s / 100 - b
    rw [mul_div_assoc]
  have htop := top_facets_length env (locals_of vals origin cols rows s b u)
  have hcap := cap_facets_length env (locals_of vals origin cols rows s b u)
  rw [locals_of_cols, locals_of_rows] at htop hcap
  refine ⟨_, stl_from_heightmap_double_eq env vals origin cols rows s b u hv, ?_, ?_⟩
  · intro j hj
    refine ⟨mk_facet env (cap_verticies (locals_of vals origin cols rows s b u) j), ?_, ?_⟩
    · show (mesh_facets env _)[2 * (cols - 1) * (rows - 1) + j]? = _
      rw [← htop, getElem?_mesh_cap _ _ _ (by rw [hcap]; exact hj)]
      exact getElem?_cap_facets env _ j hj
    · simp only [mk_facet, cap_verticies]
      split_ifs <;>
        simp only [bottom_left, bottom_right, bottom_top, bottom_bottom, hfloor, and_self]
  · intro j hj
    refine ⟨mk_facet env (wall_verticies (locals_of vals origin cols rows s b u) j), ?_, ?_⟩
    · show (mesh_facets env _)[2 * (cols - 1) * (rows - 1) +
        (2 * (cols - 1) + 2 * (rows - 1)) + j]? = _
      rw [← htop, ← hcap, getElem?_mesh_wall]
      exact getElem?_wall_facets env _ j hj
    · intro v hvm
      simp only [lower_vertices, mk_facet, wall_verticies, locals_of_cols, locals_of_rows]
        at hvm
      split_ifs at hvm <;>
        simp only [List.mem_cons, List.mem_singleton, List.not_mem_nil, or_false] at hvm <;>
        first
          | omega
          | (rcases hvm with rfl | rfl <;>
              simp only [side_top_1, side_top_2, side_bottom_1, side_bottom_2, side_left_1,
                side_left_2, side_right_1, side_right_2, hfloor])

theorem floor_is_constant_witness :
    valid_input 3 2 100 1 ∧ is_minimum example_grid 3 2 1 ∧
    ∃ m,
      stl_from_heightmap_double example_env (some example_grid)
        stl_origin_t.STL_ORIGIN_TOP_LEFT 3 2 100 0 1 true = (STL_SUCCESS, some m) ∧
      (∀ j < 2 * (3 - 1) + 2 * (2 - 1),
        ∃ fa, m.facets[2 * (3 - 1) * (2 - 1) + j]? = some fa ∧
          fa.vertex1.t3 = floor_z 1 100 0 ∧ fa.vertex2.t3 = floor_z 1 100 0 ∧
          fa.vertex3.t3 = floor_z 1 100 0) ∧
      (∀ j < 4 * (3 - 1) + 4 * (2 - 1),
        ∃ fa, m.facets[2 * (3 - 1) * (2 - 1) + (2 * (3 - 1) + 2 * (2 - 1)) + j]? = some fa ∧
          ∀ v ∈ lower_vertices 3 2 j fa, v.t3 = floor_z 1 100 0) :=
  ⟨by decide, ⟨by decide, ⟨0, by decide, 0, by decide, by decide⟩⟩,
    floor_is_constant example_env example_grid stl_origin_t.STL_ORIGIN_TOP_LEFT 3 2 100 0 1
      (by decide) 1 ⟨by decide, ⟨0, by decide, 0, by decide, by decide⟩⟩⟩

/-! ## Lemmas on the transform loops -/

theorem modify_at_length {α : Type} (g : α → α) (pre : List α) (x : α) (post : List α)
    (n : Nat) (hn : n = pre.length) :
    List.modify g n (pre ++ x :: post) = pre ++ g x :: post := by
  subst hn
  induction pre with
  | nil => simp
  | cons a pre ih => simp [ih]

theorem foldl_modify_range_le {α : Type} (g : α → α) (l : List α) :
    ∀ n, n ≤ l.length →
      (List.range n).foldl (fun acc i => acc.modify g i) l = (l.take n).map g ++ l.drop n := by
  intro n
  induction n with
  | zero => intro _; simp
  | succ n ih =>
    intro hn
    have hlt : n < l.length := by omega
    rw [List.range_succ, List.foldl_append, ih (by omega), List.foldl_cons, List.foldl_nil,
      List.drop_eq_getElem_cons hlt,
      modify_at_length g _ _ _ n (by rw [List.length_map, List.length_take]; omega),
      List.take_succ, List.getElem?_eq_getElem hlt]
    simp only [Option.toList_some, List.map_append, List.map_cons, List.map_nil,
      List.append_assoc, List.cons_append, List.nil_append]

theorem foldl_modify_range {α : Type} (g : α → α) (l : List α) (n : Nat)
    (hn : l.length = n) :
    (List.range n).foldl (fun acc i => acc.modify g i) l = l.map g := by
  rw [foldl_modify_range_le g l n (by omega), ← hn, List.take_length, List.drop_length,
    List.append_nil]

theorem stl_rotate_eq {F : Type} [Field F] (lm : libm_t F) (axis : stl_axis_t) (degrees : F)
    (m : stl_t F) (hm : stl_sized m) :
    stl_rotate lm axis degrees (some m) =
      (STL_SUCCESS,
        some { m with
          facets := m.facets.map
            (stl_rotate_facet axis (lm.cos (deg2rad lm degrees))
              (lm.sin (deg2rad lm degrees))) }) := by
  simp only [stl_rotate, STL_LOG_ERR, foldl_modify_range _ m.facets m.facets_count hm]

theorem stl_scale_eq {F : Type} [Field F] (pct_x pct_y pct_z : F) (m : stl_t F)
    (hm : stl_sized m) :
    stl_scale pct_x pct_y pct_z (some m) =
      (STL_SUCCESS,
        some { m with
          facets := m.facets.map
            (stl_scale_facet (pct_x / 100) (pct_y / 100) (pct_z / 100)) }) := by
  simp only [stl_scale, STL_LOG_ERR, Option.isNone_some, Bool.false_eq_true, if_false, if_true,
    Option.map_some', foldl_modify_range _ m.facets m.facets_count hm]

theorem rot_vec_x_eq {F : Type} [Field F] (cs sn : F) (v : triplet_t F) :
    _rot_vec_x cs sn v = rotated STL_AXIS_X cs sn v := by
  simp [_rot_vec_x, rotated]

theorem rot_vec_y_eq {F : Type} [Field F] (cs sn : F) (v : triplet_t F) :
    _rot_vec_y cs sn v = rotated STL_AXIS_Y cs sn v := by
  have h : ¬ (STL_AXIS_Y = STL_AXIS_X) := by decide
  simp only [_rot_vec_y, rotated, h, if_false, if_true, triplet_t.mk.injEq]
  refine ⟨by ring, trivial, by ring⟩

theorem rot_vec_z_eq {F : Type} [Field F] (cs sn : F) (v : triplet_t F) :
    _rot_vec_z cs sn v = rotated STL_AXIS_Z cs sn v := by
  have h1 : ¬ (STL_AXIS_Z = STL_AXIS_X) := by decide
  have h2 : ¬ (STL_AXIS_Z = STL_AXIS_Y) := by decide
  simp only [_rot_vec_z, rotated, h1, h2, if_false]

theorem stl_rotate_facet_eq {F : Type} [Field F] (axis : stl_axis_t) (cs sn : F)
    (f : facet_t F)
    (haxis : axis = STL_AXIS_X ∨ axis = STL_AXIS_Y ∨ axis = STL_AXIS_Z) :
    stl_rotate_facet axis cs sn f =
      { normal := rotated axis cs sn f.normal
        vertex1 := rotated axis cs sn f.vertex1
        vertex2 := rotated axis cs sn f.vertex2
        vertex3 := rotated axis cs sn f.vertex3
        abc := f.abc } := by
  have hyx : ¬ (STL_AXIS_X = STL_AXIS_Y) := by decide
  have hzx : ¬ (STL_AXIS_X = STL_AXIS_Z) := by decide
  have hzy : ¬ (STL_AXIS_Y = STL_AXIS_Z) := by decide
  rcases haxis with h | h | h
  · subst h
    simp only [stl_rotate_facet, if_true, rot_vec_x_eq]
  · subst h
    simp only [stl_rotate_facet, hyx, if_false, if_true, rot_vec_y_eq]
  · subst h
    simp only [stl_rotate_facet, hzx, hzy, if_false, rot_vec_z_eq]

/-! ## Transform claims -/

/-- The rotation formulas in exact arithmetic, that is over a field, with
the rounding of `double` arithmetic, of `cos` and `sin` and of the cast to
`float` left out (the stored values of the C code are roundings of these).
For every model, every angle in degrees (θ = degrees·π/180) and each
of the axes X, Y, Z, `stl_rotate` succeeds and replaces the normal and the
three vertices of every facet by their rotation about the axis: for Z,
`(x cos θ − y sin θ, x sin θ + y cos θ, z)`; for X,
`(x, y cos θ − z sin θ, y sin θ + z cos θ)`; for Y,
`(z sin θ + x cos θ, y, z cos θ − x sin θ)`. -/
theorem stl_rotate_formulas {F : Type} [Field F] (lm : libm_t F) (axis : stl_axis_t)
    (degrees : F) (m : stl_t F) (hm : stl_sized m)
    (haxis : axis = STL_AXIS_X ∨ axis = STL_AXIS_Y ∨ axis = STL_AXIS_Z) :
    stl_rotate lm axis degrees (some m) =
      (STL_SUCCESS,
        some { m with
          facets := m.facets.map fun f =>
            { normal := rotated axis (lm.cos (degrees * lm.M_PI / 180))
                (lm.sin (degrees * lm.M_PI / 180)) f.normal
              vertex1 := rotated axis (lm.cos (degrees * lm.M_PI / 180))
                (lm.sin (degrees * lm.M_PI / 180)) f.vertex1
              vertex2 := rotated axis (lm.cos (degrees * lm.M_PI / 180))
                (lm.sin (degrees * lm.M_PI / 180)) f.vertex2
              vertex3 := rotated axis (lm.cos (degrees * lm.M_PI / 180))
                (lm.sin (degrees * lm.M_PI / 180)) f.vertex3
              abc := f.abc } }) := by
  rw [stl_rotate_eq lm axis degrees m hm]
  have e : stl_rotate_facet axis (lm.cos (deg2rad lm degrees)) (lm.sin (deg2rad lm degrees))
      = fun f =>
        { normal := rotated axis (lm.cos (degrees * lm.M_PI / 180))
            (lm.sin (degrees * lm.M_PI / 180)) f.normal
          vertex1 := rotated axis (lm.cos (degrees * lm.M_PI / 180))
            (lm.sin (degrees * lm.M_PI / 180)) f.vertex1
          vertex2 := rotated axis (lm.cos (degrees * lm.M_PI / 180))
            (lm.sin (degrees * lm.M_PI / 180)) f.vertex2
          vertex3 := rotated axis (lm.cos (degrees * lm.M_PI / 180))
            (lm.sin (degrees * lm.M_PI / 180)) f.vertex3
          abc := f.abc } := by
    funext f
    rw [stl_rotate_facet_eq axis _ _ f haxis]
    rfl
  rw [e]

theorem stl_rotate_formulas_witness :
    stl_sized example_solid ∧
    (STL_AXIS_Y = STL_AXIS_X ∨ STL_AXIS_Y = STL_AXIS_Y ∨ STL_AXIS_Y = STL_AXIS_Z) ∧
    stl_rotate quarter_turns STL_AXIS_Y 90 (some example_solid) =
      (STL_SUCCESS,
        some { example_solid with
          facets := example_solid.facets.map fun f =>
            { normal := rotated STL_AXIS_Y (quarter_turns.cos (90 * quarter_turns.M_PI / 180))
                (quarter_turns.sin (90 * quarter_turns.M_PI / 180)) f.normal
              vertex1 := rotated STL_AXIS_Y (quarter_turns.cos (90 * quarter_turns.M_PI / 180))
                (quarter_turns.sin (90 * quarter_turns.M_PI / 180)) f.vertex1
              vertex2 := rotated STL_AXIS_Y (quarter_turns.cos (90 * quarter_turns.M_PI / 180))
                (quarter_turns.sin (90 * quarter_turns.M_PI / 180)) f.vertex2
              vertex3 := rotated STL_AXIS_Y (quarter_turns.cos (90 * quarter_turns.M_PI / 180))
                (quarter_turns.sin (90 * quarter_turns.M_PI / 180)) f.vertex3
              abc := f.abc } }) :=
  ⟨by decide, by decide,
    stl_rotate_formulas quarter_turns STL_AXIS_Y 90 example_solid (by decide) (by decide)⟩

/-- The quarter turn in exact arithmetic.  Over the reals, with `M_PI` the
number π and no rounding (in the C code `cos(90 * M_PI / 180)` is a small
nonzero `double`, so the stored result is `(1,0,0) -> (0,1,0)` only up to
rounding): `stl_rotate` about Z by 0
degrees returns the model unchanged, and `stl_rotate` about Z by 90 degrees
maps every normal and every vertex equal to `(1,0,0)` to `(0,1,0)`. -/
theorem stl_rotate_z_zero_and_quarter (m : stl_t ℝ) (hm : stl_sized m) :
    stl_rotate ⟨Real.pi, Real.cos, Real.sin⟩ STL_AXIS_Z 0 (some m) = (STL_SUCCESS, some m) ∧
    ∃ m' : stl_t ℝ, stl_rotate ⟨Real.pi, Real.cos, Real.sin⟩ STL_AXIS_Z 90 (some m) =
        (STL_SUCCESS, some m') ∧
      m'.facets.length = m.facets.length ∧
      ∀ (i : Nat) (f : facet_t ℝ), m.facets[i]? = some f →
        ∃ f' : facet_t ℝ, m'.facets[i]? = some f' ∧
        (f.normal = ⟨1, 0, 0⟩ → f'.normal = ⟨0, 1, 0⟩) ∧
        (f.vertex1 = ⟨1, 0, 0⟩ → f'.vertex1 = ⟨0, 1, 0⟩) ∧
        (f.vertex2 = ⟨1, 0, 0⟩ → f'.vertex2 = ⟨0, 1, 0⟩) ∧
        (f.vertex3 = ⟨1, 0, 0⟩ → f'.vertex3 = ⟨0, 1, 0⟩) := by
  have hzx : ¬ (STL_AXIS_X = STL_AXIS_Z) := by decide
  have hzy : ¬ (STL_AXIS_Y = STL_AXIS_Z) := by decide
  have h0 : deg2rad (⟨Real.pi, Real.cos, Real.sin⟩ : libm_t ℝ) 0 = 0 := by
    simp [deg2rad]
  have h90 : deg2rad (⟨Real.pi, Real.cos, Real.sin⟩ : libm_t ℝ) 90 = Real.pi / 2 := by
    simp only [deg2rad]
    ring
  constructor
  · rw [stl_rotate_eq _ _ _ m hm]
    simp only [h0, Real.cos_zero, Real.sin_zero]
    have e : stl_rotate_facet STL_AXIS_Z (1 : ℝ) 0 = id := by
      funext f
      simp [stl_rotate_facet, hzx, hzy, _rot_vec_z]
    rw [e, List.map_id]
  · refine ⟨_, stl_rotate_eq _ _ _ m hm, by simp, ?_⟩
    intro i f hf
    refine ⟨stl_rotate_facet STL_AXIS_Z (0 : ℝ) 1 f, ?_, ?_⟩
    · simp only [h90, Real.cos_pi_div_two, Real.sin_pi_div_two, List.getElem?_map, hf,
        Option.map_some']
    · simp only [stl_rotate_facet, hzx, hzy, if_false, _rot_vec_z]
      refine ⟨?_, ?_, ?_, ?_⟩ <;>
      · intro h
        rw [h]
        simp

theorem stl_rotate_z_zero_and_quarter_witness :
    stl_sized (⟨[], 1, [⟨⟨1, 0, 0⟩, ⟨1, 0, 0⟩, ⟨0, 2, 0⟩, ⟨0, 0, 3⟩, 0⟩]⟩ : stl_t ℝ) ∧
    (stl_rotate ⟨Real.pi, Real.cos, Real.sin⟩ STL_AXIS_Z 0
        (some (⟨[], 1, [⟨⟨1, 0, 0⟩, ⟨1, 0, 0⟩, ⟨0, 2, 0⟩, ⟨0, 0, 3⟩, 0⟩]⟩ : stl_t ℝ)) =
      (STL_SUCCESS, some ⟨[], 1, [⟨⟨1, 0, 0⟩, ⟨1, 0, 0⟩, ⟨0, 2, 0⟩, ⟨0, 0, 3⟩, 0⟩]⟩) ∧
    ∃ m' : stl_t ℝ, stl_rotate ⟨Real.pi, Real.cos, Real.sin⟩ STL_AXIS_Z 90
        (some (⟨[], 1, [⟨⟨1, 0, 0⟩, ⟨1, 0, 0⟩, ⟨0, 2, 0⟩, ⟨0, 0, 3⟩, 0⟩]⟩ : stl_t ℝ)) =
        (STL_SUCCESS, some m') ∧
      m'.facets.length =
        (⟨[], 1, [⟨⟨1, 0, 0⟩, ⟨1, 0, 0⟩, ⟨0, 2, 0⟩, ⟨0, 0, 3⟩, 0⟩]⟩ : stl_t ℝ).facets.length ∧
      ∀ (i : Nat) (f : facet_t ℝ),
        (⟨[], 1, [⟨⟨1, 0, 0⟩, ⟨1, 0, 0⟩, ⟨0, 2, 0⟩, ⟨0, 0, 3⟩, 0⟩]⟩ : stl_t ℝ).facets[i]?
          = some f →
        ∃ f' : facet_t ℝ, m'.facets[i]? = some f' ∧
        (f.normal = ⟨1, 0, 0⟩ → f'.normal = ⟨0, 1, 0⟩) ∧
        (f.vertex1 = ⟨1, 0, 0⟩ → f'.vertex1 = ⟨0, 1, 0⟩) ∧
        (f.vertex2 = ⟨1, 0, 0⟩ → f'.vertex2 = ⟨0, 1, 0⟩) ∧
        (f.vertex3 = ⟨1, 0, 0⟩ → f'.vertex3 = ⟨0, 1, 0⟩)) :=
  ⟨rfl, stl_rotate_z_zero_and_quarter _ rfl⟩

/-- The scaling formulas in exact arithmetic, that is over a field, with the
rounding of the `double` product and of its conversion to `float` left out
(the stored values of the C code are roundings of these).  For every model
and all percentages, `stl_scale` succeeds, multiplies
the X, Y, Z components of the three vertices of every facet by `pct_x/100`,
`pct_y/100`, `pct_z/100` and leaves every normal and attribute as it was; with
percentages 200, 100, 100 every vertex X is doubled and every vertex Y and Z
and every normal is unchanged. -/
theorem stl_scale_formulas {F : Type} [Field F] [CharZero F] (pct_x pct_y pct_z : F)
    (m : stl_t F) (hm : stl_sized m) :
    stl_scale pct_x pct_y pct_z (some m) =
      (STL_SUCCESS,
        some { m with
          facets := m.facets.map fun f =>
            { normal := f.normal
              vertex1 := scaled pct_x pct_y pct_z f.vertex1
              vertex2 := scaled pct_x pct_y pct_z f.vertex2
              vertex3 := scaled pct_x pct_y pct_z f.vertex3
              abc := f.abc } }) ∧
    stl_scale 200 100 100 (some m) =
      (STL_SUCCESS,
        some { m with
          facets := m.facets.map fun f =>
            { normal := f.normal
              vertex1 := ⟨2 * f.vertex1.t1, f.vertex1.t2, f.vertex1.t3⟩
              vertex2 := ⟨2 * f.vertex2.t1, f.vertex2.t2, f.vertex2.t3⟩
              vertex3 := ⟨2 * f.vertex3.t1, f.vertex3.t2, f.vertex3.t3⟩
              abc := f.abc } }) := by
  constructor
  · rw [stl_scale_eq pct_x pct_y pct_z m hm]
    rfl
  · rw [stl_scale_eq 200 100 100 m hm]
    have h1 : (200 : F) / 100 = 2 := by norm_num
    have h2 : (100 : F) / 100 = 1 := by norm_num
    have e : stl_scale_facet ((200 : F) / 100) ((100 : F) / 100) ((100 : F) / 100)
        = fun f =>
          { normal := f.normal
            vertex1 := ⟨2 * f.vertex1.t1, f.vertex1.t2, f.vertex1.t3⟩
            vertex2 := ⟨2 * f.vertex2.t1, f.vertex2.t2, f.vertex2.t3⟩
            vertex3 := ⟨2 * f.vertex3.t1, f.vertex3.t2, f.vertex3.t3⟩
            abc := f.abc } := by
      funext f
      simp only [stl_scale_facet, h1, h2, mul_one, mul_comm _ (2 : F)]
    rw [e]

theorem stl_scale_formulas_witness :
    stl_sized example_solid ∧
    (stl_scale (50 : ℚ) 100 300 (some example_solid) =
      (STL_SUCCESS,
        some { example_solid with
          facets := example_solid.facets.map fun f =>
            { normal := f.normal
              vertex1 := scaled 50 100 300 f.vertex1
              vertex2 := scaled 50 100 300 f.vertex2
              vertex3 := scaled 50 100 300 f.vertex3
              abc := f.abc } }) ∧
    stl_scale (200 : ℚ) 100 100 (some example_solid) =
      (STL_SUCCESS,
        some { example_solid with
          facets := example_solid.facets.map fun f =>
            { normal := f.normal
              vertex1 := ⟨2 * f.vertex1.t1, f.vertex1.t2, f.vertex1.t3⟩
              vertex2 := ⟨2 * f.vertex2.t1, f.vertex2.t2, f.vertex2.t3⟩
              vertex3 := ⟨2 * f.vertex3.t1, f.vertex3.t2, f.vertex3.t3⟩
              abc := f.abc } })) :=
  ⟨by decide, stl_scale_formulas 50 100 300 example_solid (by decide)⟩

/-- Both transforms succeed on every present model, whatever the axis, angle
and percentages; without a model `stl_scale` returns
`STL_ERROR_INVALID_ARG`. -/
theorem transforms_status {F : Type} [Field F] (lm : libm_t F) (axis : stl_axis_t)
    (degrees pct_x pct_y pct_z : F) (m : stl_t F) :
    (stl_rotate lm axis degrees (some m)).1 = STL_SUCCESS ∧
    (stl_scale pct_x pct_y pct_z (some m)).1 = STL_SUCCESS ∧
    stl_scale pct_x pct_y pct_z (none : Option (stl_t F)) = (STL_ERROR_INVALID_ARG, none) := by
  have hne : ¬ (STL_SUCCESS = STL_ERROR_INVALID_ARG) := by decide
  refine ⟨rfl, ?_, ?_⟩
  · simp [stl_scale, STL_LOG_ERR]
  · simp [stl_scale, STL_LOG_ERR, hne]

/-- C19, the code at the failing input.  Without a model `stl_rotate` returns
`STL_ERROR`, which is not `STL_ERROR_INVALID_ARG`, the code that `stl_scale`
returns in the same situation. -/
theorem stl_rotate_null_is_generic_error :
    stl_rotate quarter_turns STL_AXIS_Z 0 none = (STL_ERROR, none) ∧
    STL_ERROR ≠ STL_ERROR_INVALID_ARG ∧
    stl_scale (100 : ℚ) 100 100 none = (STL_ERROR_INVALID_ARG, none) := by
  refine ⟨rfl, by decide, ?_⟩
  exact (transforms_status quarter_turns STL_AXIS_Z 0 100 100 100 example_solid).2.2

/-- C20.  Whenever a file exists at the path, `stl_write_file` fails with
`STL_ERROR` and leaves the file system, and so the contents of that file,
unchanged; and of two consecutive saves to one path the second fails with
`STL_ERROR` and changes nothing, whatever the first one did. -/
theorem stl_write_file_conflict (fs : filesystem) (path : String) (m m2 : stl_t float_t) :
    (∀ c, fs path = some c →
      stl_write_file fs (some path) (some m) = (STL_ERROR, fs)) ∧
    stl_write_file (stl_write_file fs (some path) (some m)).2 (some path) (some m2) =
      (STL_ERROR, (stl_write_file fs (some path) (some m)).2) ∧
    STL_ERROR ≠ STL_SUCCESS := by
  have hex : ∀ (fs' : filesystem) (m' : stl_t float_t) (c : List byte), fs' path = some c →
      stl_write_file fs' (some path) (some m') = (STL_ERROR, fs') := by
    intro fs' m' c h
    simp only [stl_write_file, h, STL_LOG_ERR]
  refine ⟨fun c h => hex fs m c h, ?_, by decide⟩
  cases h : fs path with
  | some c =>
    rw [hex fs m c h]
    exact hex fs m2 c h
  | none =>
    have : ∃ c, (stl_write_file fs (some path) (some m)).2 path = some c := by
      simp only [stl_write_file, h, if_true]
      exact ⟨_, rfl⟩
    obtain ⟨c, hc⟩ := this
    exact hex _ m2 c hc

theorem stl_write_file_conflict_witness :
    solid_only_fs example_path = some solid ∧
    stl_write_file solid_only_fs (some example_path) (some example_model) =
      (STL_ERROR, solid_only_fs) :=
  ⟨rfl,
    (stl_write_file_conflict solid_only_fs example_path example_model example_model).1
      solid rfl⟩

/-! ## The triangles of the loops in terms of the corner points -/

theorem top_mesh_1_eq (L : locals_t) (r c : Nat) :
    top_mesh_1 L r c = (L.top r c, L.top r (c + 1), L.top (r + 1) c) := rfl

theorem top_mesh_2_eq (L : locals_t) (r c : Nat) :
    top_mesh_2 L r c = (L.top r (c + 1), L.top (r + 1) (c + 1), L.top (r + 1) c) := rfl

theorem bottom_left_eq (L : locals_t) (r : Nat) :
    bottom_left L r = (L.floor r 0, L.floor (r + 1) 0, L.center) := by
  simp [bottom_left, locals_t.floor, locals_t.center]

theorem bottom_right_eq (L : locals_t) (r : Nat) :
    bottom_right L r = (L.floor (r + 1) (L.cols - 1), L.floor r (L.cols - 1), L.center) := rfl

theorem bottom_top_eq (L : locals_t) (c : Nat) :
    bottom_top L c = (L.floor 0 (c + 1), L.floor 0 c, L.center) := by
  simp [bottom_top, locals_t.floor, locals_t.center]

theorem bottom_bottom_eq (L : locals_t) (c : Nat) :
    bottom_bottom L c = (L.floor (L.rows - 1) c, L.floor (L.rows - 1) (c + 1), L.center) := rfl

theorem side_top_1_eq (L : locals_t) (c : Nat) :
    side_top_1 L c = (L.top 0 c, L.floor 0 c, L.top 0 (c + 1)) := by
  simp [side_top_1, locals_t.floor, locals_t.top]

theorem side_top_2_eq (L : locals_t) (c : Nat) :
    side_top_2 L c = (L.top 0 (c + 1), L.floor 0 c, L.floor 0 (c + 1)) := by
  simp [side_top_2, locals_t.floor, locals_t.top]

theorem side_bottom_1_eq (L : locals_t) (c : Nat) :
    side_bottom_1 L c =
      (L.top (L.rows - 1) c, L.top (L.rows - 1) (c + 1), L.floor (L.rows - 1) c) := rfl

theorem side_bottom_2_eq (L : locals_t) (c : Nat) :
    side_bottom_2 L c =
      (L.top (L.rows - 1) (c + 1), L.floor (L.rows - 1) (c + 1), L.floor (L.rows - 1) c) := rfl

theorem side_left_1_eq (L : locals_t) (r : Nat) :
    side_left_1 L r = (L.top r 0, L.top (r + 1) 0, L.floor r 0) := by
  simp [side_left_1, locals_t.floor, locals_t.top]

theorem side_left_2_eq (L : locals_t) (r : Nat) :
    side_left_2 L r = (L.top (r + 1) 0, L.floor (r + 1) 0, L.floor r 0) := by
  simp [side_left_2, locals_t.floor, locals_t.top]

theorem side_right_1_eq (L : locals_t) (r : Nat) :
    side_right_1 L r =
      (L.top r (L.cols - 1), L.floor r (L.cols - 1), L.top (r + 1) (L.cols - 1)) := rfl

theorem side_right_2_eq (L : locals_t) (r : Nat) :
    side_right_2 L r =
      (L.top (r + 1) (L.cols - 1), L.floor r (L.cols - 1), L.floor (r + 1) (L.cols - 1)) := rfl

/-! ## Every directed edge of the shell has its reverse -/

theorem shell_closed (T B : Nat → Nat → triplet_t ℚ) (Ctr : triplet_t ℚ) (R C : Nat)
    (v : verticies_t) (hv : in_shell T B Ctr (R + 1) (C + 1) v) :
    ∀ e ∈ vedges v, ∃ w, in_shell T B Ctr (R + 1) (C + 1) w ∧ (e.2, e.1) ∈ vedges w := by
  intro e he
  cases hv with
  | top1 r c hr hc =>
    simp only [vedges, List.mem_cons, List.mem_singleton, List.not_mem_nil, or_false] at he
    rcases he with rfl | rfl | rfl
    · cases r with
      | zero => exact ⟨_, in_shell.wall_top1 c hc, by simp [vedges]⟩
      | succ r => exact ⟨_, in_shell.top2 r c (by omega) hc, by simp [vedges]⟩
    · exact ⟨_, in_shell.top2 r c hr hc, by simp [vedges]⟩
    · cases c with
      | zero => exact ⟨_, in_shell.wall_left1 r hr, by simp [vedges]⟩
      | succ c => exact ⟨_, in_shell.top2 r c hr (by omega), by simp [vedges]⟩
  | top2 r c hr hc =>
    simp only [vedges, List.mem_cons, List.mem_singleton, List.not_mem_nil, or_false] at he
    rcases he with rfl | rfl | rfl
    · rcases Nat.lt_or_ge (c + 1) (C + 1) with h | h
      · exact ⟨_, in_shell.top1 r (c + 1) hr h, by simp [vedges]⟩
      · obtain rfl : c = C := by omega
        exact ⟨_, in_shell.wall_right1 r hr, by simp [vedges]⟩
    · rcases Nat.lt_or_ge (r + 1) (R + 1) with h | h
      · exact ⟨_, in_shell.top1 (r + 1) c h hc, by simp [vedges]⟩
      · obtain rfl : r = R := by omega
        exact ⟨_, in_shell.wall_bottom1 c hc, by simp [vedges]⟩
    · exact ⟨_, in_shell.top1 r c hr hc, by simp [vedges]⟩
  | cap_left r hr =>
    simp only [vedges, List.mem_cons, List.mem_singleton, List.not_mem_nil, or_false] at he
    rcases he with rfl | rfl | rfl
    · exact ⟨_, in_shell.wall_left2 r hr, by simp [vedges]⟩
    · rcases Nat.lt_or_ge (r + 1) (R + 1) with h | h
      · exact ⟨_, in_shell.cap_left (r + 1) h, by simp [vedges]⟩
      · obtain rfl : r = R := by omega
        exact ⟨_, in_shell.cap_bottom 0 (by omega), by simp [vedges]⟩
    · cases r with
      | zero => exact ⟨_, in_shell.cap_top 0 (by omega), by simp [vedges]⟩
      | succ r => exact ⟨_, in_shell.cap_left r (by omega), by simp [vedges]⟩
  | cap_right r hr =>
    simp only [vedges, List.mem_cons, List.mem_singleton, List.not_mem_nil, or_false] at he
    rcases he with rfl | rfl | rfl
    · exact ⟨_, in_shell.wall_right2 r hr, by simp [vedges]⟩
    · cases r with
      | zero => exact ⟨_, in_shell.cap_top C (by omega), by simp [vedges]⟩
      | succ r => exact ⟨_, in_shell.cap_right r (by omega), by simp [vedges]⟩
    · rcases Nat.lt_or_ge (r + 1) (R + 1) with h | h
      · exact ⟨_, in_shell.cap_right (r + 1) h, by simp [vedges]⟩
      · obtain rfl : r = R := by omega
        exact ⟨_, in_shell.cap_bottom C (by omega), by simp [vedges]⟩
  | cap_top c hc =>
    simp only [vedges, List.mem_cons, List.mem_singleton, List.not_mem_nil, or_false] at he
    rcases he with rfl | rfl | rfl
    · exact ⟨_, in_shell.wall_top2 c hc, by simp [vedges]⟩
    · cases c with
      | zero => exact ⟨_, in_shell.cap_left 0 (by omega), by simp [vedges]⟩
      | succ c => exact ⟨_, in_shell.cap_top c (by omega), by simp [vedges]⟩
    · rcases Nat.lt_or_ge (c + 1) (C + 1) with h | h
      · exact ⟨_, in_shell.cap_top (c + 1) h, by simp [vedges]⟩
      · obtain rfl : c = C := by omega
        exact ⟨_, in_shell.cap_right 0 (by omega), by simp [vedges]⟩
  | cap_bottom c hc =>
    simp only [vedges, List.mem_cons, List.mem_singleton, List.not_mem_nil, or_false] at he
    rcases he with rfl | rfl | rfl
    · exact ⟨_, in_shell.wall_bottom2 c hc, by simp [vedges]⟩
    · rcases Nat.lt_or_ge (c + 1) (C + 1) with h | h
      · exact ⟨_, in_shell.cap_bottom (c + 1) h, by simp [vedges]⟩
      · obtain rfl : c = C := by omega
        exact ⟨_, in_shell.cap_right R (by omega), by simp [vedges]⟩
    · cases c with
      | zero => exact ⟨_, in_shell.cap_left R (by omega), by simp [vedges]⟩
      | succ c => exact ⟨_, in_shell.cap_bottom c (by omega), by simp [vedges]⟩
  | wall_top1 c hc =>
    simp only [vedges, List.mem_cons, List.mem_singleton, List.not_mem_nil, or_false] at he
    rcases he with rfl | rfl | rfl
    · cases c with
      | zero => exact ⟨_, in_shell.wall_left1 0 (by omega), by simp [vedges]⟩
      | succ c => exact ⟨_, in_shell.wall_top2 c (by omega), by simp [vedges]⟩
    · exact ⟨_, in_shell.wall_top2 c hc, by simp [vedges]⟩
    · exact ⟨_, in_shell.top1 0 c (by omega) hc, by simp [vedges]⟩
  | wall_top2 c hc =>
    simp only [vedges, List.mem_cons, List.mem_singleton, List.not_mem_nil, or_false] at he
    rcases he with rfl | rfl | rfl
    · exact ⟨_, in_shell.wall_top1 c hc, by simp [vedges]⟩
    · exact ⟨_, in_shell.cap_top c hc, by simp [vedges]⟩
    · rcases Nat.lt_or_ge (c + 1) (C + 1) with h | h
      · exact ⟨_, in_shell.wall_top1 (c + 1) h, by simp [vedges]⟩
      · obtain rfl : c = C := by omega
        exact ⟨_, in_shell.wall_right1 0 (by omega), by simp [vedges]⟩
  | wall_bottom1 c hc =>
    simp only [vedges, List.mem_cons, List.mem_singleton, List.not_mem_nil, or_false] at he
    rcases he with rfl | rfl | rfl
    · exact ⟨_, in_shell.top2 R c (by omega) hc, by simp [vedges]⟩
    · exact ⟨_, in_shell.wall_bottom2 c hc, by simp [vedges]⟩
    · cases c with
      | zero => exact ⟨_, in_shell.wall_left2 R (by omega), by simp [vedges]⟩
      | succ c => exact ⟨_, in_shell.wall_bottom2 c (by omega), by simp [vedges]⟩
  | wall_bottom2 c hc =>
    simp only [vedges, List.mem_cons, List.mem_singleton, List.not_mem_nil, or_false] at he
    rcases he with rfl | rfl | rfl
    · rcases Nat.lt_or_ge (c + 1) (C + 1) with h | h
      · exact ⟨_, in_shell.wall_bottom1 (c + 1) h, by simp [vedges]⟩
      · obtain rfl : c = C := by omega
        exact ⟨_, in_shell.wall_right2 R (by omega), by simp [vedges]⟩
    · exact ⟨_, in_shell.cap_bottom c hc, by simp [vedges]⟩
    · exact ⟨_, in_shell.wall_bottom1 c hc, by simp [vedges]⟩
  | wall_left1 r hr =>
    simp only [vedges, List.mem_cons, List.mem_singleton, List.not_mem_nil, or_false] at he
    rcases he with rfl | rfl | rfl
    · exact ⟨_, in_shell.top1 r 0 hr (by omega), by simp [vedges]⟩
    · exact ⟨_, in_shell.wall_left2 r hr, by simp [vedges]⟩
    · cases r with
      | zero => exact ⟨_, in_shell.wall_top1 0 (by omega), by simp [vedges]⟩
      | succ r => exact ⟨_, in_shell.wall_left2 r (by omega), by simp [vedges]⟩
  | wall_left2 r hr =>
    simp only [vedges, List.mem_cons, List.mem_singleton, List.not_mem_nil, or_false] at he
    rcases he with rfl | rfl | rfl
    · rcases Nat.lt_or_ge (r + 1) (R + 1) with h | h
      · exact ⟨_, in_shell.wall_left1 (r + 1) h, by simp [vedges]⟩
      · obtain rfl : r = R := by omega
        exact ⟨_, in_shell.wall_bottom1 0 (by omega), by simp [vedges]⟩
    · exact ⟨_, in_shell.cap_left r hr, by simp [vedges]⟩
    · exact ⟨_, in_shell.wall_left1 r hr, by simp [vedges]⟩
  | wall_right1 r hr =>
    simp only [vedges, List.mem_cons, List.mem_singleton, List.not_mem_nil, or_false] at he
    rcases he with rfl | rfl | rfl
    · cases r with
      | zero => exact ⟨_, in_shell.wall_top2 C (by omega), by simp [vedges]⟩
      | succ r => exact ⟨_, in_shell.wall_right2 r (by omega), by simp [vedges]⟩
    · exact ⟨_, in_shell.wall_right2 r hr, by simp [vedges]⟩
    · exact ⟨_, in_shell.top2 r C hr (by omega), by simp [vedges]⟩
  | wall_right2 r hr =>
    simp only [vedges, List.mem_cons, List.mem_singleton, List.not_mem_nil, or_false] at he
    rcases he with rfl | rfl | rfl
    · exact ⟨_, in_shell.wall_right1 r hr, by simp [vedges]⟩
    · exact ⟨_, in_shell.cap_right r hr, by simp [vedges]⟩
    · rcases Nat.lt_or_ge (r + 1) (R + 1) with h | h
      · exact ⟨_, in_shell.wall_right1 (r + 1) h, by simp [vedges]⟩
      · obtain rfl : r = R := by omega
        exact ⟨_, in_shell.wall_bottom2 C (by omega), by simp [vedges]⟩

/-! ## The facets of the mesh are the triangles of the shell -/

theorem mem_pairs {α : Type} (A B : Nat → α) (n : Nat) (x : α) :
    x ∈ ((List.range n).flatMap fun i => [A i, B i]) ↔ ∃ i, i < n ∧ (x = A i ∨ x = B i) := by
  simp only [List.mem_flatMap, List.mem_range, List.mem_cons, List.mem_singleton,
    List.not_mem_nil, or_false]

theorem mem_top_facets (env : helpers_t) (L : locals_t) (fa : facet_t ℚ) :
    fa ∈ top_facets env L ↔
      ∃ r, r < L.rows - 1 ∧ ∃ c, c < L.cols - 1 ∧
        (fa = mk_facet env (top_mesh_1 L r c) ∨ fa = mk_facet env (top_mesh_2 L r c)) := by
  simp only [top_facets, List.mem_flatMap, List.mem_range, List.mem_cons, List.mem_singleton,
    List.not_mem_nil, or_false]

theorem shell_of_mem_mesh (env : helpers_t) (L : locals_t) (fa : facet_t ℚ)
    (h : fa ∈ mesh_facets env L) :
    ∃ v, in_shell L.top L.floor L.center (L.rows - 1) (L.cols - 1) v ∧ fa = mk_facet env v := by
  unfold mesh_facets at h
  rcases List.mem_append.mp h with h | h
  · rcases List.mem_append.mp h with h | h
    · obtain ⟨r, hr, c, hc, h | h⟩ := (mem_top_facets env L fa).mp h
      · exact ⟨_, top_mesh_1_eq L r c ▸ in_shell.top1 r c hr hc, h⟩
      · exact ⟨_, top_mesh_2_eq L r c ▸ in_shell.top2 r c hr hc, h⟩
    · unfold cap_facets at h
      rcases List.mem_append.mp h with h | h
      · obtain ⟨r, hr, h | h⟩ := (mem_pairs _ _ _ fa).mp h
        · exact ⟨_, bottom_left_eq L r ▸ in_shell.cap_left r hr, h⟩
        · exact ⟨_, bottom_right_eq L r ▸ in_shell.cap_right r hr, h⟩
      · obtain ⟨c, hc, h | h⟩ := (mem_pairs _ _ _ fa).mp h
        · exact ⟨_, bottom_top_eq L c ▸ in_shell.cap_top c hc, h⟩
        · exact ⟨_, bottom_bottom_eq L c ▸ in_shell.cap_bottom c hc, h⟩
  · unfold wall_facets at h
    rcases List.mem_append.mp h with h | h
    · rcases List.mem_append.mp h with h | h
      · rcases List.mem_append.mp h with h | h
        · obtain ⟨c, hc, h | h⟩ := (mem_pairs _ _ _ fa).mp h
          · exact ⟨_, side_top_1_eq L c ▸ in_shell.wall_top1 c hc, h⟩
          · exact ⟨_, side_top_2_eq L c ▸ in_shell.wall_top2 c hc, h⟩
        · obtain ⟨c, hc, h | h⟩ := (mem_pairs _ _ _ fa).mp h
          · exact ⟨_, side_bottom_1_eq L c ▸ in_shell.wall_bottom1 c hc, h⟩
          · exact ⟨_, side_bottom_2_eq L c ▸ in_shell.wall_bottom2 c hc, h⟩
      · obtain ⟨r, hr, h | h⟩ := (mem_pairs _ _ _ fa).mp h
        · exact ⟨_, side_left_1_eq L r ▸ in_shell.wall_left1 r hr, h⟩
        · exact ⟨_, side_left_2_eq L r ▸ in_shell.wall_left2 r hr, h⟩
    · obtain ⟨r, hr, h | h⟩ := (mem_pairs _ _ _ fa).mp h
      · exact ⟨_, side_right_1_eq L r ▸ in_shell.wall_right1 r hr, h⟩
      · exact ⟨_, side_right_2_eq L r ▸ in_shell.wall_right2 r hr, h⟩

theorem mem_mesh_of_shell (env : helpers_t) (L : locals_t) (v : verticies_t)
    (h : in_shell L.top L.floor L.center (L.rows - 1) (L.cols - 1) v) :
    mk_facet env v ∈ mesh_facets env L := by
  unfold mesh_facets
  cases h with
  | top1 r c hr hc =>
    exact List.mem_append_left _ (List.mem_append_left _
      ((mem_top_facets env L _).mpr ⟨r, hr, c, hc, Or.inl (by rw [top_mesh_1_eq])⟩))
  | top2 r c hr hc =>
    exact List.mem_append_left _ (List.mem_append_left _
      ((mem_top_facets env L _).mpr ⟨r, hr, c, hc, Or.inr (by rw [top_mesh_2_eq])⟩))
  | cap_left r hr =>
    exact List.mem_append_left _ (List.mem_append_right _ (List.mem_append_left _
      ((mem_pairs _ _ _ _).mpr ⟨r, hr, Or.inl (by rw [bottom_left_eq])⟩)))
  | cap_right r hr =>
    exact List.mem_append_left _ (List.mem_append_right _ (List.mem_append_left _
      ((mem_pairs _ _ _ _).mpr ⟨r, hr, Or.inr (by rw [bottom_right_eq])⟩)))
  | cap_top c hc =>
    exact List.mem_append_left _ (List.mem_append_right _ (List.mem_append_right _
      ((mem_pairs _ _ _ _).mpr ⟨c, hc, Or.inl (by rw [bottom_top_eq])⟩)))
  | cap_bottom c hc =>
    exact List.mem_append_left _ (List.mem_append_right _ (List.mem_append_right _
      ((mem_pairs _ _ _ _).mpr ⟨c, hc, Or.inr (by rw [bottom_bottom_eq])⟩)))
  | wall_top1 c hc =>
    exact List.mem_append_right _ (List.mem_append_left _ (List.mem_append_left _
      (List.mem_append_left _
        ((mem_pairs _ _ _ _).mpr ⟨c, hc, Or.inl (by rw [side_top_1_eq])⟩))))
  | wall_top2 c hc =>
    exact List.mem_append_right _ (List.mem_append_left _ (List.mem_append_left _
      (List.mem_append_left _
        ((mem_pairs _ _ _ _).mpr ⟨c, hc, Or.inr (by rw [side_top_2_eq])⟩))))
  | wall_bottom1 c hc =>
    exact List.mem_append_right _ (List.mem_append_left _ (List.mem_append_left _
      (List.mem_append_right _
        ((mem_pairs _ _ _ _).mpr ⟨c, hc, Or.inl (by rw [side_bottom_1_eq])⟩))))
  | wall_bottom2 c hc =>
    exact List.mem_append_right _ (List.mem_append_left _ (List.mem_append_left _
      (List.mem_append_right _
        ((mem_pairs _ _ _ _).mpr ⟨c, hc, Or.inr (by rw [side_bottom_2_eq])⟩))))
  | wall_left1 r hr =>
    exact List.mem_append_right _ (List.mem_append_left _ (List.mem_append_right _
      ((mem_pairs _ _ _ _).mpr ⟨r, hr, Or.inl (by rw [side_left_1_eq])⟩)))
  | wall_left2 r hr =>
    exact List.mem_append_right _ (List.mem_append_left _ (List.mem_append_right _
      ((mem_pairs _ _ _ _).mpr ⟨r, hr, Or.inr (by rw [side_left_2_eq])⟩)))
  | wall_right1 r hr =>
    exact List.mem_append_right _ (List.mem_append_right _
      ((mem_pairs _ _ _ _).mpr ⟨r, hr, Or.inl (by rw [side_right_1_eq])⟩))
  | wall_right2 r hr =>
    exact List.mem_append_right _ (List.mem_append_right _
      ((mem_pairs _ _ _ _).mpr ⟨r, hr, Or.inr (by rw [side_right_2_eq])⟩))

theorem edges_mk_facet (env : helpers_t) (v : verticies_t) :
    edges (mk_facet env v) = vedges v := rfl

theorem mesh_facets_closed (env : helpers_t) (L : locals_t)
    (hr : 2 ≤ L.rows) (hc : 2 ≤ L.cols) :
    ∀ fa ∈ mesh_facets env L, ∀ e ∈ edges fa,
      ∃ fb ∈ mesh_facets env L, (e.2, e.1) ∈ edges fb := by
  intro fa hfa e he
  obtain ⟨v, hv, rfl⟩ := shell_of_mem_mesh env L fa hfa
  obtain ⟨R, hR⟩ : ∃ R, L.rows - 1 = R + 1 := ⟨L.rows - 2, by omega⟩
  obtain ⟨C, hC⟩ : ∃ C, L.cols - 1 = C + 1 := ⟨L.cols - 2, by omega⟩
  rw [hR, hC] at hv
  rw [edges_mk_facet] at he
  obtain ⟨w, hw, hew⟩ := shell_closed L.top L.floor L.center R C v hv e he
  rw [← hR, ← hC] at hw
  exact ⟨mk_facet env w, mem_mesh_of_shell env L w hw, by rw [edges_mk_facet]; exact hew⟩

/-! ## The corner points in the words of the spec -/

theorem oriented_at (vals : Nat → ℚ) (origin : stl_origin_t) (cols rows : Nat) (s b u : ℚ)
    (hv : valid_input cols rows s u) (r c : Nat) (hr : r < rows) (hc : c < cols) :
    (locals_of vals origin cols rows s b u).at r c =
      sample (oriented vals origin cols rows) cols r c := by
  cases origin with
  | STL_ORIGIN_BOTTOM_LEFT =>
    rw [at_bottom_left vals cols rows s b u hv r c hr]
    simp [oriented, sample]
  | STL_ORIGIN_TOP_LEFT =>
    rw [at_top_left vals cols rows s b u hv r c hr]
    simp only [oriented, sample, if_true, flip_rows_at vals cols rows r c hc]

theorem top_eq_position (vals : Nat → ℚ) (origin : stl_origin_t) (cols rows : Nat)
    (s b u : ℚ) (hv : valid_input cols rows s u) (r c : Nat) (hr : r < rows) (hc : c < cols) :
    (locals_of vals origin cols rows s b u).top r c =
      position (oriented vals origin cols rows) cols s b u r c := by
  simp only [locals_t.top, position, oriented_at vals origin cols rows s b u hv r c hr hc,
    mul_div_assoc]
  rfl

theorem floor_eq_lower (vals : Nat → ℚ) (origin : stl_origin_t) (cols rows : Nat)
    (s b u : ℚ) (hv : valid_input cols rows s u) (minZ : ℚ)
    (hmin : is_minimum vals cols rows minZ) (r c : Nat) :
    (locals_of vals origin cols rows s b u).floor r c = lower_pt u (floor_z minZ s b) r c := by
  simp only [locals_t.floor, lower_pt, floor_z,
    locals_min vals origin cols rows s b u hv minZ hmin, mul_div_assoc]
  rfl

theorem center_eq (vals : Nat → ℚ) (origin : stl_origin_t) (cols rows : Nat)
    (s b u : ℚ) (hv : valid_input cols rows s u) (minZ : ℚ)
    (hmin : is_minimum vals cols rows minZ) :
    (locals_of vals origin cols rows s b u).center =
      center_pt cols rows u (floor_z minZ s b) := by
  simp only [locals_t.center, center_pt, floor_z,
    locals_min vals origin cols rows s b u hv minZ hmin, mul_div_assoc]
  rfl

theorem lower_pt_inj (u fz : ℚ) (hu : 0 < u) (r c r' c' : Nat)
    (h : lower_pt u fz r c = lower_pt u fz r' c') : r = r' ∧ c = c' := by
  simp only [lower_pt, triplet_t.mk.injEq, and_true] at h
  have hu' : u ≠ 0 := ne_of_gt hu
  exact ⟨Nat.cast_injective (mul_right_cancel₀ hu' h.2),
    Nat.cast_injective (mul_right_cancel₀ hu' h.1)⟩

/-! ## The bottom cap and the boundary segments -/

theorem cap_verticies_ends (L : locals_t) (j : Nat) :
    cap_verticies L j =
      (L.floor (cap_ends L.cols L.rows j).1.1 (cap_ends L.cols L.rows j).1.2,
        L.floor (cap_ends L.cols L.rows j).2.1 (cap_ends L.cols L.rows j).2.2, L.center) := by
  unfold cap_verticies cap_ends
  split_ifs <;>
    simp only [bottom_left_eq, bottom_right_eq, bottom_top_eq, bottom_bottom_eq]

theorem cap_ends_on_boundary (cols rows j : Nat)
    (hj : j < 2 * (cols - 1) + 2 * (rows - 1)) :
    cap_ends cols rows j ∈ boundary_segments cols rows ∨
      ((cap_ends cols rows j).2, (cap_ends cols rows j).1) ∈ boundary_segments cols rows := by
  unfold cap_ends boundary_segments
  simp only [List.mem_append, List.mem_map, List.mem_range]
  split_ifs with h1 h2 h2
  · exact Or.inl (Or.inl (Or.inl (Or.inl ⟨j / 2, by omega, rfl⟩)))
  · exact Or.inr (Or.inl (Or.inl (Or.inr ⟨j / 2, by omega, rfl⟩)))
  · exact Or.inr (Or.inl (Or.inr ⟨(j - 2 * (rows - 1)) / 2, by omega, rfl⟩))
  · exact Or.inl (Or.inr ⟨(j - 2 * (rows - 1)) / 2, by omega, rfl⟩)

theorem cap_ends_unique (cols rows : Nat) (hc : 2 ≤ cols) (hr : 2 ≤ rows) (sg : segment)
    (hsg : sg ∈ boundary_segments cols rows) :
    ∃ j, j < 2 * (cols - 1) + 2 * (rows - 1) ∧
      (cap_ends cols rows j = sg ∨ cap_ends cols rows j = (sg.2, sg.1)) ∧
      ∀ j', j' < 2 * (cols - 1) + 2 * (rows - 1) →
        (cap_ends cols rows j' = sg ∨ cap_ends cols rows j' = (sg.2, sg.1)) → j' = j := by
  unfold boundary_segments at hsg
  simp only [List.mem_append, List.mem_map, List.mem_range] at hsg
  rcases hsg with ((⟨k, hk, rfl⟩ | ⟨k, hk, rfl⟩) | ⟨k, hk, rfl⟩) | ⟨k, hk, rfl⟩
  · refine ⟨2 * k, by omega, Or.inl ?_, ?_⟩
    · simp only [cap_ends]
      rw [if_pos (by omega), if_pos (by omega)]
      simp only [Prod.mk.injEq, and_true, true_and]
      omega
    · intro j' hj' h
      simp only [cap_ends] at h
      split_ifs at h <;> simp only [Prod.mk.injEq] at h <;> omega
  · refine ⟨2 * k + 1, by omega, Or.inr ?_, ?_⟩
    · simp only [cap_ends]
      rw [if_pos (by omega), if_neg (by omega)]
      simp only [Prod.mk.injEq, and_true, true_and]
      omega
    · intro j' hj' h
      simp only [cap_ends] at h
      split_ifs at h <;> simp only [Prod.mk.injEq] at h <;> omega
  · refine ⟨2 * (rows - 1) + 2 * k, by omega, Or.inr ?_, ?_⟩
    · simp only [cap_ends]
      rw [if_neg (by omega), if_pos (by omega)]
      simp only [Prod.mk.injEq, and_true, true_and]
      omega
    · intro j' hj' h
      simp only [cap_ends] at h
      split_ifs at h <;> simp only [Prod.mk.injEq] at h <;> omega
  · refine ⟨2 * (rows - 1) + 2 * k + 1, by omega, Or.inl ?_, ?_⟩
    · simp only [cap_ends]
      rw [if_neg (by omega), if_neg (by omega)]
      simp only [Prod.mk.injEq, and_true, true_and]
      omega
    · intro j' hj' h
      simp only [cap_ends] at h
      split_ifs at h <;> simp only [Prod.mk.injEq] at h <;> omega

/-! ## Where the cap and the walls sit in the built array -/

theorem cap_facet_at (env : helpers_t) (vals : Nat → ℚ) (origin : stl_origin_t)
    (cols rows : Nat) (s b u : ℚ) (j : Nat) (hj : j < 2 * (cols - 1) + 2 * (rows - 1)) :
    (mesh_facets env (locals_of vals origin cols rows s b u))[2 * (cols - 1) * (rows - 1) + j]? =
      some (mk_facet env (cap_verticies (locals_of vals origin cols rows s b u) j)) := by
  have htop := top_facets_length env (locals_of vals origin cols rows s b u)
  have hcap := cap_facets_length env (locals_of vals origin cols rows s b u)
  rw [locals_of_cols, locals_of_rows] at htop hcap
  rw [← htop, getElem?_mesh_cap _ _ _ (by rw [hcap]; exact hj)]
  exact getElem?_cap_facets env _ j hj

theorem wall_facet_at (env : helpers_t) (vals : Nat → ℚ) (origin : stl_origin_t)
    (cols rows : Nat) (s b u : ℚ) (j : Nat) (hj : j < 4 * (cols - 1) + 4 * (rows - 1)) :
    (mesh_facets env (locals_of vals origin cols rows s b u))[2 * (cols - 1) * (rows - 1) +
        (2 * (cols - 1) + 2 * (rows - 1)) + j]? =
      some (mk_facet env (wall_verticies (locals_of vals origin cols rows s b u) j)) := by
  have htop := top_facets_length env (locals_of vals origin cols rows s b u)
  have hcap := cap_facets_length env (locals_of vals origin cols rows s b u)
  rw [locals_of_cols, locals_of_rows] at htop hcap
  rw [← htop, ← hcap, getElem?_mesh_wall]
  exact getElem?_wall_facets env _ j hj

/-! ## The floor is not above the top surface when the base height is not negative -/

theorem wall_segment_in_grid (cols rows k : Nat) (hc : 2 ≤ cols) (hr : 2 ≤ rows)
    (hk : k < 2 * (cols - 1) + 2 * (rows - 1)) :
    (wall_segment cols rows k).1.1 < rows ∧ (wall_segment cols rows k).1.2 < cols ∧
      (wall_segment cols rows k).2.1 < rows ∧ (wall_segment cols rows k).2.2 < cols := by
  unfold wall_segment
  split_ifs <;> simp only <;> omega

theorem wall_segment_on_boundary (cols rows k : Nat)
    (hk : k < 2 * (cols - 1) + 2 * (rows - 1)) :
    wall_segment cols rows k ∈ boundary_segments cols rows := by
  unfold wall_segment boundary_segments
  simp only [List.mem_append, List.mem_map, List.mem_range]
  split_ifs with h1 h2 h3
  · exact Or.inl (Or.inr ⟨k, h1, rfl⟩)
  · exact Or.inr ⟨k - (cols - 1), by omega, rfl⟩
  · exact Or.inl (Or.inl (Or.inl ⟨k - 2 * (cols - 1), by omega, rfl⟩))
  · exact Or.inl (Or.inl (Or.inr ⟨k - (2 * (cols - 1) + (rows - 1)), by omega, rfl⟩))

theorem wall_pair (L : locals_t) (k : Nat) :
    (wall_verticies L (2 * k) =
        (L.top (wall_segment L.cols L.rows k).1.1 (wall_segment L.cols L.rows k).1.2,
          L.floor (wall_segment L.cols L.rows k).1.1 (wall_segment L.cols L.rows k).1.2,
          L.top (wall_segment L.cols L.rows k).2.1 (wall_segment L.cols L.rows k).2.2) ∧
      wall_verticies L (2 * k + 1) =
        (L.top (wall_segment L.cols L.rows k).2.1 (wall_segment L.cols L.rows k).2.2,
          L.floor (wall_segment L.cols L.rows k).1.1 (wall_segment L.cols L.rows k).1.2,
          L.floor (wall_segment L.cols L.rows k).2.1 (wall_segment L.cols L.rows k).2.2)) ∨
    (wall_verticies L (2 * k) =
        (L.top (wall_segment L.cols L.rows k).1.1 (wall_segment L.cols L.rows k).1.2,
          L.top (wall_segment L.cols L.rows k).2.1 (wall_segment L.cols L.rows k).2.2,
          L.floor (wall_segment L.cols L.rows k).1.1 (wall_segment L.cols L.rows k).1.2) ∧
      wall_verticies L (2 * k + 1) =
        (L.top (wall_segment L.cols L.rows k).2.1 (wall_segment L.cols L.rows k).2.2,
          L.floor (wall_segment L.cols L.rows k).2.1 (wall_segment L.cols L.rows k).2.2,
          L.floor (wall_segment L.cols L.rows k).1.1 (wall_segment L.cols L.rows k).1.2)) := by
  have p0 : (2 * k) % 2 = 0 := by omega
  have p1 : ¬ (2 * k + 1) % 2 = 0 := by omega
  by_cases h1 : k < L.cols - 1
  · left
    have a0 : 2 * k < 2 * (L.cols - 1) := by omega
    have a1 : 2 * k + 1 < 2 * (L.cols - 1) := by omega
    have e0 : 2 * k / 2 = k := by omega
    have e1 : (2 * k + 1) / 2 = k := by omega
    simp only [wall_verticies, wall_segment, if_pos h1, if_pos a0, if_pos a1, if_pos p0,
      if_neg p1, e0, e1, side_top_1_eq, side_top_2_eq, and_self]
  by_cases h2 : k < 2 * (L.cols - 1)
  · right
    have a0 : ¬ 2 * k < 2 * (L.cols - 1) := by omega
    have a1 : ¬ 2 * k + 1 < 2 * (L.cols - 1) := by omega
    have b0 : 2 * k < 4 * (L.cols - 1) := by omega
    have b1 : 2 * k + 1 < 4 * (L.cols - 1) := by omega
    have q0 : (2 * k - 2 * (L.cols - 1)) % 2 = 0 := by omega
    have q1 : ¬ (2 * k + 1 - 2 * (L.cols - 1)) % 2 = 0 := by omega
    have e0 : (2 * k - 2 * (L.cols - 1)) / 2 = k - (L.cols - 1) := by omega
    have e1 : (2 * k + 1 - 2 * (L.cols - 1)) / 2 = k - (L.cols - 1) := by omega
    simp only [wall_verticies, wall_segment, if_neg h1, if_pos h2, if_neg a0, if_neg a1,
      if_pos b0, if_pos b1, if_pos q0, if_neg q1, e0, e1, side_bottom_1_eq, side_bottom_2_eq,
      and_self]
  by_cases h3 : k < 2 * (L.cols - 1) + (L.rows - 1)
  · right
    have a0 : ¬ 2 * k < 2 * (L.cols - 1) := by omega
    have a1 : ¬ 2 * k + 1 < 2 * (L.cols - 1) := by omega
    have b0 : ¬ 2 * k < 4 * (L.cols - 1) := by omega
    have b1 : ¬ 2 * k + 1 < 4 * (L.cols - 1) := by omega
    have c0 : 2 * k < 4 * (L.cols - 1) + 2 * (L.rows - 1) := by omega
    have c1 : 2 * k + 1 < 4 * (L.cols - 1) + 2 * (L.rows - 1) := by omega
    have q0 : (2 * k - 4 * (L.cols - 1)) % 2 = 0 := by omega
    have q1 : ¬ (2 * k + 1 - 4 * (L.cols - 1)) % 2 = 0 := by omega
    have e0 : (2 * k - 4 * (L.cols - 1)) / 2 = k - 2 * (L.cols - 1) := by omega
    have e1 : (2 * k + 1 - 4 * (L.cols - 1)) / 2 = k - 2 * (L.cols - 1) := by omega
    simp only [wall_verticies, wall_segment, if_neg h1, if_neg h2, if_pos h3, if_neg a0,
      if_neg a1, if_neg b0, if_neg b1, if_pos c0, if_pos c1, if_pos q0, if_neg q1, e0, e1,
      side_left_1_eq, side_left_2_eq, and_self]
  · left
    have a0 : ¬ 2 * k < 2 * (L.cols - 1) := by omega
    have a1 : ¬ 2 * k + 1 < 2 * (L.cols - 1) := by omega
    have b0 : ¬ 2 * k < 4 * (L.cols - 1) := by omega
    have b1 : ¬ 2 * k + 1 < 4 * (L.cols - 1) := by omega
    have c0 : ¬ 2 * k < 4 * (L.cols - 1) + 2 * (L.rows - 1) := by omega
    have c1 : ¬ 2 * k + 1 < 4 * (L.cols - 1) + 2 * (L.rows - 1) := by omega
    have q0 : (2 * k - (4 * (L.cols - 1) + 2 * (L.rows - 1))) % 2 = 0 := by omega
    have q1 : ¬ (2 * k + 1 - (4 * (L.cols - 1) + 2 * (L.rows - 1))) % 2 = 0 := by omega
    have e0 : (2 * k - (4 * (L.cols - 1) + 2 * (L.rows - 1))) / 2 =
        k - (2 * (L.cols - 1) + (L.rows - 1)) := by omega
    have e1 : (2 * k + 1 - (4 * (L.cols - 1) + 2 * (L.rows - 1))) / 2 =
        k - (2 * (L.cols - 1) + (L.rows - 1)) := by omega
    simp only [wall_verticies, wall_segment, if_neg h1, if_neg h2, if_neg h3, if_neg a0,
      if_neg a1, if_neg b0, if_neg b1, if_neg c0, if_neg c1, if_pos q0, if_neg q1, e0, e1,
      side_right_1_eq, side_right_2_eq, and_self]

/-! ## The cap facets and the segments they span -/

theorem boundary_segments_length (cols rows : Nat) :
    (boundary_segments cols rows).length = 2 * (cols - 1) + 2 * (rows - 1) := by
  simp only [boundary_segments, List.length_append, List.length_map, List.length_range]
  omega

theorem boundary_segments_nodup (cols rows : Nat) (hc : 2 ≤ cols) (hr : 2 ≤ rows) :
    (boundary_segments cols rows).Nodup := by
  unfold boundary_segments
  have inj : ∀ (f : Nat → segment), (∀ a b, f a = f b → a = b) → ∀ n,
      ((List.range n).map f).Nodup :=
    fun f hf n => (List.nodup_range n).map (fun a b h => hf a b h)
  refine List.Nodup.append (List.Nodup.append (List.Nodup.append ?_ ?_ ?_) ?_ ?_) ?_ ?_
  · exact inj _ (fun a b h => by simp only [Prod.mk.injEq] at h; omega) _
  · exact inj _ (fun a b h => by simp only [Prod.mk.injEq] at h; omega) _
  · intro x h1 h2
    simp only [List.mem_map, List.mem_range] at h1 h2
    obtain ⟨a, _, rfl⟩ := h1
    obtain ⟨c, _, h⟩ := h2
    simp only [Prod.mk.injEq] at h
    omega
  · exact inj _ (fun a b h => by simp only [Prod.mk.injEq] at h; omega) _
  · intro x h1 h2
    simp only [List.mem_append, List.mem_map, List.mem_range] at h1 h2
    obtain ⟨c, _, rfl⟩ := h2
    rcases h1 with ⟨a, _, h⟩ | ⟨a, _, h⟩ <;> simp only [Prod.mk.injEq] at h <;> omega
  · exact inj _ (fun a b h => by simp only [Prod.mk.injEq] at h; omega) _
  · intro x h1 h2
    simp only [List.mem_append, List.mem_map, List.mem_range] at h1 h2
    obtain ⟨c, _, rfl⟩ := h2
    rcases h1 with (⟨a, _, h⟩ | ⟨a, _, h⟩) | ⟨a, _, h⟩ <;>
      simp only [Prod.mk.injEq] at h <;> omega

theorem spans_lower_iff (env : helpers_t) (u fz : ℚ) (hu : 0 < u) (a sg : segment)
    (ctr : triplet_t ℚ) :
    spans u fz (mk_facet env (lower_pt u fz a.1.1 a.1.2, lower_pt u fz a.2.1 a.2.2, ctr)) sg ↔
      (a = sg ∨ a = (sg.2, sg.1)) := by
  unfold spans
  simp only [mk_facet]
  constructor
  · rintro (⟨h1, h2⟩ | ⟨h1, h2⟩)
    · obtain ⟨p1, p2⟩ := lower_pt_inj u fz hu _ _ _ _ h1
      obtain ⟨p3, p4⟩ := lower_pt_inj u fz hu _ _ _ _ h2
      exact Or.inl (Prod.ext (Prod.ext p1 p2) (Prod.ext p3 p4))
    · obtain ⟨p1, p2⟩ := lower_pt_inj u fz hu _ _ _ _ h1
      obtain ⟨p3, p4⟩ := lower_pt_inj u fz hu _ _ _ _ h2
      exact Or.inr (Prod.ext (Prod.ext p1 p2) (Prod.ext p3 p4))
  · rintro (h | h)
    · rw [h]
      exact Or.inl ⟨rfl, rfl⟩
    · rw [h]
      exact Or.inr ⟨rfl, rfl⟩

theorem cap_facet_lower (env : helpers_t) (vals : Nat → ℚ) (origin : stl_origin_t)
    (cols rows : Nat) (s b u : ℚ) (hv : valid_input cols rows s u)
    (minZ : ℚ) (hmin : is_minimum vals cols rows minZ)
    (j : Nat) (hj : j < 2 * (cols - 1) + 2 * (rows - 1)) :
    (mesh_facets env (locals_of vals origin cols rows s b u))[2 * (cols - 1) * (rows - 1) + j]? =
      some (mk_facet env
        (lower_pt u (floor_z minZ s b) (cap_ends cols rows j).1.1 (cap_ends cols rows j).1.2,
          lower_pt u (floor_z minZ s b) (cap_ends cols rows j).2.1 (cap_ends cols rows j).2.2,
          center_pt cols rows u (floor_z minZ s b))) := by
  rw [cap_facet_at env vals origin cols rows s b u j hj, cap_verticies_ends, locals_of_cols,
    locals_of_rows, floor_eq_lower vals origin cols rows s b u hv minZ hmin,
    floor_eq_lower vals origin cols rows s b u hv minZ hmin,
    center_eq vals origin cols rows s b u hv minZ hmin]

/-! ## The running index `f` and the indices assigned -/

theorem write_pair_snd (env : helpers_t) (s : List (facet_t ℚ) × Nat) (v w : verticies_t)
    (t : List Nat) : (write_pair env s v w).2 = (index_pair (t, s.2)).2 := rfl

theorem foldl_write_pair_snd (env : helpers_t) {α : Type} (v w : α → verticies_t) (l : List α) :
    ∀ (s : List (facet_t ℚ) × Nat) (t : List Nat × Nat), s.2 = t.2 →
      (l.foldl (fun s x => write_pair env s (v x) (w x)) s).2 =
        (l.foldl (fun s _ => index_pair s) t).2 := by
  induction l with
  | nil => intro s t h; exact h
  | cons a l ih =>
    intro s t h
    simp only [List.foldl_cons]
    apply ih
    show (s.2 + 2) % 2 ^ 32 = (t.2 + 2) % 2 ^ 32
    rw [h]

theorem foldl2_write_pair_snd (env : helpers_t) {α β : Type} (v w : α → β → verticies_t)
    (l : List α) (l2 : List β) :
    ∀ (s : List (facet_t ℚ) × Nat) (t : List Nat × Nat), s.2 = t.2 →
      (l.foldl (fun s x => l2.foldl (fun s y => write_pair env s (v x y) (w x y)) s) s).2 =
        (l.foldl (fun s _ => l2.foldl (fun s _ => index_pair s) s) t).2 := by
  induction l with
  | nil => intro s t h; exact h
  | cons a l ih =>
    intro s t h
    simp only [List.foldl_cons]
    apply ih
    exact foldl_write_pair_snd env (v a) (w a) l2 s t h

/-- The running index of `mesh_loops` is the running index of `mesh_indices`. -/
theorem mesh_loops_snd (env : helpers_t) (L : locals_t) (s : List (facet_t ℚ) × Nat)
    (t : List Nat) :
    (mesh_loops env L s).2 = (mesh_indices L.cols L.rows (t, s.2)).2 := by
  unfold mesh_loops mesh_indices
  apply foldl_write_pair_snd
  apply foldl_write_pair_snd
  apply foldl_write_pair_snd
  apply foldl_write_pair_snd
  apply foldl_write_pair_snd
  apply foldl_write_pair_snd
  apply foldl2_write_pair_snd
  rfl

/-! ### An index once assigned stays in the list -/

theorem index_pair_mem (x : Nat) (s : List Nat × Nat) (h : x ∈ s.1) : x ∈ (index_pair s).1 :=
  List.mem_append_left _ h

theorem foldl_index_mem (x : Nat) {α : Type} (body : List Nat × Nat → α → List Nat × Nat)
    (hbody : ∀ s a, x ∈ s.1 → x ∈ (body s a).1) (l : List α) :
    ∀ s : List Nat × Nat, x ∈ s.1 → x ∈ (l.foldl body s).1 := by
  induction l with
  | nil => intro s h; exact h
  | cons a l ih => intro s h; exact ih _ (hbody s a h)

theorem foldl_range_index_mem (x : Nat) (body : List Nat × Nat → Nat → List Nat × Nat)
    (hbody : ∀ s a, x ∈ s.1 → x ∈ (body s a).1) (s : List Nat × Nat) (n N : Nat)
    (hn : n ≤ N) (h : x ∈ ((List.range n).foldl body s).1) :
    x ∈ ((List.range N).foldl body s).1 := by
  induction N with
  | zero =>
    have : n = 0 := by omega
    subst this
    exact h
  | succ N ih =>
    by_cases hN : n = N + 1
    · subst hN
      exact h
    · rw [List.range_succ, List.foldl_append]
      exact hbody _ _ (ih (by omega))

/-- What the first `n` passes of the outer top-mesh loop assign, the whole run
of the loops assigns. -/
theorem mesh_indices_mem (cols rows n x : Nat) (hn : n ≤ rows - 1)
    (h : x ∈ ((List.range n).foldl
      (fun s _ => (List.range (cols - 1)).foldl (fun s _ => index_pair s) s) ([], 0)).1) :
    x ∈ (mesh_indices cols rows ([], 0)).1 := by
  have hp : ∀ (s : List Nat × Nat) (a : Nat), x ∈ s.1 → x ∈ (index_pair s).1 :=
    fun s _ hs => index_pair_mem x s hs
  unfold mesh_indices
  apply foldl_index_mem x _ hp
  apply foldl_index_mem x _ hp
  apply foldl_index_mem x _ hp
  apply foldl_index_mem x _ hp
  apply foldl_index_mem x _ hp
  apply foldl_index_mem x _ hp
  exact foldl_range_index_mem x _ (fun s _ hs => foldl_index_mem x _ hp _ s hs) _ n _ hn h

/-! ### Without wrap-around the loops assign `0, 1, 2, ...` in order -/

theorem index_pair_range (k : Nat) (h : k + 2 < 2 ^ 32) :
    index_pair (List.range k, k) = (List.range (k + 2), k + 2) := by
  simp only [index_pair, Nat.mod_eq_of_lt h, Nat.mod_eq_of_lt (show k + 1 < 2 ^ 32 by omega),
    List.range_succ, List.append_assoc, List.singleton_append]

theorem foldl_index_pair_range (n : Nat) : ∀ f, f + 2 * n < 2 ^ 32 →
    (List.range n).foldl (fun s _ => index_pair s) (List.range f, f) =
      (List.range (f + 2 * n), f + 2 * n) := by
  induction n with
  | zero => intro f _; rfl
  | succ n ih =>
    intro f h
    rw [List.range_succ, List.foldl_append, ih f (by omega)]
    simp only [List.foldl_cons, List.foldl_nil]
    rw [index_pair_range _ (by omega)]
    rfl

theorem foldl2_index_pair_range (n m : Nat) : ∀ f, f + 2 * (n * m) < 2 ^ 32 →
    (List.range m).foldl
        (fun s _ => (List.range n).foldl (fun s _ => index_pair s) s) (List.range f, f) =
      (List.range (f + 2 * (n * m)), f + 2 * (n * m)) := by
  induction m with
  | zero => intro f _; rfl
  | succ m ih =>
    intro f h
    have e : n * (m + 1) = n * m + n := Nat.mul_succ n m
    rw [e] at h
    rw [List.range_succ, List.foldl_append, ih f (by omega)]
    simp only [List.foldl_cons, List.foldl_nil]
    rw [foldl_index_pair_range n _ (by omega), e]
    have e2 : f + 2 * (n * m) + 2 * n = f + 2 * (n * m + n) := by omega
    rw [e2]

/-- Where the count of the spec fits 32 bits, the loops assign every index
below it exactly once, in increasing order, and leave `f` equal to it. -/
theorem mesh_indices_valid (cols rows : Nat) (h : facet_total cols rows < 2 ^ 32) :
    mesh_indices cols rows ([], 0) =
      (List.range (facet_total cols rows), facet_total cols rows) := by
  unfold facet_total at h ⊢
  have e : 2 * (cols - 1) * (rows - 1) = 2 * ((cols - 1) * (rows - 1)) := Nat.mul_assoc _ _ _
  rw [e] at h ⊢
  obtain ⟨p, hp⟩ : ∃ p, p = (cols - 1) * (rows - 1) := ⟨_, rfl⟩
  rw [← hp] at h ⊢
  have h0 : (([] : List Nat), 0) = (List.range 0, 0) := rfl
  unfold mesh_indices
  simp only []
  rw [h0, foldl2_index_pair_range (cols - 1) (rows - 1) 0 (by rw [← hp]; omega), ← hp,
    foldl_index_pair_range (rows - 1) _ (by omega),
    foldl_index_pair_range (cols - 1) _ (by omega),
    foldl_index_pair_range (cols - 1) _ (by omega),
    foldl_index_pair_range (cols - 1) _ (by omega),
    foldl_index_pair_range (rows - 1) _ (by omega),
    foldl_index_pair_range (rows - 1) _ (by omega)]
  have e3 : 0 + 2 * p + 2 * (rows - 1) + 2 * (cols - 1) + 2 * (cols - 1) + 2 * (cols - 1) +
      2 * (rows - 1) + 2 * (rows - 1) =
      2 * p + 2 * (cols - 1) + 2 * (rows - 1) + 4 * (cols - 1) + 4 * (rows - 1) := by omega
  rw [e3]

/-! ## Claims about the shape of the built mesh -/

/-- The layout of the bottom cap in exact arithmetic, that is with the
rounding of `double` arithmetic and of the cast to `float` left out (the
stored coordinates of the C code are `float` roundings, under which distinct
boundary points can coincide).  For every valid input, the
`2 (cols-1) + 2 (rows-1)` facets that
follow the top surface are the bottom cap: each has as third vertex the centre
`(((cols-1) div 2) * units_per_pixel, ((rows-1) div 2) * units_per_pixel,
floorZ)`, its first two vertices are the two end points of one unit segment of
the grid boundary at `floorZ`, and each of the `2 (cols-1) + 2 (rows-1)` unit
boundary segments (left, right, top and bottom edges) is spanned by exactly one
cap facet. -/
theorem bottom_cap_layout (env : helpers_t) (vals : Nat → ℚ) (origin : stl_origin_t)
    (cols rows : Nat) (s b u : ℚ) (hv : valid_input cols rows s u)
    (minZ : ℚ) (hmin : is_minimum vals cols rows minZ) :
    ∃ m, stl_from_heightmap_double env (some vals) origin cols rows s b u true =
        (STL_SUCCESS, some m) ∧
      (∀ j < 2 * (cols - 1) + 2 * (rows - 1),
        ∃ fa, m.facets[2 * (cols - 1) * (rows - 1) + j]? = some fa ∧
          fa.vertex3 = center_pt cols rows u (floor_z minZ s b) ∧
          ∃ sg ∈ boundary_segments cols rows, spans u (floor_z minZ s b) fa sg) ∧
      (boundary_segments cols rows).length = 2 * (cols - 1) + 2 * (rows - 1) ∧
      (boundary_segments cols rows).Nodup ∧
      ∀ sg ∈ boundary_segments cols rows,
        ∃! j, j < 2 * (cols - 1) + 2 * (rows - 1) ∧
          ∃ fa, m.facets[2 * (cols - 1) * (rows - 1) + j]? = some fa ∧
            spans u (floor_z minZ s b) fa sg := by
  have hu : 0 < u := hv.2.2.2.1
  refine ⟨_, stl_from_heightmap_double_eq env vals origin cols rows s b u hv, ?_,
    boundary_segments_length cols rows, boundary_segments_nodup cols rows hv.1 hv.2.1, ?_⟩
  · intro j hj
    refine ⟨_, cap_facet_lower env vals origin cols rows s b u hv minZ hmin j hj, rfl, ?_⟩
    rcases cap_ends_on_boundary cols rows j hj with h | h
    · exact ⟨_, h, (spans_lower_iff env u _ hu _ _ _).2 (Or.inl rfl)⟩
    · exact ⟨_, h, (spans_lower_iff env u _ hu _ _ _).2 (Or.inr rfl)⟩
  · intro sg hsg
    obtain ⟨j, hj, hjs, huniq⟩ := cap_ends_unique cols rows hv.1 hv.2.1 sg hsg
    refine ⟨j, ⟨hj, _, cap_facet_lower env vals origin cols rows s b u hv minZ hmin j hj,
      (spans_lower_iff env u _ hu _ _ _).2 hjs⟩, ?_⟩
    rintro j' ⟨hj', fa, hfa, hsp⟩
    have hget := cap_facet_lower env vals origin cols rows s b u hv minZ hmin j' hj'
    have hfa' : (mesh_facets env (locals_of vals origin cols rows s b u))[
        2 * (cols - 1) * (rows - 1) + j']? = some fa := hfa
    rw [hget] at hfa'
    rw [← Option.some.inj hfa'] at hsp
    exact huniq j' hj' ((spans_lower_iff env u _ hu _ _ _).1 hsp)

theorem bottom_cap_layout_witness :
    valid_input 3 2 100 1 ∧ is_minimum example_grid 3 2 1 ∧
    ∃ m, stl_from_heightmap_double example_env (some example_grid)
        stl_origin_t.STL_ORIGIN_TOP_LEFT 3 2 100 0 1 true = (STL_SUCCESS, some m) ∧
      (∀ j < 2 * (3 - 1) + 2 * (2 - 1),
        ∃ fa, m.facets[2 * (3 - 1) * (2 - 1) + j]? = some fa ∧
          fa.vertex3 = center_pt 3 2 1 (floor_z 1 100 0) ∧
          ∃ sg ∈ boundary_segments 3 2, spans 1 (floor_z 1 100 0) fa sg) ∧
      (boundary_segments 3 2).length = 2 * (3 - 1) + 2 * (2 - 1) ∧
      (boundary_segments 3 2).Nodup ∧
      ∀ sg ∈ boundary_segments 3 2,
        ∃! j, j < 2 * (3 - 1) + 2 * (2 - 1) ∧
          ∃ fa, m.facets[2 * (3 - 1) * (2 - 1) + j]? = some fa ∧
            spans 1 (floor_z 1 100 0) fa sg :=
  ⟨by decide, ⟨by decide, ⟨0, by decide, 0, by decide, by decide⟩⟩,
    bottom_cap_layout example_env example_grid stl_origin_t.STL_ORIGIN_TOP_LEFT 3 2 100 0 1
      (by decide) 1 ⟨by decide, ⟨0, by decide, 0, by decide, by decide⟩⟩⟩

/-- The layout of the side walls in exact arithmetic, that is with the
rounding of `double` arithmetic and of the cast to `float` left out (the
stored coordinates of the C code are the `float` roundings of these).  For
every valid input the last `4 (cols-1) + 4 (rows-1)` facets are
the side walls, two consecutive facets per unit boundary segment, the segments
taken in the order of `wall_segment`: top edge (row 0, `y = 0`), bottom edge
(row `rows - 1`), left edge (column 0, `x = 0`), right edge (column
`cols - 1`).  The two triangles of a segment together use exactly the four
corner points of its quad (the top-surface positions of the two boundary
samples and the same `(x, y)` at `floorZ`), and both contain the diagonal from
the upper corner of the second sample to the lower corner of the first. -/
theorem side_walls_layout (env : helpers_t) (vals : Nat → ℚ) (origin : stl_origin_t)
    (cols rows : Nat) (s b u : ℚ) (hv : valid_input cols rows s u)
    (minZ : ℚ) (hmin : is_minimum vals cols rows minZ) :
    ∃ m, stl_from_heightmap_double env (some vals) origin cols rows s b u true =
        (STL_SUCCESS, some m) ∧
      m.facets.length = 2 * (cols - 1) * (rows - 1) + (2 * (cols - 1) + 2 * (rows - 1)) +
        (4 * (cols - 1) + 4 * (rows - 1)) ∧
      ∀ k < 2 * (cols - 1) + 2 * (rows - 1),
        wall_segment cols rows k ∈ boundary_segments cols rows ∧
        ∃ f1 f2,
          m.facets[2 * (cols - 1) * (rows - 1) + (2 * (cols - 1) + 2 * (rows - 1)) + 2 * k]?
            = some f1 ∧
          m.facets[2 * (cols - 1) * (rows - 1) + (2 * (cols - 1) + 2 * (rows - 1)) +
            (2 * k + 1)]? = some f2 ∧
          (∀ p, p ∈ verts f1 ∨ p ∈ verts f2 ↔
            p ∈ quad_corners (oriented vals origin cols rows) cols s b u (floor_z minZ s b)
              (wall_segment cols rows k)) ∧
          position (oriented vals origin cols rows) cols s b u (wall_segment cols rows k).2.1
              (wall_segment cols rows k).2.2 ∈ verts f1 ∧
          lower_pt u (floor_z minZ s b) (wall_segment cols rows k).1.1
              (wall_segment cols rows k).1.2 ∈ verts f1 ∧
          position (oriented vals origin cols rows) cols s b u (wall_segment cols rows k).2.1
              (wall_segment cols rows k).2.2 ∈ verts f2 ∧
          lower_pt u (floor_z minZ s b) (wall_segment cols rows k).1.1
              (wall_segment cols rows k).1.2 ∈ verts f2 := by
  refine ⟨_, stl_from_heightmap_double_eq env vals origin cols rows s b u hv, ?_, ?_⟩
  · show (mesh_facets env _).length = _
    rw [mesh_facets_length, locals_of_cols, locals_of_rows]
    unfold facet_total
    ring
  intro k hk
  obtain ⟨g1, g2, g3, g4⟩ := wall_segment_in_grid cols rows k hv.1 hv.2.1 hk
  have hp := wall_pair (locals_of vals origin cols rows s b u) k
  rw [locals_of_cols, locals_of_rows] at hp
  simp only [top_eq_position vals origin cols rows s b u hv _ _ g1 g2,
    top_eq_position vals origin cols rows s b u hv _ _ g3 g4,
    floor_eq_lower vals origin cols rows s b u hv minZ hmin] at hp
  refine ⟨wall_segment_on_boundary cols rows k hk, _, _,
    wall_facet_at env vals origin cols rows s b u (2 * k) (by omega),
    wall_facet_at env vals origin cols rows s b u (2 * k + 1) (by omega), ?_⟩
  rcases hp with ⟨e1, e2⟩ | ⟨e1, e2⟩ <;>
    simp only [e1, e2, verts, mk_facet, quad_corners, List.mem_cons, List.mem_singleton,
      List.not_mem_nil, or_false, true_or, or_true, and_true, true_and] <;>
    intro p <;> tauto

theorem side_walls_layout_witness :
    valid_input 3 2 100 1 ∧ is_minimum example_grid 3 2 1 ∧
    ∃ m, stl_from_heightmap_double example_env (some example_grid)
        stl_origin_t.STL_ORIGIN_BOTTOM_LEFT 3 2 100 0 1 true = (STL_SUCCESS, some m) ∧
      m.facets.length = 2 * (3 - 1) * (2 - 1) + (2 * (3 - 1) + 2 * (2 - 1)) +
        (4 * (3 - 1) + 4 * (2 - 1)) ∧
      ∀ k < 2 * (3 - 1) + 2 * (2 - 1),
        wall_segment 3 2 k ∈ boundary_segments 3 2 ∧
        ∃ f1 f2,
          m.facets[2 * (3 - 1) * (2 - 1) + (2 * (3 - 1) + 2 * (2 - 1)) + 2 * k]? = some f1 ∧
          m.facets[2 * (3 - 1) * (2 - 1) + (2 * (3 - 1) + 2 * (2 - 1)) + (2 * k + 1)]?
            = some f2 ∧
          (∀ p, p ∈ verts f1 ∨ p ∈ verts f2 ↔
            p ∈ quad_corners (oriented example_grid stl_origin_t.STL_ORIGIN_BOTTOM_LEFT 3 2) 3
              100 0 1 (floor_z 1 100 0) (wall_segment 3 2 k)) ∧
          position (oriented example_grid stl_origin_t.STL_ORIGIN_BOTTOM_LEFT 3 2) 3 100 0 1
              (wall_segment 3 2 k).2.1 (wall_segment 3 2 k).2.2 ∈ verts f1 ∧
          lower_pt 1 (floor_z 1 100 0) (wall_segment 3 2 k).1.1 (wall_segment 3 2 k).1.2
              ∈ verts f1 ∧
          position (oriented example_grid stl_origin_t.STL_ORIGIN_BOTTOM_LEFT 3 2) 3 100 0 1
              (wall_segment 3 2 k).2.1 (wall_segment 3 2 k).2.2 ∈ verts f2 ∧
          lower_pt 1 (floor_z 1 100 0) (wall_segment 3 2 k).1.1 (wall_segment 3 2 k).1.2
              ∈ verts f2 :=
  ⟨by decide, ⟨by decide, ⟨0, by decide, 0, by decide, by decide⟩⟩,
    side_walls_layout example_env example_grid stl_origin_t.STL_ORIGIN_BOTTOM_LEFT 3 2 100 0 1
      (by decide) 1 ⟨by decide, ⟨0, by decide, 0, by decide, by decide⟩⟩⟩

/-- C7, the code at a failing input.  For a grid of 2 columns and 536870913
rows with `scale_pct = 100` and `units_per_pixel = 1` none of the conditions
of the argument test holds and the output reference is present, so the
builder goes on: it allocates `fascet_count = 6` facets, the count having
wrapped around, and the mesh loops then assign `facets[6]`, an index that is
not below the allocated count, where the claim lets the call return
success. -/
theorem accepted_arguments_overrun_the_facets :
    ¬ ((some zero_grid).isNone ∨ 2 < 2 ∨ 536870913 < 2 ∨ (100 : ℚ) ≤ 0 ∨ (1 : ℚ) ≤ 0 ∨
      true = false) ∧
    stl_new example_env (fascet_count 2 536870913) =
      (STL_SUCCESS,
        some { header := example_env.fresh_header
               facets_count := 6
               facets := List.replicate 6 example_env.fresh_facet }) ∧
    ∃ i ∈ (mesh_indices 2 536870913 ([], 0)).1, fascet_count 2 536870913 ≤ i :=
  ⟨args_accepted zero_grid 2 536870913 100 1 (by decide) (by decide) (by norm_num)
      (by norm_num),
    by decide,
    6, mesh_indices_mem 2 536870913 4 6 (by decide) (by decide), by decide⟩

/-- C14, the code at a failing input.  For a grid of 2 columns and 536870913
rows the builder accepts the arguments and allocates `fascet_count = 6`
facets, the count having wrapped around in `unsigned int`; the fourth pass of
the top-mesh loop then assigns `facets[6]` and `facets[7]`, indices that are
not below the preallocated count. -/
theorem mesh_loops_assign_past_count :
    (∃ m, stl_from_heightmap_double example_env (some zero_grid)
        stl_origin_t.STL_ORIGIN_BOTTOM_LEFT 2 536870913 100 0 1 true = (STL_SUCCESS, some m) ∧
      m.facets_count = 6) ∧
    fascet_count 2 536870913 = 6 ∧
    6 ∈ (mesh_indices 2 536870913 ([], 0)).1 ∧ 7 ∈ (mesh_indices 2 536870913 ([], 0)).1 :=
  ⟨⟨_, stl_from_heightmap_double_accepts example_env zero_grid _ 2 536870913 100 0 1
      (by decide) (by decide) (by norm_num) (by norm_num), by decide⟩,
    by decide,
    mesh_indices_mem 2 536870913 4 6 (by decide) (by decide),
    mesh_indices_mem 2 536870913 4 7 (by decide) (by decide)⟩

/-- C15.  The built model is a closed shell: for every valid input, for every
facet of the result and each of its three directed edges between consecutive
vertices, some facet of the result has the reversed directed edge, with the
same two vertex positions. -/
theorem mesh_is_closed_shell (env : helpers_t) (vals : Nat → ℚ) (origin : stl_origin_t)
    (cols rows : Nat) (s b u : ℚ) (hv : valid_input cols rows s u) :
    ∃ m, stl_from_heightmap_double env (some vals) origin cols rows s b u true =
        (STL_SUCCESS, some m) ∧
      m.facets.length = m.facets_count ∧
      ∀ fa ∈ m.facets, ∀ e ∈ edges fa, ∃ fb ∈ m.facets, (e.2, e.1) ∈ edges fb := by
  refine ⟨_, stl_from_heightmap_double_eq env vals origin cols rows s b u hv, ?_, ?_⟩
  · show (mesh_facets env _).length = facet_total cols rows
    rw [mesh_facets_length, locals_of_cols, locals_of_rows]
  · exact mesh_facets_closed env _ (by rw [locals_of_rows]; exact hv.2.1)
      (by rw [locals_of_cols]; exact hv.1)

theorem mesh_is_closed_shell_witness :
    valid_input 3 2 100 1 ∧
    ∃ m, stl_from_heightmap_double example_env (some example_grid)
        stl_origin_t.STL_ORIGIN_BOTTOM_LEFT 3 2 100 0 1 true = (STL_SUCCESS, some m) ∧
      m.facets.length = m.facets_count ∧
      ∀ fa ∈ m.facets, ∀ e ∈ edges fa, ∃ fb ∈ m.facets, (e.2, e.1) ∈ edges fb :=
  ⟨by decide, mesh_is_closed_shell example_env example_grid
    stl_origin_t.STL_ORIGIN_BOTTOM_LEFT 3 2 100 0 1 (by decide)⟩

/-! ## Unpacking what was packed -/

theorem stl_unpack_pack_le32 (b0 b1 b2 b3 : byte) :
    stl_unpack_le32 (stl_pack_le32 [b0, b1, b2, b3]) = (STL_SUCCESS, [b0, b1, b2, b3]) := by
  rw [stl_unpack_le32_eq, stl_pack_le32_eq]
  simp only [List.getD_cons_zero, List.getD_cons_succ]
  have h0 := b0.isLt
  have h1 := b1.isLt
  have h2 := b2.isLt
  have h3 := b3.isLt
  have e0 : le_byte (b0.val + 256 * b1.val + 65536 * b2.val + 16777216 * b3.val) 0 = b0 :=
    Fin.ext (by rw [le_byte_val]; omega)
  have e1 : le_byte (b0.val + 256 * b1.val + 65536 * b2.val + 16777216 * b3.val) 1 = b1 :=
    Fin.ext (by rw [le_byte_val]; omega)
  have e2 : le_byte (b0.val + 256 * b1.val + 65536 * b2.val + 16777216 * b3.val) 2 = b2 :=
    Fin.ext (by rw [le_byte_val]; omega)
  have e3 : le_byte (b0.val + 256 * b1.val + 65536 * b2.val + 16777216 * b3.val) 3 = b3 :=
    Fin.ext (by rw [le_byte_val]; omega)
  rw [e0, e1, e2, e3]

theorem stl_unpack_pack_le16 (b0 b1 : byte) :
    stl_unpack_le16 (stl_pack_le16 [b0, b1]) = (STL_SUCCESS, [b0, b1]) := by
  rw [stl_unpack_le16_eq, stl_pack_le16_eq]
  simp only [List.getD_cons_zero, List.getD_cons_succ]
  have h0 := b0.isLt
  have h1 := b1.isLt
  have e0 : le_byte (b0.val + 256 * b1.val) 0 = b0 := Fin.ext (by rw [le_byte_val]; omega)
  have e1 : le_byte (b0.val + 256 * b1.val) 1 = b1 := Fin.ext (by rw [le_byte_val]; omega)
  rw [e0, e1]

/-! ## Loading looks only at the header, the count and the announced records -/

theorem getD_of_take_eq (a b : List byte) (n k : Nat) (h : a.take n = b.take n) (hk : k < n) :
    a.getD k 0 = b.getD k 0 := by
  rw [← getD_take_lt a n k hk, ← getD_take_lt b n k hk, h]

theorem take_of_take_eq (a b : List byte) (n k : Nat) (h : a.take n = b.take n) (hk : k ≤ n) :
    a.take k = b.take k := by
  have e1 : a.take k = (a.take n).take k := by rw [List.take_take, Nat.min_eq_left hk]
  have e2 : b.take k = (b.take n).take k := by rw [List.take_take, Nat.min_eq_left hk]
  rw [e1, e2, h]

theorem announced_count_of_take_eq (a b : List byte) (n : Nat) (h : a.take n = b.take n)
    (hn : 84 ≤ n) : announced_count a = announced_count b := by
  unfold announced_count
  rw [getD_of_take_eq a b n 80 h (by omega), getD_of_take_eq a b n 81 h (by omega),
    getD_of_take_eq a b n 82 h (by omega), getD_of_take_eq a b n 83 h (by omega)]

theorem facet_at_offset_of_take_eq (a b : List byte) (n off : Nat) (h : a.take n = b.take n)
    (hoff : off + 50 ≤ n) : facet_at_offset a off = facet_at_offset b off := by
  have g : ∀ k, k < 50 → a.getD (off + k) 0 = b.getD (off + k) 0 :=
    fun k hk => getD_of_take_eq a b n (off + k) h (by omega)
  have g0 := g 0 (by omega)
  rw [Nat.add_zero] at g0
  simp only [facet_at_offset, triplet_at_offset, float_at_offset, Nat.add_assoc, g0,
    g 1 (by omega), g 2 (by omega), g 3 (by omega), g 4 (by omega), g 5 (by omega),
    g 6 (by omega), g 7 (by omega), g 8 (by omega), g 9 (by omega), g 10 (by omega),
    g 11 (by omega), g 12 (by omega), g 13 (by omega), g 14 (by omega), g 15 (by omega),
    g 16 (by omega), g 17 (by omega), g 18 (by omega), g 19 (by omega), g 20 (by omega),
    g 21 (by omega), g 22 (by omega), g 23 (by omega), g 24 (by omega), g 25 (by omega),
    g 26 (by omega), g 27 (by omega), g 28 (by omega), g 29 (by omega), g 30 (by omega),
    g 31 (by omega), g 32 (by omega), g 33 (by omega), g 34 (by omega), g 35 (by omega),
    g 36 (by omega), g 37 (by omega), g 38 (by omega), g 39 (by omega), g 40 (by omega),
    g 41 (by omega), g 42 (by omega), g 43 (by omega), g 44 (by omega), g 45 (by omega),
    g 46 (by omega), g 47 (by omega), g 48 (by omega), g 49 (by omega)]

theorem stl_read_file_of_take_eq (heap : heap_t) (fs1 fs2 : filesystem)
    (path1 path2 : String) (f1 f2 : List byte) (h1 : fs1 path1 = some f1)
    (h2 : fs2 path2 = some f2)
    (hlen1 : 84 + 50 * announced_count f1 ≤ f1.length)
    (hlen2 : 84 + 50 * announced_count f1 ≤ f2.length)
    (hagree : f1.take (84 + 50 * announced_count f1) = f2.take (84 + 50 * announced_count f1)) :
    stl_read_file heap fs1 (some path1) true = stl_read_file heap fs2 (some path2) true := by
  have hc := announced_count_of_take_eq f1 f2 _ hagree (by omega)
  have h5 := take_of_take_eq f1 f2 _ 5 hagree (by omega)
  have h80 := take_of_take_eq f1 f2 _ 80 hagree (by omega)
  by_cases hs : f1.take 5 = solid
  · rw [stl_read_file_solid heap fs1 path1 f1 h1 (by omega) hs,
      stl_read_file_solid heap fs2 path2 f2 h2 (by omega) (by rw [← h5]; exact hs)]
  have hs2 : f2.take 5 ≠ solid := by rw [← h5]; exact hs
  cases ha : heap (announced_count f1 * sizeof_facet_t) with
  | false =>
    rw [stl_read_file_nomem heap fs1 path1 f1 h1 (by omega) hs ha,
      stl_read_file_nomem heap fs2 path2 f2 h2 (by omega) hs2 (by rw [← hc]; exact ha)]
  | true =>
    by_cases hN : announced_count f1 = 0
    · have ha0 : heap 0 = true := by
        rw [hN, Nat.zero_mul] at ha
        exact ha
      rw [stl_read_file_zero heap fs1 path1 f1 h1 (by omega) hs hN ha0,
        stl_read_file_zero heap fs2 path2 f2 h2 (by omega) hs2 (by rw [← hc]; exact hN) ha0]
    · rw [stl_read_file_ok heap fs1 path1 f1 h1 hlen1 hs (by omega) ha,
        stl_read_file_ok heap fs2 path2 f2 h2 (by rw [← hc]; exact hlen2) hs2
          (by rw [← hc]; omega) (by rw [← hc]; exact ha),
        ← hc, h80]
      congr 4
      apply List.map_congr_left
      intro i hi
      rw [List.mem_range] at hi
      have hi' : 50 * i + 50 ≤ 50 * announced_count f1 := by omega
      exact facet_at_offset_of_take_eq f1 f2 _ _ hagree (by omega)

/-! ## The winding of the top surface and of the bottom cap -/

theorem top_facet_get (env : helpers_t) (L : locals_t) (j : Nat)
    (hj : j < 2 * (L.cols - 1) * (L.rows - 1)) :
    ∃ r, r < L.rows - 1 ∧ ∃ c, c < L.cols - 1 ∧
      ((mesh_facets env L)[j]? = some (mk_facet env (top_mesh_1 L r c)) ∨
        (mesh_facets env L)[j]? = some (mk_facet env (top_mesh_2 L r c))) := by
  have hlen := top_facets_length env L
  have hj' : j < (top_facets env L).length := by rw [hlen]; exact hj
  have hget : (top_facets env L)[j]? = some ((top_facets env L)[j]) :=
    List.getElem?_eq_getElem hj'
  obtain ⟨r, hr, c, hc, h⟩ := (mem_top_facets env L _).mp (List.getElem_mem hj')
  refine ⟨r, hr, c, hc, ?_⟩
  rw [getElem?_mesh_top env L j hj', hget]
  rcases h with h | h
  · exact Or.inl (congrArg some h)
  · exact Or.inr (congrArg some h)

theorem top_faces_up (env : helpers_t) (L : locals_t) (r c : Nat) :
    (cross (mk_facet env (top_mesh_1 L r c))).t3 = L.units_per_pixel * L.units_per_pixel ∧
    (cross (mk_facet env (top_mesh_2 L r c))).t3 = L.units_per_pixel * L.units_per_pixel := by
  constructor
  · simp only [cross, mk_facet, top_mesh_1]
    push_cast
    ring
  · simp only [cross, mk_facet, top_mesh_2]
    push_cast
    ring

theorem cap_faces_down (env : helpers_t) (L : locals_t) (hu : 0 < L.units_per_pixel)
    (hx : L.center_x = (((L.cols - 1) / 2 : Nat) : ℚ) * L.units_per_pixel)
    (hy : L.center_y = (((L.rows - 1) / 2 : Nat) : ℚ) * L.units_per_pixel) (j : Nat) :
    (cross (mk_facet env (cap_verticies L j))).t3 ≤ 0 ∧
    ((cross (mk_facet env (cap_verticies L j))).t3 = 0 ↔
      center_on_segment_line (mk_facet env (cap_verticies L j))) := by
  have hu' : L.units_per_pixel ≠ 0 := ne_of_gt hu
  have cx0 : 0 ≤ L.center_x := by rw [hx]; positivity
  have cy0 : 0 ≤ L.center_y := by rw [hy]; positivity
  have cx1 : L.center_x ≤ ((L.cols - 1 : Nat) : ℚ) * L.units_per_pixel := by
    rw [hx]
    exact mul_le_mul_of_nonneg_right (Nat.cast_le.mpr (Nat.div_le_self _ _)) hu.le
  have cy1 : L.center_y ≤ ((L.rows - 1 : Nat) : ℚ) * L.units_per_pixel := by
    rw [hy]
    exact mul_le_mul_of_nonneg_right (Nat.cast_le.mpr (Nat.div_le_self _ _)) hu.le
  have step : ∀ k : Nat, ((k + 1 : Nat) : ℚ) * L.units_per_pixel ≠ (k : ℚ) * L.units_per_pixel := by
    intro k h
    push_cast at h
    have : L.units_per_pixel = 0 := by linarith
    exact hu' this
  unfold cap_verticies
  split_ifs
  · have hz : (cross (mk_facet env (bottom_left L (j / 2)))).t3 =
        -(L.units_per_pixel * L.center_x) := by
      simp only [cross, mk_facet, bottom_left]
      push_cast
      ring
    rw [hz]
    refine ⟨by nlinarith, ?_⟩
    simp only [center_on_segment_line, mk_facet, bottom_left, zero_mul, true_and]
    constructor
    · intro h
      left
      have := mul_eq_zero.mp (neg_eq_zero.mp h)
      tauto
    · rintro (h | ⟨h, _⟩)
      · rw [h]; ring
      · exact absurd h.symm (step _)
  · have hz : (cross (mk_facet env (bottom_right L (j / 2)))).t3 =
        L.units_per_pixel * (L.center_x - ((L.cols - 1 : Nat) : ℚ) * L.units_per_pixel) := by
      simp only [cross, mk_facet, bottom_right]
      push_cast
      ring
    rw [hz]
    refine ⟨by nlinarith, ?_⟩
    simp only [center_on_segment_line, mk_facet, bottom_right, true_and]
    constructor
    · intro h
      left
      rcases mul_eq_zero.mp h with h | h
      · exact absurd h hu'
      · linarith
    · rintro (h | ⟨h, _⟩)
      · rw [h]; ring
      · exact absurd h (step _)
  · have hz : (cross (mk_facet env (bottom_top L ((j - 2 * (L.rows - 1)) / 2)))).t3 =
        -(L.units_per_pixel * L.center_y) := by
      simp only [cross, mk_facet, bottom_top]
      push_cast
      ring
    rw [hz]
    refine ⟨by nlinarith, ?_⟩
    simp only [center_on_segment_line, mk_facet, bottom_top, zero_mul, true_and]
    constructor
    · intro h
      right
      have := mul_eq_zero.mp (neg_eq_zero.mp h)
      tauto
    · rintro (⟨h, _⟩ | h)
      · exact absurd h (step _)
      · rw [h]; ring
  · have hz : (cross (mk_facet env (bottom_bottom L ((j - 2 * (L.rows - 1)) / 2)))).t3 =
        L.units_per_pixel * (L.center_y - ((L.rows - 1 : Nat) : ℚ) * L.units_per_pixel) := by
      simp only [cross, mk_facet, bottom_bottom]
      push_cast
      ring
    rw [hz]
    refine ⟨by nlinarith, ?_⟩
    simp only [center_on_segment_line, mk_facet, bottom_bottom, true_and]
    constructor
    · intro h
      right
      rcases mul_eq_zero.mp h with h | h
      · exact absurd h hu'
      · linarith
    · rintro (⟨h, _⟩ | h)
      · exact absurd h.symm (step _)
      · rw [h]; ring

/-! ## What the transforms leave alone -/

theorem map_modify_of_inv {α β : Type} (g : α → α) (p : α → β) (hg : ∀ x, p (g x) = p x) :
    ∀ (l : List α) (i : Nat), (l.modify g i).map p = l.map p := by
  intro l
  induction l with
  | nil => intro i; cases i <;> rfl
  | cons a l ih =>
    intro i
    cases i with
    | zero => simp [hg]
    | succ i => simp [ih]

theorem foldl_modify_map_inv {α β : Type} (g : α → α) (p : α → β)
    (hg : ∀ x, p (g x) = p x) (idx : List Nat) :
    ∀ l : List α, (idx.foldl (fun acc i => acc.modify g i) l).map p = l.map p := by
  induction idx with
  | nil => intro l; rfl
  | cons i idx ih =>
    intro l
    rw [List.foldl_cons, ih, map_modify_of_inv g p hg]

theorem stl_rotate_facet_abc {F : Type} [Field F] (axis : stl_axis_t) (cs sn : F)
    (f : facet_t F) : (stl_rotate_facet axis cs sn f).abc = f.abc := by
  unfold stl_rotate_facet
  split_ifs <;> rfl

theorem stl_rotate_facet_other_axis {F : Type} [Field F] (axis : stl_axis_t) (cs sn : F)
    (hx : axis ≠ STL_AXIS_X) (hy : axis ≠ STL_AXIS_Y) :
    stl_rotate_facet axis cs sn = stl_rotate_facet STL_AXIS_Z cs sn := by
  funext f
  have h1 : ¬ (STL_AXIS_X = STL_AXIS_Z) := by decide
  have h2 : ¬ (STL_AXIS_Y = STL_AXIS_Z) := by decide
  simp only [stl_rotate_facet, if_neg (Ne.symm hx), if_neg (Ne.symm hy), if_neg h1, if_neg h2]

/-! ## Rotations keep lengths and are undone by the opposite rotation -/

theorem rot_vec_norm_sq {F : Type} [Field F] (cs sn : F) (h : cs * cs + sn * sn = 1)
    (v : triplet_t F) :
    norm_sq (_rot_vec_x cs sn v) = norm_sq v ∧ norm_sq (_rot_vec_y cs sn v) = norm_sq v ∧
      norm_sq (_rot_vec_z cs sn v) = norm_sq v := by
  refine ⟨?_, ?_, ?_⟩
  · simp only [norm_sq, _rot_vec_x]
    linear_combination (v.t2 * v.t2 + v.t3 * v.t3) * h
  · simp only [norm_sq, _rot_vec_y]
    linear_combination (v.t1 * v.t1 + v.t3 * v.t3) * h
  · simp only [norm_sq, _rot_vec_z]
    linear_combination (v.t1 * v.t1 + v.t2 * v.t2) * h

theorem rot_vec_back {F : Type} [Field F] (cs sn : F) (h : cs * cs + sn * sn = 1)
    (v : triplet_t F) :
    _rot_vec_x cs (-sn) (_rot_vec_x cs sn v) = v ∧ _rot_vec_y cs (-sn) (_rot_vec_y cs sn v) = v ∧
      _rot_vec_z cs (-sn) (_rot_vec_z cs sn v) = v := by
  cases v with
  | mk a b c =>
    refine ⟨?_, ?_, ?_⟩
    · simp only [_rot_vec_x, triplet_t.mk.injEq, true_and]
      exact ⟨by linear_combination b * h, by linear_combination c * h⟩
    · simp only [_rot_vec_y, triplet_t.mk.injEq, true_and, and_true]
      exact ⟨by linear_combination a * h, by linear_combination c * h⟩
    · simp only [_rot_vec_z, triplet_t.mk.injEq, and_true]
      exact ⟨by linear_combination a * h, by linear_combination b * h⟩

theorem stl_rotate_facet_back {F : Type} [Field F] (axis : stl_axis_t) (cs sn : F)
    (h : cs * cs + sn * sn = 1) (f : facet_t F) :
    stl_rotate_facet axis cs (-sn) (stl_rotate_facet axis cs sn f) = f := by
  cases f with
  | mk n v1 v2 v3 abc =>
    unfold stl_rotate_facet
    split_ifs <;>
      simp only [(rot_vec_back cs sn h _).1, (rot_vec_back cs sn h _).2.1,
        (rot_vec_back cs sn h _).2.2]

theorem deg2rad_neg {F : Type} [Field F] (lm : libm_t F) (d : F) :
    deg2rad lm (-d) = -deg2rad lm d := by
  unfold deg2rad
  ring

/-! ## The builder reads the samples only inside the grid -/

theorem mesh_loops_congr (env : helpers_t) (L L' : locals_t)
    (hcols : L'.cols = L.cols) (hrows : L'.rows = L.rows)
    (hs : L'.scale_pct = L.scale_pct) (hb : L'.base_height = L.base_height)
    (hu : L'.units_per_pixel = L.units_per_pixel) (hm : L'.min_z_scaled = L.min_z_scaled)
    (hx : L'.center_x = L.center_x) (hy : L'.center_y = L.center_y)
    (hr1 : 1 ≤ L.rows) (hc1 : 1 ≤ L.cols)
    (hat : ∀ r < L.rows, ∀ c < L.cols, L'.at r c = L.at r c)
    (s : List (facet_t ℚ) × Nat) :
    mesh_loops env L' s = mesh_loops env L s := by
  have h1 : ∀ s, (List.range (L'.rows - 1)).foldl
      (fun s r => (List.range (L'.cols - 1)).foldl
        (fun s c => write_pair env s (top_mesh_1 L' r c) (top_mesh_2 L' r c)) s) s =
      (List.range (L.rows - 1)).foldl
      (fun s r => (List.range (L.cols - 1)).foldl
        (fun s c => write_pair env s (top_mesh_1 L r c) (top_mesh_2 L r c)) s) s := by
    intro s
    rw [hcols, hrows]
    apply List.foldl_ext
    intro s r hr
    apply List.foldl_ext
    intro s c hc
    have hr' := List.mem_range.mp hr
    have hc' := List.mem_range.mp hc
    simp only [top_mesh_1, top_mesh_2, hs, hb, hu, hat r (by omega) c (by omega),
      hat r (by omega) (c + 1) (by omega), hat (r + 1) (by omega) c (by omega),
      hat (r + 1) (by omega) (c + 1) (by omega)]
  have h2 : ∀ s, (List.range (L'.rows - 1)).foldl
      (fun s r => write_pair env s (bottom_left L' r) (bottom_right L' r)) s =
      (List.range (L.rows - 1)).foldl
      (fun s r => write_pair env s (bottom_left L r) (bottom_right L r)) s := by
    intro s
    rw [hrows]
    apply List.foldl_ext
    intro s r _
    simp only [bottom_left, bottom_right, hb, hu, hm, hx, hy, hcols]
  have h3 : ∀ s, (List.range (L'.cols - 1)).foldl
      (fun s c => write_pair env s (bottom_top L' c) (bottom_bottom L' c)) s =
      (List.range (L.cols - 1)).foldl
      (fun s c => write_pair env s (bottom_top L c) (bottom_bottom L c)) s := by
    intro s
    rw [hcols]
    apply List.foldl_ext
    intro s c _
    simp only [bottom_top, bottom_bottom, hb, hu, hm, hx, hy, hrows]
  have h4 : ∀ s, (List.range (L'.cols - 1)).foldl
      (fun s c => write_pair env s (side_top_1 L' c) (side_top_2 L' c)) s =
      (List.range (L.cols - 1)).foldl
      (fun s c => write_pair env s (side_top_1 L c) (side_top_2 L c)) s := by
    intro s
    rw [hcols]
    apply List.foldl_ext
    intro s c hc
    have hc' := List.mem_range.mp hc
    simp only [side_top_1, side_top_2, hs, hb, hu, hm, hat 0 (by omega) c (by omega),
      hat 0 (by omega) (c + 1) (by omega)]
  have h5 : ∀ s, (List.range (L'.cols - 1)).foldl
      (fun s c => write_pair env s (side_bottom_1 L' c) (side_bottom_2 L' c)) s =
      (List.range (L.cols - 1)).foldl
      (fun s c => write_pair env s (side_bottom_1 L c) (side_bottom_2 L c)) s := by
    intro s
    rw [hcols]
    apply List.foldl_ext
    intro s c hc
    have hc' := List.mem_range.mp hc
    simp only [side_bottom_1, side_bottom_2, hs, hb, hu, hm, hrows,
      hat (L.rows - 1) (by omega) c (by omega),
      hat (L.rows - 1) (by omega) (c + 1) (by omega)]
  have h6 : ∀ s, (List.range (L'.rows - 1)).foldl
      (fun s r => write_pair env s (side_left_1 L' r) (side_left_2 L' r)) s =
      (List.range (L.rows - 1)).foldl
      (fun s r => write_pair env s (side_left_1 L r) (side_left_2 L r)) s := by
    intro s
    rw [hrows]
    apply List.foldl_ext
    intro s r hr
    have hr' := List.mem_range.mp hr
    simp only [side_left_1, side_left_2, hs, hb, hu, hm, hat r (by omega) 0 (by omega),
      hat (r + 1) (by omega) 0 (by omega)]
  have h7 : ∀ s, (List.range (L'.rows - 1)).foldl
      (fun s r => write_pair env s (side_right_1 L' r) (side_right_2 L' r)) s =
      (List.range (L.rows - 1)).foldl
      (fun s r => write_pair env s (side_right_1 L r) (side_right_2 L r)) s := by
    intro s
    rw [hrows]
    apply List.foldl_ext
    intro s r hr
    have hr' := List.mem_range.mp hr
    simp only [side_right_1, side_right_2, hs, hb, hu, hm, hcols,
      hat r (by omega) (L.cols - 1) (by omega),
      hat (r + 1) (by omega) (L.cols - 1) (by omega)]
  unfold mesh_loops
  simp only [h1, h2, h3, h4, h5, h6, h7]

theorem cell_index_lt (cols rows r c k : Nat) (hr : r < rows) (hc : c < cols)
    (hk : k ≤ r * cols) : k + c < cols * rows := by
  have h1 : (r + 1) * cols ≤ rows * cols := Nat.mul_le_mul_right cols hr
  have h2 : (r + 1) * cols = r * cols + cols := Nat.succ_mul r cols
  have h3 : cols * rows = rows * cols := Nat.mul_comm cols rows
  omega

theorem hmap_index_lt (vals : Nat → ℚ) (origin : stl_origin_t) (cols rows : Nat) (s b u : ℚ)
    (r c : Nat) (hr : r < rows) (hc : c < cols) :
    (locals_of vals origin cols rows s b u).hmap.getD r 0 + c < cols * rows := by
  cases origin with
  | STL_ORIGIN_BOTTOM_LEFT =>
    simp only [locals_of, reduceCtorEq, if_false, hmap_init_getD cols rows r hr]
    exact cell_index_lt cols rows r c _ hr hc (Nat.mod_le _ _)
  | STL_ORIGIN_TOP_LEFT =>
    have hs := hmap_swap_getD (hmap_init cols rows) r (by rw [hmap_init_length]; exact hr)
    rw [hmap_init_length] at hs
    simp only [locals_of, if_true, hs, hmap_init_getD cols rows (rows - 1 - r) (by omega)]
    exact cell_index_lt cols rows (rows - 1 - r) c _ (by omega) hc (Nat.mod_le _ _)

/-- The result of the builder depends on the samples only at the indices below
`cols * rows`. -/
theorem stl_from_heightmap_double_congr (env : helpers_t) (vals1 vals2 : Nat → ℚ)
    (origin : stl_origin_t) (cols rows : Nat) (s b u : ℚ) (newstl : Bool)
    (h : ∀ i < cols * rows, vals1 i = vals2 i) :
    stl_from_heightmap_double env (some vals1) origin cols rows s b u newstl =
      stl_from_heightmap_double env (some vals2) origin cols rows s b u newstl := by
  by_cases hrej : cols < 2 ∨ rows < 2 ∨ s ≤ 0 ∨ u ≤ 0 ∨ newstl = false
  · rw [stl_from_heightmap_double_rejects env _ origin cols rows s b u newstl (Or.inr hrej),
      stl_from_heightmap_double_rejects env _ origin cols rows s b u newstl (Or.inr hrej)]
  · have hc2 : 2 ≤ cols := by
      by_contra hn
      exact hrej (Or.inl (by omega))
    have hr2 : 2 ≤ rows := by
      by_contra hn
      exact hrej (Or.inr (Or.inl (by omega)))
    have hat : ∀ r < rows, ∀ c < cols,
        (locals_of vals1 origin cols rows s b u).at r c =
          (locals_of vals2 origin cols rows s b u).at r c := by
      intro r hr c hc
      exact h _ (hmap_index_lt vals1 origin cols rows s b u r c hr hc)
    have hmin : (locals_of vals1 origin cols rows s b u).min_z_scaled =
        (locals_of vals2 origin cols rows s b u).min_z_scaled := by
      rw [locals_of_min_z_scaled, locals_of_min_z_scaled]
      congr 1
      exact find_min_z_congr vals1 vals2 _ _ cols rows (by omega) (by omega)
        (fun r hr c hc => hat r hr c hc)
    have key := fun st => mesh_loops_congr env (locals_of vals2 origin cols rows s b u)
      (locals_of vals1 origin cols rows s b u) rfl rfl rfl rfl rfl hmin rfl rfl
      (by rw [locals_of_rows]; omega) (by rw [locals_of_cols]; omega)
      (by rw [locals_of_rows, locals_of_cols]; exact hat) st
    simp only [stl_from_heightmap_double, Option.getD_some, Option.isNone_some, key]

/-! ## The variants for 8-bit samples -/

theorem buffer_at_widen (f : Nat → ℚ) (cols rows : Nat) (hfit : cols * rows < 2 ^ 32)
    (i : Nat) (hi : i < cols * rows) : buffer_at (widen_loop f cols rows) i = f i := by
  unfold buffer_at widen_loop
  rw [Nat.mod_eq_of_lt hfit, List.getD_eq_getElem?_getD, List.getElem?_map,
    List.getElem?_range hi]
  rfl

theorem widened_eq_double (env : helpers_t) (f : Nat → ℚ) (origin : stl_origin_t)
    (cols rows : Nat) (s b u : ℚ) (out : Bool) (hfit : cols * rows < 2 ^ 32) :
    stl_from_heightmap_double env (some (buffer_at (widen_loop f cols rows))) origin cols rows
        s b u out =
      stl_from_heightmap_double env (some f) origin cols rows s b u out :=
  stl_from_heightmap_double_congr env _ _ origin cols rows s b u out
    (fun i hi => buffer_at_widen f cols rows hfit i hi)

/-- Where `cols * rows` fits `unsigned int`, the variant for `unsigned char`
samples returns what `stl_from_heightmap_double` returns on the samples
converted one for one. -/
theorem stl_from_heightmap_uchar_eq (env : helpers_t) (vals : Nat → byte)
    (origin : stl_origin_t) (cols rows : Nat) (s b u : ℚ) (out : Bool)
    (hfit : cols * rows < 2 ^ 32) :
    stl_from_heightmap_uchar env (some vals) origin cols rows s b u out =
      stl_from_heightmap_double env (some (fun i => ((vals i).val : ℚ))) origin cols rows
        s b u out := by
  by_cases h0 : 0 = cols ∨ 0 = rows
  · have hne : ¬ (STL_SUCCESS = STL_ERROR_INVALID_ARG) := by decide
    rw [stl_from_heightmap_double_rejects env _ origin cols rows s b u out
      (by rcases h0 with h | h <;> omega)]
    simp only [stl_from_heightmap_uchar, Option.isNone_some, Bool.false_eq_true, false_or, h0,
      if_true, STL_LOG_ERR, hne, if_false]
  · simp only [stl_from_heightmap_uchar, Option.isNone_some, Bool.false_eq_true, false_or, h0,
      if_false, if_true, STL_LOG_ERR, Option.getD_some,
      widened_eq_double env _ origin cols rows s b u out hfit]

/-- Where `cols * rows` fits `unsigned int`, the variant for `signed char`
samples returns what `stl_from_heightmap_double` returns on the samples
converted one for one. -/
theorem stl_from_heightmap_char_eq (env : helpers_t) (vals : Nat → Int)
    (origin : stl_origin_t) (cols rows : Nat) (s b u : ℚ) (out : Bool)
    (hfit : cols * rows < 2 ^ 32) :
    stl_from_heightmap_char env (some vals) origin cols rows s b u out =
      stl_from_heightmap_double env (some (fun i => ((vals i : Int) : ℚ))) origin cols rows
        s b u out := by
  by_cases h0 : 0 = cols ∨ 0 = rows
  · have hne : ¬ (STL_SUCCESS = STL_ERROR_INVALID_ARG) := by decide
    rw [stl_from_heightmap_double_rejects env _ origin cols rows s b u out
      (by rcases h0 with h | h <;> omega)]
    simp only [stl_from_heightmap_char, Option.isNone_some, Bool.false_eq_true, false_or, h0,
      if_true, STL_LOG_ERR, hne, if_false]
  · simp only [stl_from_heightmap_char, Option.isNone_some, Bool.false_eq_true, false_or, h0,
      if_false, if_true, STL_LOG_ERR, Option.getD_some,
      widened_eq_double env _ origin cols rows s b u out hfit]

theorem widen_loop_wraps (f : Nat → ℚ) : widen_loop f 65536 65536 = [] := by
  unfold widen_loop
  rw [show (65536 * 65536) % 2 ^ 32 = 0 from by norm_num]
  rfl

theorem buffer_at_nil : buffer_at [] = fun _ => 0 := by
  funext k
  rfl

/-- Reading the samples from a file that holds at least `cols * rows` bytes,
fewer than 2^31, gives what the builder gives on these bytes converted one for
one. -/
theorem file_variant_reads_samples (env : helpers_t) (fs : filesystem) (path : String)
    (file : List byte) (origin : stl_origin_t) (cols rows : Nat) (s b u : ℚ) (out : Bool)
    (hfile : fs path = some file) (hfit : cols * rows < 2 ^ 31)
    (hlen : cols * rows ≤ file.length) :
    stl_from_heightmap_uchar_file env fs (some path) origin cols rows s b u out =
      stl_from_heightmap_double env (some (fun i => ((file.getD i 0).val : ℚ))) origin cols rows
        s b u out := by
  have hmod : (cols * rows) % 2 ^ 32 = cols * rows := Nat.mod_eq_of_lt (by omega)
  have hl : (List.take (cols * rows) file).length = cols * rows := by
    rw [List.length_take]; omega
  have hi : int_of_size (cols * rows) = ((cols * rows : Nat) : Int) := by
    unfold int_of_size
    rw [hmod, if_pos hfit]
  have hsz : size_of_int ((cols * rows : Nat) : Int) = cols * rows := by
    unfold size_of_int
    have : ((cols * rows : Nat) : Int) % 2 ^ 64 = ((cols * rows : Nat) : Int) := by
      apply Int.emod_eq_of_lt
      · exact Int.ofNat_nonneg _
      · have : cols * rows < 2 ^ 64 := by omega
        exact_mod_cast this
    rw [this]
    rfl
  have hne : ¬ (STL_SUCCESS = STL_ERROR_IO_ERROR) := by decide
  simp only [stl_from_heightmap_uchar_file, Option.isNone_some, Bool.false_eq_true, if_false,
    if_true, Option.some_bind, hfile, Option.getD_some, fread, hmod, hl, hi, hsz, ne_eq,
    not_true_eq_false, STL_LOG_ERR]
  rw [stl_from_heightmap_uchar_eq env _ origin cols rows s b u out (by omega)]
  apply stl_from_heightmap_double_congr
  intro i hi'
  simp only [getD_take_lt file (cols * rows) i hi']

/-! ## Claims about the helpers, the variants and the transforms -/

/-- C29.  The little-endian helpers are mutually inverse.  For every 32-bit
value `v`, `stl_pack_le32` of the four bytes that `stl_unpack_le32 v` produces
is `v`; for every four bytes, `stl_unpack_le32` of their `stl_pack_le32` gives
them back, and byte 0 is the least significant (the packed value is
`b0 + 256 b1 + 65536 b2 + 16777216 b3`).  The same holds for `stl_pack_le16`
and `stl_unpack_le16` on 16-bit values and two bytes. -/
theorem le_helpers_inverse (v w : Nat) (hv : v < 2 ^ 32) (hw : w < 2 ^ 16)
    (b0 b1 b2 b3 : byte) :
    (stl_unpack_le32 v).1 = STL_SUCCESS ∧ (stl_unpack_le32 v).2.length = 4 ∧
    stl_pack_le32 (stl_unpack_le32 v).2 = v ∧
    stl_unpack_le32 (stl_pack_le32 [b0, b1, b2, b3]) = (STL_SUCCESS, [b0, b1, b2, b3]) ∧
    stl_pack_le32 [b0, b1, b2, b3] =
      b0.val + 256 * b1.val + 65536 * b2.val + 16777216 * b3.val ∧
    (stl_unpack_le16 w).1 = STL_SUCCESS ∧ (stl_unpack_le16 w).2.length = 2 ∧
    stl_pack_le16 (stl_unpack_le16 w).2 = w ∧
    stl_unpack_le16 (stl_pack_le16 [b0, b1]) = (STL_SUCCESS, [b0, b1]) ∧
    stl_pack_le16 [b0, b1] = b0.val + 256 * b1.val := by
  refine ⟨?_, ?_, ?_, stl_unpack_pack_le32 b0 b1 b2 b3, ?_, ?_, ?_, ?_,
    stl_unpack_pack_le16 b0 b1, ?_⟩
  · rw [stl_unpack_le32_eq]
  · rw [stl_unpack_le32_eq]
    rfl
  · rw [stl_unpack_le32_eq]
    exact le32_roundtrip v hv
  · rw [stl_pack_le32_eq]
    rfl
  · rw [stl_unpack_le16_eq]
  · rw [stl_unpack_le16_eq]
    rfl
  · rw [stl_unpack_le16_eq]
    exact le16_roundtrip w hw
  · rw [stl_pack_le16_eq]
    rfl

theorem le_helpers_inverse_witness :
    (305419896 < 2 ^ 32) ∧ (4660 < 2 ^ 16) ∧
    (stl_unpack_le32 305419896).1 = STL_SUCCESS ∧ (stl_unpack_le32 305419896).2.length = 4 ∧
    stl_pack_le32 (stl_unpack_le32 305419896).2 = 305419896 ∧
    stl_unpack_le32 (stl_pack_le32 [120, 86, 52, 18]) = (STL_SUCCESS, [120, 86, 52, 18]) ∧
    stl_pack_le32 [120, 86, 52, 18] =
      (120 : byte).val + 256 * (86 : byte).val + 65536 * (52 : byte).val +
        16777216 * (18 : byte).val ∧
    (stl_unpack_le16 4660).1 = STL_SUCCESS ∧ (stl_unpack_le16 4660).2.length = 2 ∧
    stl_pack_le16 (stl_unpack_le16 4660).2 = 4660 ∧
    stl_unpack_le16 (stl_pack_le16 [120, 86]) = (STL_SUCCESS, [120, 86]) ∧
    stl_pack_le16 [120, 86] = (120 : byte).val + 256 * (86 : byte).val :=
  ⟨by decide, by decide, le_helpers_inverse 305419896 4660 (by decide) (by decide) 120 86 52 18⟩

/-- C28.  `stl_read_file` ignores everything after the last facet record: two
files that agree on their first `84 + 50 N` bytes, `N` being the count encoded
in bytes 80..83, and are both at least that long give identical load results;
so bytes appended to such a file change nothing, and never turn a successful
load into an error. -/
theorem stl_read_file_ignores_trailing_bytes (heap : heap_t) (fs1 fs2 : filesystem)
    (path1 path2 : String) (f1 f2 extra : List byte) (h1 : fs1 path1 = some f1)
    (h2 : fs2 path2 = some f2)
    (hlen1 : 84 + 50 * announced_count f1 ≤ f1.length)
    (hlen2 : 84 + 50 * announced_count f1 ≤ f2.length)
    (hagree : f1.take (84 + 50 * announced_count f1) = f2.take (84 + 50 * announced_count f1)) :
    stl_read_file heap fs1 (some path1) true = stl_read_file heap fs2 (some path2) true ∧
    stl_read_file heap (fun _ => some (f1 ++ extra)) (some path1) true =
      stl_read_file heap fs1 (some path1) true ∧
    (∀ m, stl_read_file heap fs1 (some path1) true = some (STL_SUCCESS, m) →
      stl_read_file heap (fun _ => some (f1 ++ extra)) (some path1) true =
        some (STL_SUCCESS, m)) := by
  have key : stl_read_file heap (fun _ => some (f1 ++ extra)) (some path1) true =
      stl_read_file heap fs1 (some path1) true :=
    (stl_read_file_of_take_eq heap fs1 (fun _ => some (f1 ++ extra)) path1 path1 f1
      (f1 ++ extra) h1 rfl hlen1 (by rw [List.length_append]; omega)
      (by rw [List.take_append_of_le_length hlen1])).symm
  refine ⟨stl_read_file_of_take_eq heap fs1 fs2 path1 path2 f1 f2 h1 h2 hlen1 hlen2 hagree,
    key, ?_⟩
  intro m h
  rw [key]
  exact h

theorem stl_read_file_ignores_trailing_bytes_witness :
    (fun _ => some one_facet_file : filesystem) example_path = some one_facet_file ∧
    (fun _ => some (one_facet_file ++ [5, 6, 7]) : filesystem) example_path =
      some (one_facet_file ++ [5, 6, 7]) ∧
    84 + 50 * announced_count one_facet_file ≤ one_facet_file.length ∧
    84 + 50 * announced_count one_facet_file ≤ (one_facet_file ++ [5, 6, 7]).length ∧
    one_facet_file.take (84 + 50 * announced_count one_facet_file) =
      (one_facet_file ++ [5, 6, 7]).take (84 + 50 * announced_count one_facet_file) ∧
    stl_read_file always_heap (fun _ => some one_facet_file) (some example_path) true =
      stl_read_file always_heap (fun _ => some (one_facet_file ++ [5, 6, 7]))
        (some example_path) true ∧
    stl_read_file always_heap (fun _ => some (one_facet_file ++ [9])) (some example_path) true =
      stl_read_file always_heap (fun _ => some one_facet_file) (some example_path) true ∧
    (∀ m, stl_read_file always_heap (fun _ => some one_facet_file) (some example_path) true =
        some (STL_SUCCESS, m) →
      stl_read_file always_heap (fun _ => some (one_facet_file ++ [9])) (some example_path)
        true = some (STL_SUCCESS, m)) :=
  ⟨rfl, rfl, by decide, by decide, by decide,
    stl_read_file_ignores_trailing_bytes always_heap (fun _ => some one_facet_file)
      (fun _ => some (one_facet_file ++ [5, 6, 7])) example_path example_path one_facet_file
      (one_facet_file ++ [5, 6, 7]) [9] rfl rfl (by decide) (by decide) (by decide)⟩

/-- The winding of the top surface and of the bottom cap in exact arithmetic,
that is with the rounding of `double` arithmetic and of the cast to `float`
left out (on the stored `float` coordinates of the C code the value need not
be `units_per_pixel ^ 2`, and is 0 where neighbouring columns round to the
same `float`).  For every valid input and every facet with vertices `a`, `b`,
`c` in
stored order, the Z component of `(b - a) × (c - a)` is `units_per_pixel ^ 2`,
which is positive, for every top-surface facet, and is `<= 0` for every
bottom-cap facet, where it is 0 exactly when the centre lies on the line of
the facet's boundary segment. -/
theorem top_faces_up_and_cap_faces_down (env : helpers_t) (vals : Nat → ℚ)
    (origin : stl_origin_t) (cols rows : Nat) (s b u : ℚ) (hv : valid_input cols rows s u) :
    ∃ m, stl_from_heightmap_double env (some vals) origin cols rows s b u true =
        (STL_SUCCESS, some m) ∧
      0 < u ^ 2 ∧
      (∀ j < 2 * (cols - 1) * (rows - 1),
        ∃ fa, m.facets[j]? = some fa ∧ (cross fa).t3 = u ^ 2) ∧
      (∀ j < 2 * (cols - 1) + 2 * (rows - 1),
        ∃ fa, m.facets[2 * (cols - 1) * (rows - 1) + j]? = some fa ∧
          (cross fa).t3 ≤ 0 ∧ ((cross fa).t3 = 0 ↔ center_on_segment_line fa)) := by
  have hu : 0 < u := hv.2.2.2.1
  refine ⟨_, stl_from_heightmap_double_eq env vals origin cols rows s b u hv, by positivity,
    ?_, ?_⟩
  · intro j hj
    obtain ⟨r, _, c, _, h | h⟩ :=
      top_facet_get env (locals_of vals origin cols rows s b u) j hj
    · exact ⟨_, h, by rw [(top_faces_up env _ r c).1, pow_two]; rfl⟩
    · exact ⟨_, h, by rw [(top_faces_up env _ r c).2, pow_two]; rfl⟩
  · intro j hj
    exact ⟨_, cap_facet_at env vals origin cols rows s b u j hj,
      cap_faces_down env (locals_of vals origin cols rows s b u) hu rfl rfl j⟩

theorem top_faces_up_and_cap_faces_down_witness :
    valid_input 3 2 100 1 ∧
    ∃ m, stl_from_heightmap_double example_env (some example_grid)
        stl_origin_t.STL_ORIGIN_BOTTOM_LEFT 3 2 100 0 1 true = (STL_SUCCESS, some m) ∧
      (0 : ℚ) < 1 ^ 2 ∧
      (∀ j < 2 * (3 - 1) * (2 - 1),
        ∃ fa, m.facets[j]? = some fa ∧ (cross fa).t3 = 1 ^ 2) ∧
      (∀ j < 2 * (3 - 1) + 2 * (2 - 1),
        ∃ fa, m.facets[2 * (3 - 1) * (2 - 1) + j]? = some fa ∧
          (cross fa).t3 ≤ 0 ∧ ((cross fa).t3 = 0 ↔ center_on_segment_line fa)) :=
  ⟨by decide, top_faces_up_and_cap_faces_down example_env example_grid
    stl_origin_t.STL_ORIGIN_BOTTOM_LEFT 3 2 100 0 1 (by decide)⟩

/-- C23.  For every present model, `stl_rotate` and `stl_scale` succeed and
leave the header, `facets_count`, the number and order of the facets and the
attribute field of every facet unchanged; `stl_scale` also leaves every normal
unchanged. -/
theorem transforms_frame {F : Type} [Field F] (lm : libm_t F) (axis : stl_axis_t)
    (degrees pct_x pct_y pct_z : F) (m : stl_t F) :
    ∃ r s : stl_t F,
      stl_rotate lm axis degrees (some m) = (STL_SUCCESS, some r) ∧
      stl_scale pct_x pct_y pct_z (some m) = (STL_SUCCESS, some s) ∧
      r.header = m.header ∧ r.facets_count = m.facets_count ∧
      r.facets.length = m.facets.length ∧
      r.facets.map (fun f => f.abc) = m.facets.map (fun f => f.abc) ∧
      s.header = m.header ∧ s.facets_count = m.facets_count ∧
      s.facets.length = m.facets.length ∧
      s.facets.map (fun f => f.abc) = m.facets.map (fun f => f.abc) ∧
      s.facets.map (fun f => f.normal) = m.facets.map (fun f => f.normal) := by
  have ra := foldl_modify_map_inv
    (stl_rotate_facet axis (lm.cos (deg2rad lm degrees)) (lm.sin (deg2rad lm degrees)))
    (fun f => f.abc) (fun f => stl_rotate_facet_abc axis _ _ f)
    (List.range m.facets_count) m.facets
  have sa := foldl_modify_map_inv
    (stl_scale_facet (pct_x / 100) (pct_y / 100) (pct_z / 100))
    (fun f => f.abc) (fun _ => rfl) (List.range m.facets_count) m.facets
  have sn := foldl_modify_map_inv
    (stl_scale_facet (pct_x / 100) (pct_y / 100) (pct_z / 100))
    (fun f => f.normal) (fun _ => rfl) (List.range m.facets_count) m.facets
  refine ⟨_, _, rfl, rfl, rfl, rfl, ?_, ra, rfl, rfl, ?_, sa, sn⟩
  · have := congrArg List.length ra
    simpa only [List.length_map] using this
  · have := congrArg List.length sa
    simpa only [List.length_map] using this

/-- C26.  For every present model, every angle and every axis value that is
neither `STL_AXIS_X` nor `STL_AXIS_Y` (`STL_AXIS_UNKNOWN` and any other integer
included), `stl_rotate` returns `STL_SUCCESS` and the same model as with
`STL_AXIS_Z`: an invalid axis is not rejected. -/
theorem stl_rotate_other_axis_is_z {F : Type} [Field F] (lm : libm_t F) (axis : stl_axis_t)
    (degrees : F) (m : stl_t F) (hx : axis ≠ STL_AXIS_X) (hy : axis ≠ STL_AXIS_Y) :
    stl_rotate lm axis degrees (some m) = stl_rotate lm STL_AXIS_Z degrees (some m) ∧
    (stl_rotate lm axis degrees (some m)).1 = STL_SUCCESS ∧
    (stl_rotate lm axis degrees (some m)).2.isSome = true := by
  refine ⟨?_, rfl, rfl⟩
  simp only [stl_rotate, stl_rotate_facet_other_axis axis _ _ hx hy]

theorem stl_rotate_other_axis_is_z_witness :
    STL_AXIS_UNKNOWN ≠ STL_AXIS_X ∧ STL_AXIS_UNKNOWN ≠ STL_AXIS_Y ∧
    stl_rotate quarter_turns STL_AXIS_UNKNOWN 90 (some example_solid) =
      stl_rotate quarter_turns STL_AXIS_Z 90 (some example_solid) ∧
    (stl_rotate quarter_turns STL_AXIS_UNKNOWN 90 (some example_solid)).1 = STL_SUCCESS ∧
    (stl_rotate quarter_turns STL_AXIS_UNKNOWN 90 (some example_solid)).2.isSome = true :=
  ⟨by decide, by decide,
    stl_rotate_other_axis_is_z quarter_turns STL_AXIS_UNKNOWN 90 example_solid
      (by decide) (by decide)⟩

/-- C27.  Over exact arithmetic, with a cosine and a sine such that
`cos^2 + sin^2 = 1`, `cos (-x) = cos x` and `sin (-x) = -sin x`: for each of
the three per-vector rotations of `stl_rotate`, every angle and every vector,
the rotation preserves `x^2 + y^2 + z^2`, and rotating by `theta` and then by
`-theta` about the same axis returns the original vector; so `stl_rotate` by
`degrees` followed by `stl_rotate` by `-degrees` about the same axis returns
the model. -/
theorem rotation_preserves_length_and_inverts {F : Type} [Field F] (lm : libm_t F)
    (hpyth : ∀ x, lm.cos x * lm.cos x + lm.sin x * lm.sin x = 1)
    (heven : ∀ x, lm.cos (-x) = lm.cos x) (hodd : ∀ x, lm.sin (-x) = -lm.sin x)
    (theta degrees : F) (v : triplet_t F) (axis : stl_axis_t) (m : stl_t F)
    (hm : stl_sized m) :
    norm_sq (_rot_vec_x (lm.cos theta) (lm.sin theta) v) = norm_sq v ∧
    norm_sq (_rot_vec_y (lm.cos theta) (lm.sin theta) v) = norm_sq v ∧
    norm_sq (_rot_vec_z (lm.cos theta) (lm.sin theta) v) = norm_sq v ∧
    _rot_vec_x (lm.cos (-theta)) (lm.sin (-theta))
      (_rot_vec_x (lm.cos theta) (lm.sin theta) v) = v ∧
    _rot_vec_y (lm.cos (-theta)) (lm.sin (-theta))
      (_rot_vec_y (lm.cos theta) (lm.sin theta) v) = v ∧
    _rot_vec_z (lm.cos (-theta)) (lm.sin (-theta))
      (_rot_vec_z (lm.cos theta) (lm.sin theta) v) = v ∧
    stl_rotate lm axis (-degrees) (stl_rotate lm axis degrees (some m)).2 =
      (STL_SUCCESS, some m) := by
  have hn := rot_vec_norm_sq (lm.cos theta) (lm.sin theta) (hpyth theta) v
  have hb := rot_vec_back (lm.cos theta) (lm.sin theta) (hpyth theta) v
  rw [heven, hodd]
  refine ⟨hn.1, hn.2.1, hn.2.2, hb.1, hb.2.1, hb.2.2, ?_⟩
  rw [stl_rotate_eq lm axis degrees m hm]
  rw [stl_rotate_eq lm axis (-degrees) _ (by
      show (List.map _ m.facets).length = m.facets_count
      rw [List.length_map]
      exact hm), deg2rad_neg, heven, hodd]
  simp only [List.map_map]
  have hid : (stl_rotate_facet axis (lm.cos (deg2rad lm degrees))
      (-lm.sin (deg2rad lm degrees)) ∘
      stl_rotate_facet axis (lm.cos (deg2rad lm degrees)) (lm.sin (deg2rad lm degrees))) = id := by
    funext f
    exact stl_rotate_facet_back axis _ _ (hpyth _) f
  rw [hid, List.map_id]

theorem rotation_preserves_length_and_inverts_witness :
    (∀ x : ℝ, Real.cos x * Real.cos x + Real.sin x * Real.sin x = 1) ∧
    (∀ x : ℝ, Real.cos (-x) = Real.cos x) ∧ (∀ x : ℝ, Real.sin (-x) = -Real.sin x) ∧
    stl_sized (⟨[], 1, [⟨⟨1, 0, 0⟩, ⟨1, 0, 0⟩, ⟨0, 2, 0⟩, ⟨0, 0, 3⟩, 0⟩]⟩ : stl_t ℝ) ∧
    norm_sq (_rot_vec_x (Real.cos 1) (Real.sin 1) (⟨1, 2, 3⟩ : triplet_t ℝ)) =
      norm_sq (⟨1, 2, 3⟩ : triplet_t ℝ) ∧
    norm_sq (_rot_vec_y (Real.cos 1) (Real.sin 1) (⟨1, 2, 3⟩ : triplet_t ℝ)) =
      norm_sq (⟨1, 2, 3⟩ : triplet_t ℝ) ∧
    norm_sq (_rot_vec_z (Real.cos 1) (Real.sin 1) (⟨1, 2, 3⟩ : triplet_t ℝ)) =
      norm_sq (⟨1, 2, 3⟩ : triplet_t ℝ) ∧
    _rot_vec_x (Real.cos (-1)) (Real.sin (-1))
      (_rot_vec_x (Real.cos 1) (Real.sin 1) (⟨1, 2, 3⟩ : triplet_t ℝ)) = ⟨1, 2, 3⟩ ∧
    _rot_vec_y (Real.cos (-1)) (Real.sin (-1))
      (_rot_vec_y (Real.cos 1) (Real.sin 1) (⟨1, 2, 3⟩ : triplet_t ℝ)) = ⟨1, 2, 3⟩ ∧
    _rot_vec_z (Real.cos (-1)) (Real.sin (-1))
      (_rot_vec_z (Real.cos 1) (Real.sin 1) (⟨1, 2, 3⟩ : triplet_t ℝ)) = ⟨1, 2, 3⟩ ∧
    stl_rotate ⟨Real.pi, Real.cos, Real.sin⟩ STL_AXIS_Y (-30)
      (stl_rotate ⟨Real.pi, Real.cos, Real.sin⟩ STL_AXIS_Y 30
        (some (⟨[], 1, [⟨⟨1, 0, 0⟩, ⟨1, 0, 0⟩, ⟨0, 2, 0⟩, ⟨0, 0, 3⟩, 0⟩]⟩ : stl_t ℝ))).2 =
      (STL_SUCCESS,
        some (⟨[], 1, [⟨⟨1, 0, 0⟩, ⟨1, 0, 0⟩, ⟨0, 2, 0⟩, ⟨0, 0, 3⟩, 0⟩]⟩ : stl_t ℝ)) :=
  have hp : ∀ x : ℝ, Real.cos x * Real.cos x + Real.sin x * Real.sin x = 1 := fun x => by
    have := Real.cos_sq_add_sin_sq x
    rw [pow_two, pow_two] at this
    exact this
  ⟨hp, Real.cos_neg, Real.sin_neg, rfl,
    rotation_preserves_length_and_inverts ⟨Real.pi, Real.cos, Real.sin⟩ hp Real.cos_neg
      Real.sin_neg 1 30 ⟨1, 2, 3⟩ STL_AXIS_Y _ rfl⟩

/-- C21, the code at a failing input.  For a grid of 65536 columns and 65536
rows the product `cols * rows`, taken in `unsigned int`, is 0: the buffer
`vals_double` gets no element and the loop copies no sample, whatever the
2^32 samples are, and `stl_from_heightmap_double` is then run on that empty
buffer with `cols = rows = 65536`.  In the embedding, where a read outside the
buffer gives 0, the result of both variants is that of the builder on samples
that are all 0. -/
theorem variants_copy_no_sample_of_large_grid (env : helpers_t) (vals : Nat → byte)
    (svals : Nat → Int) (origin : stl_origin_t) (s b u : ℚ) (out : Bool) :
    (65536 * 65536) % 2 ^ 32 = 0 ∧
    widen_loop (fun i => ((vals i).val : ℚ)) 65536 65536 = [] ∧
    widen_loop (fun i => ((svals i : Int) : ℚ)) 65536 65536 = [] ∧
    stl_from_heightmap_uchar env (some vals) origin 65536 65536 s b u out =
      stl_from_heightmap_double env (some (fun _ => 0)) origin 65536 65536 s b u out ∧
    stl_from_heightmap_char env (some svals) origin 65536 65536 s b u out =
      stl_from_heightmap_double env (some (fun _ => 0)) origin 65536 65536 s b u out := by
  have h0 : ¬ (0 = 65536 ∨ 0 = 65536) := by decide
  refine ⟨by norm_num, widen_loop_wraps _, widen_loop_wraps _, ?_, ?_⟩
  · simp only [stl_from_heightmap_uchar, Option.isNone_some, Bool.false_eq_true, false_or, h0,
      if_false, if_true, STL_LOG_ERR, Option.getD_some, widen_loop_wraps, buffer_at_nil]
  · simp only [stl_from_heightmap_char, Option.isNone_some, Bool.false_eq_true, false_or, h0,
      if_false, if_true, STL_LOG_ERR, Option.getD_some, widen_loop_wraps, buffer_at_nil]

/-- C22, the code at the failing inputs.  `STL_ERROR_IO_ERROR` and
`STL_ERROR_INVALID_ARG` are the same value, 2: `stl_from_heightmap_uchar_file`
returns it for an absent filename, for a file that cannot be opened and for a
file with fewer than `cols * rows` bytes alike. -/
theorem io_error_is_invalid_arg :
    STL_ERROR_IO_ERROR = STL_ERROR_INVALID_ARG ∧
    stl_from_heightmap_uchar_file example_env empty_fs none
      stl_origin_t.STL_ORIGIN_BOTTOM_LEFT 3 2 100 0 1 true = (STL_ERROR_INVALID_ARG, none) ∧
    stl_from_heightmap_uchar_file example_env empty_fs (some example_path)
      stl_origin_t.STL_ORIGIN_BOTTOM_LEFT 3 2 100 0 1 true = (STL_ERROR_IO_ERROR, none) ∧
    stl_from_heightmap_uchar_file example_env three_byte_fs (some example_path)
      stl_origin_t.STL_ORIGIN_BOTTOM_LEFT 3 2 100 0 1 true = (STL_ERROR_IO_ERROR, none) ∧
    (stl_from_heightmap_uchar_file example_env empty_fs none
      stl_origin_t.STL_ORIGIN_BOTTOM_LEFT 3 2 100 0 1 true).1 =
    (stl_from_heightmap_uchar_file example_env empty_fs (some example_path)
      stl_origin_t.STL_ORIGIN_BOTTOM_LEFT 3 2 100 0 1 true).1 := by
  refine ⟨rfl, ?_, ?_, ?_, ?_⟩ <;> decide

end Stl3d
